import Mathlib

/-!
# mongo-go-helper: the store helper, the migration runner and the seeding reconciler

A shallow embedding of `base/helper.go`, `migration/migration.go`,
`migration/seeder.go` and the parts of `go-multierror` they call, followed by
theorems about them.

Conventions of the embedding:

* a Go pointer to a model struct is an address (`Ptr`) into a heap
  (`World.heap`); two interface values holding the same pointer are the same
  address, so aliasing is visible;
* a Go value that may be `nil` (a pointer, an interface, a function) is an
  `Option`;
* the calls a function makes on its collaborators are recorded, in order: in
  `World.trace` for `SeedData`, in the call list `Run` returns, and in the list
  of driver calls every method of the helper returns;
* an error the driver returns is an ordinary error, identified by its message;
  an error the caller's filter function or the store helper hands to `SeedData`
  is any value of the interface `error` (`GoError`): an ordinary error or a
  `*multierror.Error`, which `multierror.Append` treats differently;
* an int32 or int64 is an `Int`, and the conversions and products that Go
  computes in 32 or 64 bits are reduced explicitly (`toInt32`, `toInt64`).
-/

namespace MongoGoHelper

/-! ## Identities, models, filters -/

/-- The driver's `primitive.ObjectID` (twelve bytes), read as a number. -/
structure ObjectID where
  val : Nat
  deriving DecidableEq, Repr

/-- The constant `primitive.NilObjectID`, the zero value of the type. -/
def NilObjectID : ObjectID := ⟨0⟩

/-- The method `IsZero` of `primitive.ObjectID`. -/
def ObjectID.IsZero (id : ObjectID) : Bool := id.val == 0

/-- The dynamic value behind the `interface{}` that `GetID` returns and `SetID`
accepts: a `primitive.ObjectID` or a `string`. -/
inductive IDValue
  | objectID (id : ObjectID)
  | string (s : String)
  deriving DecidableEq, Repr

/-- The type assertion `v.(primitive.ObjectID)`, its `ok` result. -/
def IDValue.isObjectID : IDValue → Bool
  | .objectID _ => true
  | .string _ => false

/-- The model structs of `seeder_test.go` in one record: `exampleModel` keeps a
`primitive.ObjectID` in `ID`, `exampleModelStrID` keeps a `string` there (and has
no `Str`). -/
structure exampleModel where
  ID : IDValue
  Str : String
  Num : Int
  deriving DecidableEq, Repr

/-- The method `Exists` of the example models: `!m.ID.IsZero()` for an ObjectID
identity, `m.ID != ""` for a string identity. -/
def exampleModel.Exists (m : exampleModel) : Bool :=
  match m.ID with
  | .objectID id => !id.IsZero
  | .string s => s != ""

/-- The method `GetID`: the identity as an `interface{}`. -/
def exampleModel.GetID (m : exampleModel) : IDValue := m.ID

/-- The method `SetID`: stores the identity. The type assertion of the Go
methods (`id.(primitive.ObjectID)`, `id.(string)`) is not modelled: `SeedData`
passes an ObjectID, and only when the prototype's identity is one. -/
def exampleModel.SetID (m : exampleModel) (id : IDValue) : exampleModel :=
  { m with ID := id }

/-- A value inside a `bson.M`. -/
inductive BsonValue
  | int (n : Int)
  | str (s : String)
  | oid (id : ObjectID)
  deriving DecidableEq, Repr

/-- The driver's `bson.M`, as its list of entries. -/
abbrev BsonM := List (String × BsonValue)

/-- An `interface{}` used as filter or key specification: `nil` or a `*bson.M`. -/
abbrev Filter := Option BsonM

/-- The address of a model struct; a non-nil `base.ModelInterface` holds one. -/
abbrev Ptr := Nat

/-! ## Errors and go-multierror -/

/-- A non-nil value of Go's `error` interface: an ordinary error, identified by
its message, or a `*multierror.Error`, whose pointer may itself be nil inside
the interface (`multi none`); `multi (some l)` points to `Error{Errors: l}`. -/
inductive GoError
  | plain (msg : String)
  | multi (p : Option (List String))
  deriving DecidableEq, Repr

/-- The loop of `multierror.Append` that adds `errs` to the `Errors` of the
target: a nil entry is skipped, a `*multierror.Error` entry contributes its own
`Errors` (none for a nil pointer), any other entry is added as it is. -/
def appendErrors (acc : List String) : List (Option GoError) → List String
  | [] => acc
  | none :: es => appendErrors acc es
  | some (.plain m) :: es => appendErrors (acc ++ [m]) es
  | some (.multi none) :: es => appendErrors acc es
  | some (.multi (some l)) :: es => appendErrors (acc ++ l) es

/-- The function `multierror.Append(err, errs...)`. When `err` is a
`*multierror.Error` the entries are added to it (a nil pointer is replaced by a
new `Error` first); otherwise a new `Error` is started with `err`, if non-nil,
followed by the entries. The result is the returned pointer, never nil. -/
def Append (err : Option GoError) (errs : List (Option GoError)) : Option (List String) :=
  match err with
  | some (.multi p) => some (appendErrors (p.getD []) errs)
  | e => some (appendErrors [] (match e with | none => errs | some x => some x :: errs))

/-- The method `(*multierror.Error).ErrorOrNil`: nil for a nil pointer and for
an `Error` with no `Errors`, the aggregate itself otherwise. -/
def ErrorOrNil (e : Option (List String)) : Option GoError :=
  match e with
  | none => none
  | some l => if l.length = 0 then none else some (.multi (some l))

/-- The sentinel `ErrNoCollection` of `migration/errors.go`. -/
def ErrNoCollection : GoError := .plain "you must specify the collection"

/-- The sentinel `ErrNoFindFilterFn` of `migration/errors.go`. -/
def ErrNoFindFilterFn : GoError := .plain "you must specify a FindFilterFn"

/-- The sentinel `ErrNoModel` of `migration/errors.go`. -/
def ErrNoModel : GoError := .plain "you must specify a Model"

/-! ## The collaborators -/

/-- The methods of `base.MongoHelper` that the migration package calls, over a
store state `S`. `FindOne` gives the document decoded into its target, `none`
when nothing matches (the target is then left as it was); the other methods
give their result and the new store state. The error of `InsertOne` and of
`UpdateOne`, which `SeedData` appends to its aggregate, is any `error`; the
error of `AddIndexIfNotExists` is an ordinary error, given by its message. -/
structure MongoHelper (S : Type) where
  FindOne : S → String → Filter → Option exampleModel
  InsertOne : S → String → exampleModel → (ObjectID × Option GoError) × S
  UpdateOne : S → String → Filter → exampleModel → Option GoError × S
  AddIndexIfNotExists : S → String → String → Filter → Option String × S

/-- The type `schema.FindFilterFunction`: from the item to `(filter, error)`. The
function reads the content of the item and does not write to it; its error is
any `error`. -/
abbrev FindFilterFunction := exampleModel → Filter × Option GoError

/-- A call made by `SeedData`, with the arguments as they were at the call (a
model argument is given by address and by content) and the result. -/
inductive Event
  | FindFilterFn (item : Ptr) (val : exampleModel) (filter : Filter) (err : Option GoError)
  | FindOne (coll : String) (filter : Filter) (target : Ptr) (found : Option exampleModel)
  | InsertOne (coll : String) (item : Ptr) (val : exampleModel) (err : Option GoError)
  | UpdateOne (coll : String) (filter : Filter) (item : Ptr) (val : exampleModel)
      (err : Option GoError)
  | Callback (item : Ptr) (val : exampleModel)
  deriving DecidableEq, Repr

/-- The state a run works on: the model structs by address, the store, the
number of identities `primitive.NewObjectID` has handed out, and the calls made
so far. -/
structure World (S : Type) where
  heap : Ptr → exampleModel
  db : S
  issued : Nat
  trace : List Event

/-- Records a call. -/
def World.log {S : Type} (w : World S) (e : Event) : World S :=
  { w with trace := w.trace ++ [e] }

/-- Writes a model struct through its pointer. -/
def World.store {S : Type} (w : World S) (p : Ptr) (m : exampleModel) : World S :=
  { w with heap := Function.update w.heap p m }

/-- The driver's `primitive.NewObjectID`: a new identity on every call, never the
zero one; here the successor of the number handed out so far. -/
def NewObjectID {S : Type} (w : World S) : ObjectID × World S :=
  (⟨w.issued + 1⟩, { w with issued := w.issued + 1 })

/-! ## migration/schema -/

/-- The struct `schema.SeedTableTask` (its unused `Result` left out). `Callback`
says whether the callback is non-nil; its invocations are recorded in the
trace. -/
structure SeedTableTask where
  Collection : String
  Model : Option Ptr
  FindFilterFn : Option FindFilterFunction
  Callback : Bool
  Items : List Ptr

/-- The struct `schema.CreateIndexTask`. -/
structure CreateIndexTask where
  Collection : String
  IndexName : String
  Keys : Filter

/-- A non-nil `schema.TaskContract`, by dynamic type: a `*schema.CreateIndexTask`,
a `*schema.SeedTableTask`, or any other type, of which `Run` uses `GetType()`. -/
inductive TaskContract
  | createIndex (task : CreateIndexTask)
  | seedTable (task : SeedTableTask)
  | other (GetType : String)

/-! ## migration/seeder.go -/

/-- Lines 44 to 46 of `SeedData`: `if filter != nil` the helper's `FindOne`
decodes the match, if there is one, into the struct `existing` points to. -/
def lookup {S : Type} (h : MongoHelper S) (coll : String) (filter : Filter)
    (existing : Ptr) (w : World S) : World S :=
  match filter with
  | none => w
  | some f =>
    match h.FindOne w.db coll (some f) with
    | none => w.log (.FindOne coll (some f) existing none)
    | some d => (w.store existing d).log (.FindOne coll (some f) existing (some d))

/-- Lines 48 to 52 of `SeedData`, the branch `existing != nil && !existing.Exists()`
(`existing` is never nil here): a new identity for the item when the identity
of `existing` is an ObjectID, then `InsertOne`. -/
def insertItem {S : Type} (h : MongoHelper S) (coll : String) (existing item : Ptr)
    (w : World S) : Option GoError × World S :=
  let w :=
    if (w.heap existing).GetID.isObjectID then
      let g := NewObjectID w
      g.2.store item ((g.2.heap item).SetID (.objectID g.1))
    else w
  let res := h.InsertOne w.db coll (w.heap item)
  (res.1.2, { w with db := res.2 }.log (.InsertOne coll item (w.heap item) res.1.2))

/-- Lines 53 to 58 of `SeedData`, the `else` branch: the identity of `existing`
for the item when it is an ObjectID, then `UpdateOne` with the filter. -/
def updateItem {S : Type} (h : MongoHelper S) (coll : String) (filter : Filter)
    (existing item : Ptr) (w : World S) : Option GoError × World S :=
  let w :=
    if (w.heap existing).GetID.isObjectID then
      w.store item ((w.heap item).SetID (w.heap existing).GetID)
    else w
  let res := h.UpdateOne w.db coll filter (w.heap item)
  (res.1, { w with db := res.2 }.log (.UpdateOne coll filter item (w.heap item) res.1))

/-- Lines 36 to 59 of `SeedData`, for one element `it` of `task.Items`. The two
calls of `copier.Copy` get pointers to interface variables; the source is an
interface value, not a struct, and is assignable to the destination, so it is
assigned as it is: `item` holds the pointer `it` holds and `existing` holds the
pointer `task.Model` holds, no struct is copied. Then the filter function and,
when it gives no error, the lookup into `existing` and the insert or the
update. The result is `err`. -/
def reconcile {S : Type} (h : MongoHelper S) (coll : String) (fn : FindFilterFunction)
    (existing item : Ptr) (w : World S) : Option GoError × World S :=
  let r := fn (w.heap item)
  let w := w.log (.FindFilterFn item (w.heap item) r.1 r.2)
  match r.2 with
  | some e => (some e, w)
  | none =>
    let w := lookup h coll r.1 existing w
    if !(w.heap existing).Exists then insertItem h coll existing item w
    else updateItem h coll r.1 existing item w

/-- The loop of `SeedData` over `task.Items` (lines 34 to 66): `reconcile`, then
the error is appended to `errs` with `multierror.Append(errs, err)`, or else the
callback, if any, is called with the item. -/
def seedLoop {S : Type} (h : MongoHelper S) (coll : String) (fn : FindFilterFunction)
    (cb : Bool) (existing : Ptr) :
    List Ptr → Option (List String) → World S → Option (List String) × World S
  | [], errs, w => (errs, w)
  | it :: rest, errs, w =>
    let r := reconcile h coll fn existing it w
    match r.1 with
    | some e =>
      seedLoop h coll fn cb existing rest (Append (some (.multi errs)) [some e]) r.2
    | none =>
      seedLoop h coll fn cb existing rest errs
        (if cb then r.2.log (.Callback it (r.2.heap it)) else r.2)

/-- The method `(*seeder).SeedData(ctx, task)`. -/
def SeedData {S : Type} (h : MongoHelper S) (task : Option SeedTableTask) (w : World S) :
    Option GoError × World S :=
  match task with
  | none => (none, w)
  | some task =>
    if task.Collection = "" then (some ErrNoCollection, w)
    else
      match task.FindFilterFn with
      | none => (some ErrNoFindFilterFn, w)
      | some fn =>
        match task.Model with
        | none => (some ErrNoModel, w)
        | some model =>
          let r := seedLoop h task.Collection fn task.Callback model task.Items none w
          (ErrorOrNil r.1, r.2)

/-! ## migration/migration.go -/

/-- A call made by `Run` on the helper or on the seeder. -/
inductive RunCall
  | AddIndexIfNotExists (coll : String) (name : String) (keys : Filter)
  | SeedData (task : SeedTableTask)

/-- The struct `migrator`: the helper and the seeder (`schema.Seeder`, its one
method). -/
structure migrator (S : Type) where
  helper : MongoHelper S
  seeder : Option SeedTableTask → World S → Option GoError × World S

/-- The constructor `NewMigrator(helper)`: the seeder is `&seeder{helper}`. -/
def NewMigrator {S : Type} (helper : MongoHelper S) : migrator S :=
  { helper := helper, seeder := SeedData helper }

/-- The `switch` of `Run` for the task `t` named `tn`: the call it makes, if
any, and `err`. -/
def dispatch {S : Type} (m : migrator S) (tn : String) (t : TaskContract) (w : World S) :
    (Option GoError × World S) × List RunCall :=
  match t with
  | .createIndex task =>
    let res := m.helper.AddIndexIfNotExists w.db task.Collection task.IndexName task.Keys
    ((res.1.map GoError.plain, { w with db := res.2 }),
      [.AddIndexIfNotExists task.Collection task.IndexName task.Keys])
  | .seedTable task => (m.seeder (some task) w, [.SeedData task])
  | .other ty =>
    ((some (.plain ("could not run migration task '" ++ tn ++ "': unknown type '" ++ ty ++ "'")),
      w), [])

/-- The loop of `Run`, over the entries of the map in the order the runtime
yields them. -/
def runLoop {S : Type} (m : migrator S) :
    List (String × TaskContract) → Option (List String) → World S → List RunCall →
      (Option (List String) × World S) × List RunCall
  | [], errs, w, calls => ((errs, w), calls)
  | (tn, t) :: rest, errs, w, calls =>
    let r := dispatch m tn t w
    match r.1.1 with
    | some err => runLoop m rest (Append (some err) []) r.1.2 (calls ++ r.2)
    | none => runLoop m rest errs r.1.2 (calls ++ r.2)

/-- The method `(*migrator).Run(ctx, tasks)`. The map is given by its entries in
iteration order (`none` for a nil map, which iterates as an empty one); the
result is the error, the final state and the calls made. -/
def Run {S : Type} (m : migrator S) (tasks : Option (List (String × TaskContract)))
    (w : World S) : (Option GoError × World S) × List RunCall :=
  let r := runLoop m (tasks.getD []) none w []
  ((ErrorOrNil r.1.1, r.1.2), r.2)

/-- The call `Run` is to make for a task: `AddIndexIfNotExists` with the
collection, index name and keys of a `*schema.CreateIndexTask`, `SeedData` with
a `*schema.SeedTableTask`, none for a task of another type. -/
def TaskContract.call : TaskContract → Option RunCall
  | .createIndex task => some (.AddIndexIfNotExists task.Collection task.IndexName task.Keys)
  | .seedTable task => some (.SeedData task)
  | .other _ => none

/-- The method `(*Task).GetType`: `reflect.TypeOf(t).String()` for the receiver
`t` of type `*Task`. -/
def Task.GetType : String := "*schema.Task"

/-! ## base/helper.go and pagination/pagination.go -/

/-- The conversion `int32(x)` of an integer: the low 32 bits, signed. For a
float64 that holds an integer within the range of int32 the conversion gives
that integer, which is what this gives too. -/
def toInt32 (x : Int) : Int := (x + 2147483648) % 4294967296 - 2147483648

/-- The arithmetic of int64: the low 64 bits, signed. -/
def toInt64 (x : Int) : Int :=
  (x + 9223372036854775808) % 18446744073709551616 - 9223372036854775808

/-- The expression `math.Ceil(float64(count) / float64(pageSize))` for
`pageSize > 0`, as an integer: the ceiling of the quotient. float64 holds every
integer below `2^53` exactly and rounds a quotient correctly, so for
`0 ≤ count < 2^53` the float computation gives exactly this; larger counts lose
precision there and are outside what this definition describes. -/
def ceilQuotient (count pageSize : Int) : Int := -((-count) / pageSize)

/-- The driver's `mongo.IndexModel`: the keys and, of the options, the name. -/
structure mongo.IndexModel where
  Keys : Filter
  Name : String
  deriving DecidableEq, Repr

/-- The driver's `options.FindOptions`, the fields the helper sets (`SortSpec` is
its field `Sort`): unset fields are `none`. -/
structure options.FindOptions where
  Limit : Option Int
  Skip : Option Int
  SortSpec : Option (List (String × BsonValue))
  deriving DecidableEq, Repr

/-- The driver's `mongo.InsertOneResult`: `InsertedID` is an `interface{}`, nil
or some value, an ObjectID (`.oid`) or something else. -/
structure mongo.InsertOneResult where
  InsertedID : Option BsonValue
  deriving DecidableEq, Repr

/-- The struct `base.FindOptions`; `PageSize` and `Page` are int64, `Sorting` is
a map, given by its entries. -/
structure FindOptions where
  PageSize : Int
  Page : Int
  Sorting : List (String × BsonValue)
  deriving DecidableEq, Repr

/-- The struct `pagination.Result`; the four numbers are int32. -/
structure pagination.Result where
  Items : List exampleModel
  Total : Int
  PageSize : Int
  CurrentPage : Int
  NumberOfPages : Int
  deriving DecidableEq, Repr

/-- The zero value of `pagination.Result`. -/
def pagination.Result.zero : pagination.Result :=
  { Items := [], Total := 0, PageSize := 0, CurrentPage := 0, NumberOfPages := 0 }

/-- The sentinel `ErrUnexpectedInsertResult` of `base/helper.go`. -/
def ErrUnexpectedInsertResult : String := "unexpected insert result"

/-- The sentinel `ErrNoMatches` of `base/helper.go`. -/
def ErrNoMatches : String := "no matches found for query"

/-- The operations of the driver on the collections of a database `DB` that the
helper calls. An operation that can fail gives `.error` with the message of the
error. `Find` and `ListIndexes` give the documents their cursor yields: for
`Find` each with what `Decode` leaves in the new item and the error `Decode`
returns; for `ListIndexes` as the `bson.M` each is decoded into, which gives no
error. `FindOne` gives what `Decode` writes into the item, `none` when it writes
nothing. `ReplaceOne` gives the matched count. The operations that write give
the new state of the database. -/
structure Driver (DB : Type) where
  CountDocuments : DB → String → Filter → Except String Int
  Find : DB → String → Filter → options.FindOptions →
    Except String (List (exampleModel × Option String))
  FindOne : DB → String → Filter → Option exampleModel
  InsertOne : DB → String → exampleModel → Except String mongo.InsertOneResult × DB
  ReplaceOne : DB → String → Filter → exampleModel → Except String Int × DB
  ListIndexes : DB → String → Except String (List BsonM)
  CreateOne : DB → String → mongo.IndexModel → Option String × DB

/-- A call the helper makes on the driver. -/
inductive DriverCall
  | CountDocuments (coll : String) (filter : Filter)
  | Find (coll : String) (filter : Filter) (opts : options.FindOptions)
  | FindOne (coll : String) (filter : Filter)
  | InsertOne (coll : String) (item : exampleModel)
  | ReplaceOne (coll : String) (filter : Filter) (item : exampleModel)
  | ListIndexes (coll : String)
  | CreateOne (coll : String) (model : mongo.IndexModel)
  deriving DecidableEq, Repr

/-- Whether the call is an index-creation request. -/
def DriverCall.isCreateOne : DriverCall → Bool
  | .CreateOne _ _ => true
  | .CountDocuments _ _ => false
  | .Find _ _ _ => false
  | .FindOne _ _ => false
  | .InsertOne _ _ => false
  | .ReplaceOne _ _ _ => false
  | .ListIndexes _ => false

/-- The method `(*helper).convertFindOpts`. -/
def helper.convertFindOpts (opts : FindOptions) : options.FindOptions :=
  let fo : options.FindOptions := { Limit := none, Skip := none, SortSpec := none }
  let fo :=
    if opts.PageSize > 0 then
      let fo := { fo with Limit := some opts.PageSize }
      if opts.Page > 1 then
        { fo with Skip := some (toInt64 (toInt64 (opts.Page - 1) * opts.PageSize)) }
      else fo
    else fo
  if opts.Sorting.length > 0 then { fo with SortSpec := some opts.Sorting } else fo

/-- The loop of `Find` over the cursor: every document is decoded into a new
item, `err` becomes what `Decode` returns, and the item is appended. -/
def helper.findLoop :
    List (exampleModel × Option String) → List exampleModel → Option String →
      List exampleModel × Option String
  | [], items, err => (items, err)
  | (newItem, derr) :: rest, items, _ => helper.findLoop rest (items ++ [newItem]) derr

/-- The method `(*helper).Find`: the result, the error, and the calls made on
the driver. `errors.Wrap(err, msg)` gives the message `msg: err`. -/
def helper.Find {DB : Type} (D : Driver DB) (db : DB) (coll : String) (filter : Filter)
    (opts : FindOptions) : (pagination.Result × Option String) × List DriverCall :=
  match D.CountDocuments db coll filter with
  | .error e =>
    ((pagination.Result.zero, some ("failed count on Find: " ++ e)),
      [.CountDocuments coll filter])
  | .ok count =>
    let res := { pagination.Result.zero with Total := toInt32 count }
    let res :=
      if opts.PageSize > 0 then
        { res with
          PageSize := toInt32 opts.PageSize
          NumberOfPages := toInt32 (ceilQuotient count opts.PageSize)
          CurrentPage := if opts.Page > 1 then toInt32 opts.Page else 1 }
      else res
    let mOpts := helper.convertFindOpts opts
    match D.Find db coll filter mOpts with
    | .error e =>
      ((res, some ("failed on Find: " ++ e)),
        [.CountDocuments coll filter, .Find coll filter mOpts])
    | .ok cur =>
      let r := helper.findLoop cur [] none
      (({ res with Items := r.1 }, r.2), [.CountDocuments coll filter, .Find coll filter mOpts])

/-- The method `(*helper).FindOne`: what `Decode` writes into the item. -/
def helper.FindOne {DB : Type} (D : Driver DB) (db : DB) (coll : String) (filter : Filter) :
    Option exampleModel × List DriverCall :=
  (D.FindOne db coll filter, [.FindOne coll filter])

/-- The method `(*helper).GetIDFromInsertOneResult`. -/
def helper.GetIDFromInsertOneResult (res : mongo.InsertOneResult) : ObjectID × Option String :=
  match res.InsertedID with
  | some (.oid oid) => (oid, none)
  | some _ => (NilObjectID, none)
  | none => (NilObjectID, some ErrUnexpectedInsertResult)

/-- The method `(*helper).InsertOne`. -/
def helper.InsertOne {DB : Type} (D : Driver DB) (db : DB) (coll : String)
    (item : exampleModel) : ((ObjectID × Option String) × DB) × List DriverCall :=
  let r := D.InsertOne db coll item
  match r.1 with
  | .ok res => ((helper.GetIDFromInsertOneResult res, r.2), [.InsertOne coll item])
  | .error e => (((NilObjectID, some e), r.2), [.InsertOne coll item])

/-- The method `(*helper).UpdateOne`. -/
def helper.UpdateOne {DB : Type} (D : Driver DB) (db : DB) (coll : String) (filter : Filter)
    (item : exampleModel) : (Option String × DB) × List DriverCall :=
  let r := D.ReplaceOne db coll filter item
  match r.1 with
  | .ok matched =>
    if matched = 0 then ((some ErrNoMatches, r.2), [.ReplaceOne coll filter item])
    else ((none, r.2), [.ReplaceOne coll filter item])
  | .error e => ((some e, r.2), [.ReplaceOne coll filter item])

/-- The document of the index list is that of an index called `name`: its entry
`name` is a string equal to it. -/
def IndexNamed (name : String) (elem : BsonM) : Prop :=
  elem.lookup "name" = some (.str name)

/-- The loop of `GetIndex` over the cursor of the index list: the first document
whose `name` is a string equal to `index` is returned, with the error of its
`Decode`, which is nil; when there is none the result is nil. -/
def helper.getIndexLoop (index : String) : List BsonM → Option BsonM × Option String
  | [] => (none, none)
  | elem :: rest =>
    match elem.lookup "name" with
    | some (.str name) =>
      if name = index then (some elem, none) else helper.getIndexLoop index rest
    | _ => helper.getIndexLoop index rest

/-- The method `(*helper).GetIndex`. -/
def helper.GetIndex {DB : Type} (D : Driver DB) (db : DB) (coll : String) (index : String) :
    (Option BsonM × Option String) × List DriverCall :=
  match D.ListIndexes db coll with
  | .error e => ((none, some e), [.ListIndexes coll])
  | .ok cur => (helper.getIndexLoop index cur, [.ListIndexes coll])

/-- The method `(*helper).HasIndex`. -/
def helper.HasIndex {DB : Type} (D : Driver DB) (db : DB) (coll : String) (index : String) :
    (Bool × Option String) × List DriverCall :=
  let r := helper.GetIndex D db coll index
  match r.1.2 with
  | some e => ((false, some e), r.2)
  | none => ((r.1.1.isSome, none), r.2)

/-- The method `(*helper).AddIndexIfNotExists`: the error, the new state of the
database, and the calls made on the driver. What `CreateOne` returns is not
looked at. -/
def helper.AddIndexIfNotExists {DB : Type} (D : Driver DB) (db : DB) (coll : String)
    (name : String) (keys : Filter) : (Option String × DB) × List DriverCall :=
  let r := helper.HasIndex D db coll name
  match r.1.2 with
  | some e => ((some e, db), r.2)
  | none =>
    if !r.1.1 then
      let c := D.CreateOne db coll { Keys := keys, Name := name }
      ((none, c.2), r.2 ++ [.CreateOne coll { Keys := keys, Name := name }])
    else ((none, db), r.2)

/-- The constructor `NewHelper(db)`, as the methods the migration package calls,
over the state of the database. The errors of this helper are those of the
driver and its own sentinels, all ordinary errors. -/
def NewHelper {DB : Type} (D : Driver DB) : MongoHelper DB where
  FindOne db coll filter := (helper.FindOne D db coll filter).1
  InsertOne db coll item :=
    let r := (helper.InsertOne D db coll item).1
    ((r.1.1, r.1.2.map GoError.plain), r.2)
  UpdateOne db coll filter item :=
    let r := (helper.UpdateOne D db coll filter item).1
    (r.1.map GoError.plain, r.2)
  AddIndexIfNotExists db coll name keys := (helper.AddIndexIfNotExists D db coll name keys).1

/-! ## Reading a trace -/

/-- The error a recorded call returned, if it returned one. -/
def Event.failure : Event → Option GoError
  | .FindFilterFn _ _ _ err => err
  | .InsertOne _ _ _ err => err
  | .UpdateOne _ _ _ _ err => err
  | .FindOne _ _ _ _ => none
  | .Callback _ _ => none

/-- Whether the call is a call of the filter function. -/
def Event.isFilterCall : Event → Bool
  | .FindFilterFn _ _ _ _ => true
  | .FindOne _ _ _ _ => false
  | .InsertOne _ _ _ _ => false
  | .UpdateOne _ _ _ _ _ => false
  | .Callback _ _ => false

/-- Whether the call is a store write: `InsertOne` or `UpdateOne`. -/
def Event.isWrite : Event → Bool
  | .InsertOne _ _ _ _ => true
  | .UpdateOne _ _ _ _ _ => true
  | .FindFilterFn _ _ _ _ => false
  | .FindOne _ _ _ _ => false
  | .Callback _ _ => false

/-- Whether the call is a lookup: `FindOne`. -/
def Event.isLookup : Event → Bool
  | .FindOne _ _ _ _ => true
  | .FindFilterFn _ _ _ _ => false
  | .InsertOne _ _ _ _ => false
  | .UpdateOne _ _ _ _ _ => false
  | .Callback _ _ => false

/-- Whether the call is an invocation of the callback. -/
def Event.isCallback : Event → Bool
  | .Callback _ _ => true
  | .FindFilterFn _ _ _ _ => false
  | .FindOne _ _ _ _ => false
  | .InsertOne _ _ _ _ => false
  | .UpdateOne _ _ _ _ _ => false

/-- The item a call is about: the argument of the filter function and of the
callback, the document of a write. A lookup has the prototype as target. -/
def Event.item : Event → Option Ptr
  | .FindFilterFn it _ _ _ => some it
  | .InsertOne _ it _ _ => some it
  | .UpdateOne _ _ it _ _ => some it
  | .Callback it _ => some it
  | .FindOne _ _ _ _ => none

/-- The content of the model a call was given. -/
def Event.val : Event → Option exampleModel
  | .FindFilterFn _ v _ _ => some v
  | .InsertOne _ _ v _ => some v
  | .UpdateOne _ _ _ v _ => some v
  | .Callback _ v => some v
  | .FindOne _ _ _ _ => none

/-- The causes an `error` carries: the `Errors` of an aggregate, the error
itself otherwise, nothing for nil. -/
def causes : Option GoError → List String
  | none => []
  | some (.plain m) => [m]
  | some (.multi p) => p.getD []

/-- Whether the error is an ordinary one, not a `*multierror.Error`. -/
def GoError.isPlain : GoError → Bool
  | .plain _ => true
  | .multi _ => false

/-- The causes the recorded calls add to the aggregate of `SeedData`: those of
the errors they returned, in the order of the calls. -/
def traceCauses (c : List Event) : List String :=
  ((c.filterMap Event.failure).map (fun e => causes (some e))).flatten

/-- The store after a recorded call, when the call is made on the helper `h` in
the store `s`: what `InsertOne` or `UpdateOne` of the helper gives for the
recorded arguments; the other calls leave the store as it is. -/
def Event.after {S : Type} (h : MongoHelper S) (s : S) : Event → S
  | .InsertOne coll _ v _ => (h.InsertOne s coll v).2
  | .UpdateOne coll f _ v _ => (h.UpdateOne s coll f v).2
  | .FindFilterFn _ _ _ _ => s
  | .FindOne _ _ _ _ => s
  | .Callback _ _ => s

/-- The recorded result of a call is what the collaborator returns for the
recorded arguments in the store `s`: the filter function `fn` for the content of
the item, `FindOne`, `InsertOne` or `UpdateOne` of the helper `h`. Of the
callback only the invocation is recorded. -/
def Event.returned {S : Type} (h : MongoHelper S) (fn : FindFilterFunction) (s : S) :
    Event → Prop
  | .FindFilterFn _ v f err => fn v = (f, err)
  | .FindOne coll f _ found => h.FindOne s coll f = found
  | .InsertOne coll _ v err => (h.InsertOne s coll v).1.2 = err
  | .UpdateOne coll f _ v err => (h.UpdateOne s coll f v).1 = err
  | .Callback _ _ => True

/-- The recorded calls `c` were made on the collaborators one after the other,
starting in the store `s`: each returned what is recorded for it, each write
was made in the store the calls before it left, and `s1` is the store after the
last. -/
def Performed {S : Type} (h : MongoHelper S) (fn : FindFilterFunction) :
    S → List Event → S → Prop
  | s, [], s1 => s1 = s
  | s, e :: es, s1 => e.returned h fn s ∧ Performed h fn (e.after h s) es s1

/-- The calls of one iteration of the loop of `SeedData` for the item `it`: the
filter function, called with the content `v` of the item and giving `(f, e)`;
when it succeeds the lookup (skipped for a nil filter) and one write; when that
succeeds and there is a callback, the callback. -/
inductive ItemCalls (coll : String) (fn : FindFilterFunction) (cb : Bool) (existing it : Ptr) :
    List Event → Prop
  | filterFailed (v : exampleModel) (f : Filter) (e : GoError) :
      fn v = (f, some e) →
      ItemCalls coll fn cb existing it [.FindFilterFn it v f (some e)]
  | written (v : exampleModel) (f : Filter) (look : List Event) (wr : Event) :
      fn v = (f, none) →
      (look = [] ∧ f = none ∨ ∃ found, look = [.FindOne coll f existing found]) →
      (∃ x err, wr = .InsertOne coll it x err ∨ wr = .UpdateOne coll f it x err) →
      ItemCalls coll fn cb existing it
        (.FindFilterFn it v f none :: (look ++ wr ::
          (if cb = true ∧ wr.failure = none then [.Callback it (wr.val.getD v)] else [])))

/-- The calls `c` are those made for the item `it` in a run of `SeedData`: they
start with the call of the filter function on `it`, giving `(f, e)`, and hold no
other call of it, so that they end where the calls for the next item start. -/
def CallsFor (fn : FindFilterFunction) (it : Ptr) (c : List Event) : Prop :=
  ∃ v f e rest, fn v = (f, e) ∧ c = .FindFilterFn it v f e :: rest ∧
    rest.filter Event.isFilterCall = [] ∧ ∀ x ∈ rest, x.item = some it ∨ x.isLookup = true

/-! ## An in-memory store, for the concrete runs -/

/-- The documents of an in-memory store, each with its collection. -/
abbrev MemStore := List (String × exampleModel)

/-- Whether the document has the value the filter entry asks for (`num`, `str`
and `_id` are the fields of the example models). -/
def fieldMatches (d : exampleModel) : String × BsonValue → Bool
  | (k, .int n) => k == "num" && d.Num == n
  | (k, .str s) => (k == "str" && d.Str == s) || (k == "_id" && d.ID == .string s)
  | (k, .oid id) => k == "_id" && d.ID == .objectID id

/-- Whether the entry is in the collection and satisfies the filter; a nil
filter matches nothing. -/
def memMatches (coll : String) (f : Filter) (e : String × exampleModel) : Bool :=
  match f with
  | none => false
  | some f => e.1 == coll && f.all (fieldMatches e.2)

/-- Replaces the first matching document; `none` when nothing matches. -/
def memReplace (coll : String) (f : Filter) (item : exampleModel) :
    MemStore → Option MemStore
  | [] => none
  | e :: es =>
    if memMatches coll f e then some ((coll, item) :: es)
    else (memReplace coll f item es).map (e :: ·)

/-- A store helper over the in-memory store: `FindOne` decodes the first match,
`InsertOne` refuses a second document with the same `_id`, `UpdateOne` reports
`ErrNoMatches` when nothing matches and refuses to change the `_id` of the
match, `AddIndexIfNotExists` succeeds. -/
def memHelper : MongoHelper MemStore where
  FindOne s coll f := (s.find? (memMatches coll f)).map (·.2)
  InsertOne s coll item :=
    if s.any (fun e => e.1 == coll && e.2.ID == item.ID) then
      ((NilObjectID, some (.plain "duplicate key")), s)
    else
      ((match item.ID with
        | .objectID id => id
        | .string _ => NilObjectID, none), s ++ [(coll, item)])
  UpdateOne s coll f item :=
    match s.find? (memMatches coll f) with
    | none => (some (.plain "no matches found for query"), s)
    | some e =>
      if e.2.ID == item.ID then (none, (memReplace coll f item s).getD s)
      else (some (.plain "the (immutable) field '_id' was found to have been altered"), s)
  AddIndexIfNotExists s _ _ _ := (none, s)

/-- A filter function that matches on `num`, as `findFilterFn` of the tests. -/
def byNum : FindFilterFunction := fun m => (some [("num", .int m.Num)], none)

/-- A filter function that fails, with an ordinary error, for an item whose
`num` is 999, and matches on `num` otherwise. -/
def failsOn999 : FindFilterFunction :=
  fun m =>
    if m.Num = 999 then (none, some (.plain "error")) else (some [("num", .int m.Num)], none)

/-- A filter function that always fails, as `findFilterFnErr` of the tests. -/
def alwaysErr : FindFilterFunction := fun _ => (none, some (.plain "error"))

/-- A filter function that fails with an aggregate of two causes, a
`*multierror.Error` returned as `error`. -/
def twoCauses : FindFilterFunction :=
  fun _ => (none, some (.multi (some ["first cause", "second cause"])))

/-- A filter function that fails with a nil `*multierror.Error` returned as
`error`: the interface value is not nil, the pointer in it is. -/
def nilAggregate : FindFilterFunction := fun _ => (none, some (.multi none))

/-- A heap with the prototype `&exampleModel{}` at address 0 and the two items
of the test "seeds new data" at addresses 1 and 2. -/
def heapObj : Ptr → exampleModel
  | 1 => ⟨.objectID NilObjectID, "test1", 999⟩
  | 2 => ⟨.objectID NilObjectID, "test2", 1000⟩
  | _ => ⟨.objectID NilObjectID, "", 0⟩

/-- A heap with the prototype `&exampleModelStrID{}` at address 0 and the item
`&exampleModelStrID{ID: "b", Num: 1}` at address 1. -/
def heapStr : Ptr → exampleModel
  | 1 => ⟨.string "b", "", 1⟩
  | _ => ⟨.string "", "", 0⟩

/-- A seed task on collection "test" with the prototype at address 0. -/
def seedTask (fn : FindFilterFunction) (cb : Bool) (items : List Ptr) : SeedTableTask :=
  { Collection := "test", Model := some 0, FindFilterFn := some fn, Callback := cb,
    Items := items }

/-- A world over the in-memory store with nothing recorded yet. -/
def memWorld (heap : Ptr → exampleModel) (docs : MemStore) : World MemStore :=
  { heap := heap, db := docs, issued := 0, trace := [] }

/-- An in-memory database: the documents and the indexes, each with its
collection. -/
structure MemDB where
  docs : MemStore
  indexes : List (String × mongo.IndexModel)
  deriving DecidableEq, Repr

/-- A world over an in-memory database with nothing recorded yet. -/
def dbWorld (heap : Ptr → exampleModel) (db : MemDB) : World MemDB :=
  { heap := heap, db := db, issued := 0, trace := [] }

/-- The identity of a model as the driver reports it in an insert result. -/
def insertedID (item : exampleModel) : BsonValue :=
  match item.ID with
  | .objectID id => .oid id
  | .string s => .str s

/-- A driver over the in-memory database. A nil filter is refused; `Find`
applies skip and limit and decodes every document without error; `InsertOne`
refuses a second document with the same `_id`; `ReplaceOne` replaces the first
match and refuses to change its `_id`; `ListIndexes` gives a document with the
name of every index of the collection; `CreateOne` adds the index. -/
def memDriver : Driver MemDB where
  CountDocuments db coll f :=
    match f with
    | none => .error "document is nil"
    | some _ => .ok (db.docs.filter (memMatches coll f)).length
  Find db coll f opts :=
    match f with
    | none => .error "document is nil"
    | some _ =>
      let found := (db.docs.filter (memMatches coll f)).drop (opts.Skip.getD 0).toNat
      let page : MemStore :=
        match opts.Limit with
        | some n => found.take n.toNat
        | none => found
      .ok (page.map (fun e => (e.2, none)))
  FindOne db coll f := (db.docs.find? (memMatches coll f)).map (·.2)
  InsertOne db coll item :=
    if db.docs.any (fun e => e.1 == coll && e.2.ID == item.ID) then
      (.error "duplicate key", db)
    else (.ok { InsertedID := some (insertedID item) },
      { db with docs := db.docs ++ [(coll, item)] })
  ReplaceOne db coll f item :=
    match db.docs.find? (memMatches coll f) with
    | none => (.ok 0, db)
    | some e =>
      if e.2.ID == item.ID then
        (.ok 1, { db with docs := (memReplace coll f item db.docs).getD db.docs })
      else (.error "the (immutable) field '_id' was found to have been altered", db)
  ListIndexes db coll :=
    .ok ((db.indexes.filter (fun e => e.1 == coll)).map
      (fun e => [("v", .int 2), ("name", .str e.2.Name)]))
  CreateOne db coll model := (none, { db with indexes := db.indexes ++ [(coll, model)] })

/-- The in-memory driver over a collection too large to write down: the count
is `n`, whatever the documents at hand. -/
def countDriver (n : Int) : Driver MemDB :=
  { memDriver with CountDocuments := fun _ _ _ => .ok n }

/-- The in-memory driver with a disconnected client: listing the indexes
fails. -/
def downDriver : Driver MemDB :=
  { memDriver with ListIndexes := fun _ _ => .error "client is disconnected" }

/-- The in-memory driver on a database that refuses to create indexes. -/
def readOnlyDriver : Driver MemDB :=
  { memDriver with CreateOne := fun db _ _ => (some "not authorized to create index", db) }

/-- The database of the helper tests: collection "test" with the index
"test_index" and no documents. -/
def testDB : MemDB :=
  { docs := [], indexes := [("test", { Keys := some [("foo", .int (-1))], Name := "test_index" })] }

/-- The database of `Test_Find`: two documents in collection "test". -/
def findDB : MemDB :=
  { docs := [("test", ⟨.objectID ⟨1⟩, "test string", 999⟩), ("test", ⟨.objectID ⟨2⟩, "test", 999⟩)],
    indexes := [] }

/-- The in-memory helper on a collection of models with a string identity: a
document whose identity is an ObjectID does not decode into such a model and is
not found. -/
def strHelper : MongoHelper MemStore :=
  { memHelper with
    FindOne := fun s coll f =>
      (s.find? (fun e => memMatches coll f e && !e.2.ID.isObjectID)).map (·.2) }

/-- A heap with the prototype `&exampleModel{}` at address 0 and, at address 1,
an item the caller gave the identity 5. -/
def heapOwn : Ptr → exampleModel
  | 1 => ⟨.objectID ⟨5⟩, "test1", 999⟩
  | _ => ⟨.objectID NilObjectID, "", 0⟩

/-- The in-memory driver on a collection whose first document does not decode
into the item (its `num` is a string) while the second does: the cursor of
`Find` yields both. -/
def badDocDriver : Driver MemDB :=
  { memDriver with
    Find := fun _ _ _ _ =>
      .ok [(⟨.objectID ⟨1⟩, "test string", 0⟩, some "cannot decode string into an integer type"),
        (⟨.objectID ⟨2⟩, "test", 999⟩, none)] }

end MongoGoHelper

namespace MongoGoHelper

/-! ## The calls of one iteration -/

@[simp] theorem log_trace {S : Type} (w : World S) (e : Event) :
    (w.log e).trace = w.trace ++ [e] := rfl

@[simp] theorem log_heap {S : Type} (w : World S) (e : Event) : (w.log e).heap = w.heap := rfl

@[simp] theorem log_db {S : Type} (w : World S) (e : Event) : (w.log e).db = w.db := rfl

@[simp] theorem store_trace {S : Type} (w : World S) (p : Ptr) (m : exampleModel) :
    (w.store p m).trace = w.trace := rfl

@[simp] theorem store_db {S : Type} (w : World S) (p : Ptr) (m : exampleModel) :
    (w.store p m).db = w.db := rfl

@[simp] theorem store_heap {S : Type} (w : World S) (p : Ptr) (m : exampleModel) :
    (w.store p m).heap = Function.update w.heap p m := rfl

@[simp] theorem failure_FindFilterFn (it : Ptr) (v : exampleModel) (f : Filter) (e : Option GoError) :
    (Event.FindFilterFn it v f e).failure = e := rfl

@[simp] theorem failure_FindOne (c : String) (f : Filter) (t : Ptr) (d : Option exampleModel) :
    (Event.FindOne c f t d).failure = none := rfl

@[simp] theorem failure_InsertOne (c : String) (it : Ptr) (v : exampleModel) (e : Option GoError) :
    (Event.InsertOne c it v e).failure = e := rfl

@[simp] theorem failure_UpdateOne (c : String) (f : Filter) (it : Ptr) (v : exampleModel)
    (e : Option GoError) :
    (Event.UpdateOne c f it v e).failure = e := rfl

@[simp] theorem failure_Callback (it : Ptr) (v : exampleModel) :
    (Event.Callback it v).failure = none := rfl

@[simp] theorem isFilterCall_FindFilterFn (it : Ptr) (v : exampleModel) (f : Filter) (e : Option GoError) :
    (Event.FindFilterFn it v f e).isFilterCall = true := rfl

@[simp] theorem isFilterCall_FindOne (c : String) (f : Filter) (t : Ptr) (d : Option exampleModel) :
    (Event.FindOne c f t d).isFilterCall = false := rfl

@[simp] theorem isFilterCall_InsertOne (c : String) (it : Ptr) (v : exampleModel) (e : Option GoError) :
    (Event.InsertOne c it v e).isFilterCall = false := rfl

@[simp] theorem isFilterCall_UpdateOne (c : String) (f : Filter) (it : Ptr) (v : exampleModel)
    (e : Option GoError) :
    (Event.UpdateOne c f it v e).isFilterCall = false := rfl

@[simp] theorem isFilterCall_Callback (it : Ptr) (v : exampleModel) :
    (Event.Callback it v).isFilterCall = false := rfl

@[simp] theorem isWrite_FindFilterFn (it : Ptr) (v : exampleModel) (f : Filter) (e : Option GoError) :
    (Event.FindFilterFn it v f e).isWrite = false := rfl

@[simp] theorem isWrite_FindOne (c : String) (f : Filter) (t : Ptr) (d : Option exampleModel) :
    (Event.FindOne c f t d).isWrite = false := rfl

@[simp] theorem isWrite_InsertOne (c : String) (it : Ptr) (v : exampleModel) (e : Option GoError) :
    (Event.InsertOne c it v e).isWrite = true := rfl

@[simp] theorem isWrite_UpdateOne (c : String) (f : Filter) (it : Ptr) (v : exampleModel)
    (e : Option GoError) :
    (Event.UpdateOne c f it v e).isWrite = true := rfl

@[simp] theorem isWrite_Callback (it : Ptr) (v : exampleModel) :
    (Event.Callback it v).isWrite = false := rfl

@[simp] theorem isLookup_FindFilterFn (it : Ptr) (v : exampleModel) (f : Filter) (e : Option GoError) :
    (Event.FindFilterFn it v f e).isLookup = false := rfl

@[simp] theorem isLookup_FindOne (c : String) (f : Filter) (t : Ptr) (d : Option exampleModel) :
    (Event.FindOne c f t d).isLookup = true := rfl

@[simp] theorem isLookup_InsertOne (c : String) (it : Ptr) (v : exampleModel) (e : Option GoError) :
    (Event.InsertOne c it v e).isLookup = false := rfl

@[simp] theorem isLookup_UpdateOne (c : String) (f : Filter) (it : Ptr) (v : exampleModel)
    (e : Option GoError) :
    (Event.UpdateOne c f it v e).isLookup = false := rfl

@[simp] theorem isLookup_Callback (it : Ptr) (v : exampleModel) :
    (Event.Callback it v).isLookup = false := rfl

@[simp] theorem isCallback_FindFilterFn (it : Ptr) (v : exampleModel) (f : Filter) (e : Option GoError) :
    (Event.FindFilterFn it v f e).isCallback = false := rfl

@[simp] theorem isCallback_FindOne (c : String) (f : Filter) (t : Ptr) (d : Option exampleModel) :
    (Event.FindOne c f t d).isCallback = false := rfl

@[simp] theorem isCallback_InsertOne (c : String) (it : Ptr) (v : exampleModel) (e : Option GoError) :
    (Event.InsertOne c it v e).isCallback = false := rfl

@[simp] theorem isCallback_UpdateOne (c : String) (f : Filter) (it : Ptr) (v : exampleModel)
    (e : Option GoError) :
    (Event.UpdateOne c f it v e).isCallback = false := rfl

@[simp] theorem isCallback_Callback (it : Ptr) (v : exampleModel) :
    (Event.Callback it v).isCallback = true := rfl

@[simp] theorem item_FindFilterFn (it : Ptr) (v : exampleModel) (f : Filter) (e : Option GoError) :
    (Event.FindFilterFn it v f e).item = some it := rfl

@[simp] theorem item_FindOne (c : String) (f : Filter) (t : Ptr) (d : Option exampleModel) :
    (Event.FindOne c f t d).item = none := rfl

@[simp] theorem item_InsertOne (c : String) (it : Ptr) (v : exampleModel) (e : Option GoError) :
    (Event.InsertOne c it v e).item = some it := rfl

@[simp] theorem item_UpdateOne (c : String) (f : Filter) (it : Ptr) (v : exampleModel)
    (e : Option GoError) :
    (Event.UpdateOne c f it v e).item = some it := rfl

@[simp] theorem item_Callback (it : Ptr) (v : exampleModel) :
    (Event.Callback it v).item = some it := rfl

@[simp] theorem val_FindFilterFn (it : Ptr) (v : exampleModel) (f : Filter) (e : Option GoError) :
    (Event.FindFilterFn it v f e).val = some v := rfl

@[simp] theorem val_FindOne (c : String) (f : Filter) (t : Ptr) (d : Option exampleModel) :
    (Event.FindOne c f t d).val = none := rfl

@[simp] theorem val_InsertOne (c : String) (it : Ptr) (v : exampleModel) (e : Option GoError) :
    (Event.InsertOne c it v e).val = some v := rfl

@[simp] theorem val_UpdateOne (c : String) (f : Filter) (it : Ptr) (v : exampleModel)
    (e : Option GoError) :
    (Event.UpdateOne c f it v e).val = some v := rfl

@[simp] theorem val_Callback (it : Ptr) (v : exampleModel) :
    (Event.Callback it v).val = some v := rfl

/-- The lookup records nothing for a nil filter and one `FindOne` otherwise. -/
theorem lookup_trace {S : Type} (h : MongoHelper S) (coll : String) (f : Filter)
    (existing : Ptr) (w : World S) :
    ∃ look, (lookup h coll f existing w).trace = w.trace ++ look ∧
      (look = [] ∧ f = none ∨ ∃ found, look = [.FindOne coll f existing found]) := by
  unfold lookup
  cases f with
  | none => exact ⟨[], by simp, Or.inl ⟨rfl, rfl⟩⟩
  | some f =>
    cases hfind : h.FindOne w.db coll (some f) with
    | none => exact ⟨[.FindOne coll (some f) existing none], by simp [hfind], Or.inr ⟨_, rfl⟩⟩
    | some d => exact ⟨[.FindOne coll (some f) existing (some d)], by simp [hfind], Or.inr ⟨_, rfl⟩⟩

/-- The insert branch records one `InsertOne` of the item, as it is afterwards. -/
theorem insertItem_trace {S : Type} (h : MongoHelper S) (coll : String) (existing it : Ptr)
    (w : World S) :
    (insertItem h coll existing it w).2.trace = w.trace ++
      [.InsertOne coll it ((insertItem h coll existing it w).2.heap it)
        (insertItem h coll existing it w).1] := by
  unfold insertItem
  split <;> simp [NewObjectID]

/-- The update branch records one `UpdateOne` of the item, as it is afterwards. -/
theorem updateItem_trace {S : Type} (h : MongoHelper S) (coll : String) (f : Filter)
    (existing it : Ptr) (w : World S) :
    (updateItem h coll f existing it w).2.trace = w.trace ++
      [.UpdateOne coll f it ((updateItem h coll f existing it w).2.heap it)
        (updateItem h coll f existing it w).1] := by
  unfold updateItem
  split <;> simp

/-- One run of `reconcile` records the call of the filter function and, when it
succeeds, the lookup (if the filter is not nil) and one write, whose error is
the result. -/
theorem reconcile_calls {S : Type} (h : MongoHelper S) (coll : String)
    (fn : FindFilterFunction) (existing it : Ptr) (w : World S) :
    (∃ v f e, fn v = (f, some e) ∧ (reconcile h coll fn existing it w).1 = some e ∧
      (reconcile h coll fn existing it w).2.trace = w.trace ++ [.FindFilterFn it v f (some e)]) ∨
    (∃ v f look wr, fn v = (f, none) ∧
      (look = [] ∧ f = none ∨ ∃ found, look = [.FindOne coll f existing found]) ∧
      (∃ err, wr = .InsertOne coll it ((reconcile h coll fn existing it w).2.heap it) err ∨
        wr = .UpdateOne coll f it ((reconcile h coll fn existing it w).2.heap it) err) ∧
      (reconcile h coll fn existing it w).1 = wr.failure ∧
      (reconcile h coll fn existing it w).2.trace =
        w.trace ++ .FindFilterFn it v f none :: (look ++ [wr])) := by
  unfold reconcile
  rcases hfn : fn (w.heap it) with ⟨f, e⟩
  cases e with
  | some e => left; exact ⟨w.heap it, f, e, hfn, rfl, rfl⟩
  | none =>
    right
    obtain ⟨look, hlook, hshape⟩ :=
      lookup_trace h coll f existing (w.log (.FindFilterFn it (w.heap it) f none))
    refine ⟨w.heap it, f, look, ?_⟩
    simp only
    split
    · exact ⟨_, hfn, hshape, ⟨_, Or.inl rfl⟩, rfl, by rw [insertItem_trace, hlook]; simp⟩
    · exact ⟨_, hfn, hshape, ⟨_, Or.inr rfl⟩, rfl, by rw [updateItem_trace, hlook]; simp⟩

/-- Appending one error to the aggregate of the loop: its causes are added. -/
theorem Append_one (errs : Option (List String)) (e : GoError) :
    Append (some (.multi errs)) [some e] = some (errs.getD [] ++ causes (some e)) := by
  cases e with
  | plain m => simp [Append, appendErrors, causes]
  | multi p => cases p <;> simp [Append, appendErrors, causes]

/-- The errors of the calls in a list of calls that ends with `wr`, when the
calls before it are the successful filter call and the lookup. -/
theorem failure_written (it : Ptr) (v : exampleModel) (f : Filter) (coll : String)
    (existing : Ptr) (look : List Event) (wr : Event) (tail : List Event)
    (hl : look = [] ∧ f = none ∨ ∃ found, look = [.FindOne coll f existing found])
    (ht : ∀ x ∈ tail, x.failure = none) :
    (Event.FindFilterFn it v f none :: (look ++ wr :: tail)).filterMap Event.failure =
      wr.failure.toList := by
  have htail : tail.filterMap Event.failure = [] := by
    rw [List.filterMap_eq_nil_iff]; exact ht
  rcases hl with ⟨rfl, _⟩ | ⟨found, rfl⟩ <;>
    cases hwr : wr.failure <;>
    simp [List.filterMap_cons, hwr, htail]

/-- The calls of the loop of `SeedData`: one group of calls per item, in the
order of the items, each of the form `ItemCalls` describes; the aggregate gains
the causes of the errors these calls returned, in order. -/
theorem seedLoop_calls {S : Type} (h : MongoHelper S) (coll : String)
    (fn : FindFilterFunction) (cb : Bool) (existing : Ptr) :
    ∀ (items : List Ptr) (errs : Option (List String)) (w : World S),
      ∃ chunks, List.Forall₂ (ItemCalls coll fn cb existing) items chunks ∧
        (seedLoop h coll fn cb existing items errs w).2.trace = w.trace ++ chunks.flatten ∧
        (seedLoop h coll fn cb existing items errs w).1 =
          if chunks.flatten.filterMap Event.failure = [] then errs
          else some (errs.getD [] ++ traceCauses chunks.flatten)
  | [], errs, w => ⟨[], .nil, by simp [seedLoop], by simp [seedLoop]⟩
  | it :: rest, errs, w => by
    rcases reconcile_calls h coll fn existing it w with
      ⟨v, f, e, hfn, he, ht⟩ | ⟨v, f, look, wr, hfn, hl, ⟨err, hw⟩, he, ht⟩
    · obtain ⟨chunks, hF, htr, her⟩ := seedLoop_calls h coll fn cb existing rest
        (Append (some (.multi errs)) [some e]) (reconcile h coll fn existing it w).2
      refine ⟨[.FindFilterFn it v f (some e)] :: chunks, .cons (.filterFailed v f e hfn) hF, ?_, ?_⟩
      · rw [seedLoop]; simp only [he]; rw [htr, ht]; simp
      · rw [seedLoop]; simp only [he]; rw [her, Append_one]
        simp only [traceCauses, List.flatten_cons, List.filterMap_append, List.filterMap_cons,
          failure_FindFilterFn, List.filterMap_nil]
        generalize chunks.flatten.filterMap Event.failure = fs
        by_cases hfs : fs = [] <;> simp [hfs]
    · cases hfail : wr.failure with
      | some e =>
        rw [hfail] at he
        obtain ⟨chunks, hF, htr, her⟩ := seedLoop_calls h coll fn cb existing rest
          (Append (some (.multi errs)) [some e]) (reconcile h coll fn existing it w).2
        have hI := @ItemCalls.written coll fn cb existing it v f look wr hfn hl ⟨_, _, hw⟩
        simp only [hfail] at hI
        refine ⟨_ :: chunks, .cons hI hF, ?_, ?_⟩
        · rw [seedLoop]; simp only [he]; rw [htr, ht]; simp
        · rw [seedLoop]; simp only [he]; rw [her, Append_one]
          simp only [traceCauses, List.flatten_cons, List.filterMap_append]
          rw [failure_written it v f coll existing look wr _ hl (by simp)]
          simp only [hfail]
          generalize chunks.flatten.filterMap Event.failure = fs
          by_cases hfs : fs = [] <;> simp [hfs]
      | none =>
        rw [hfail] at he
        obtain ⟨chunks, hF, htr, her⟩ := seedLoop_calls h coll fn cb existing rest errs
          (if cb then (reconcile h coll fn existing it w).2.log
            (.Callback it ((reconcile h coll fn existing it w).2.heap it))
           else (reconcile h coll fn existing it w).2)
        have hI := @ItemCalls.written coll fn cb existing it v f look wr hfn hl ⟨_, _, hw⟩
        have hval : wr.val = some ((reconcile h coll fn existing it w).2.heap it) := by
          rcases hw with rfl | rfl <;> rfl
        simp only [hfail, hval] at hI
        refine ⟨_ :: chunks, .cons hI hF, ?_, ?_⟩
        · rw [seedLoop]; simp only [he]; rw [htr]
          cases cb <;> simp [ht]
        · rw [seedLoop]; simp only [he]; rw [her]
          simp only [traceCauses, List.flatten_cons, List.filterMap_append]
          rw [failure_written it v f coll existing look wr _ hl
            (by cases cb <;> simp)]
          simp [hfail]

/-- What `SeedData` does with a task that passes validation: the loop, then
`ErrorOrNil`. -/
theorem SeedData_valid {S : Type} (h : MongoHelper S) (coll : String) (model : Ptr)
    (fn : FindFilterFunction) (cb : Bool) (items : List Ptr) (w : World S) (hcoll : coll ≠ "") :
    SeedData h (some ⟨coll, some model, some fn, cb, items⟩) w =
      (ErrorOrNil (seedLoop h coll fn cb model items none w).1,
        (seedLoop h coll fn cb model items none w).2) := by
  simp [SeedData, hcoll]

/-- The calls of `SeedData` on a task that passes validation: one group of calls
per item, and the error is the aggregate of the causes of the errors the calls
returned, nil when there is none. -/
theorem SeedData_calls {S : Type} (h : MongoHelper S) (coll : String) (model : Ptr)
    (fn : FindFilterFunction) (cb : Bool) (items : List Ptr) (w : World S) (hcoll : coll ≠ "") :
    ∃ chunks, List.Forall₂ (ItemCalls coll fn cb model) items chunks ∧
      (SeedData h (some ⟨coll, some model, some fn, cb, items⟩) w).2.trace =
        w.trace ++ chunks.flatten ∧
      (SeedData h (some ⟨coll, some model, some fn, cb, items⟩) w).1 =
        if traceCauses chunks.flatten = [] then none
        else some (.multi (some (traceCauses chunks.flatten))) := by
  obtain ⟨chunks, hF, htr, her⟩ := seedLoop_calls h coll fn cb model items none w
  refine ⟨chunks, hF, ?_, ?_⟩
  · rw [SeedData_valid h coll model fn cb items w hcoll]; exact htr
  · rw [SeedData_valid h coll model fn cb items w hcoll]
    simp only [her]
    by_cases hfs : chunks.flatten.filterMap Event.failure = []
    · simp [hfs, traceCauses, ErrorOrNil]
    · simp only [hfs, if_false, Option.getD_none, List.nil_append, ErrorOrNil]
      by_cases hc : traceCauses chunks.flatten = [] <;> simp [hc]

/-- In the calls for one item at most one returned an error. -/
theorem ItemCalls.failures {coll : String} {fn : FindFilterFunction} {cb : Bool}
    {existing it : Ptr} {c : List Event} (hc : ItemCalls coll fn cb existing it c) :
    (c.filterMap Event.failure).length ≤ 1 := by
  cases hc with
  | filterFailed v f e hfn => simp
  | written v f look wr hfn hl hw =>
    rw [failure_written it v f coll existing look wr _ hl
      (by intro x hx; split at hx <;> simp_all)]
    cases wr.failure <;> simp

/-- The calls for one item start with the one call of the filter function. -/
theorem ItemCalls.filterCall {coll : String} {fn : FindFilterFunction} {cb : Bool}
    {existing it : Ptr} {c : List Event} (hc : ItemCalls coll fn cb existing it c) :
    ∃ v f e rest, fn v = (f, e) ∧ c = .FindFilterFn it v f e :: rest ∧
      rest.filter Event.isFilterCall = [] ∧
      (rest.filter Event.isWrite).length = (if e = none then 1 else 0) ∧
      (∀ x ∈ rest, x.isWrite = true → x.item = some it) := by
  cases hc with
  | filterFailed v f e hfn => exact ⟨v, f, some e, [], hfn, rfl, by simp⟩
  | written v f look wr hfn hl hw =>
    refine ⟨v, f, none, _, hfn, rfl, ?_⟩
    obtain ⟨x, err, rfl | rfl⟩ := hw <;>
      rcases hl with ⟨rfl, _⟩ | ⟨found, rfl⟩ <;>
      (split <;> simp)

/-- With a callback configured, the calls for one item end with the callback,
right after the successful write, when no call failed, and hold no callback
otherwise. -/
theorem ItemCalls.callback {coll : String} {fn : FindFilterFunction} {existing it : Ptr}
    {c : List Event} (hc : ItemCalls coll fn true existing it c) :
    (c.filterMap Event.failure = [] →
      ∃ pre wr v, c = pre ++ [wr, .Callback it v] ∧ wr.isWrite = true ∧ wr.item = some it ∧
        wr.val = some v ∧ wr.failure = none ∧ pre.filter Event.isCallback = []) ∧
    (c.filterMap Event.failure ≠ [] → c.filter Event.isCallback = []) := by
  cases hc with
  | filterFailed v f e hfn => simp
  | written v f look wr hfn hl hw =>
    have hlook : look.filter Event.isCallback = [] := by
      rcases hl with ⟨rfl, _⟩ | ⟨found, rfl⟩ <;> simp
    have hwrcb : wr.isCallback = false := by
      obtain ⟨x, err, rfl | rfl⟩ := hw <;> rfl
    cases hfail : wr.failure with
    | some e =>
      refine ⟨fun hno => ?_, fun _ => ?_⟩
      · rw [failure_written it v f coll existing look wr _ hl
          (by intro x hx; split at hx <;> simp_all)] at hno
        simp [hfail] at hno
      · simp [hlook, hwrcb, List.filter_cons]
    | none =>
      refine ⟨fun _ => ?_, fun hne => ?_⟩
      · obtain ⟨x, err, rfl | rfl⟩ := hw
        · exact ⟨.FindFilterFn it v f none :: look, .InsertOne coll it x err, x,
            by simp_all, rfl, rfl, rfl, hfail, by simp [hlook]⟩
        · exact ⟨.FindFilterFn it v f none :: look, .UpdateOne coll f it x err, x,
            by simp_all, rfl, rfl, rfl, hfail, by simp [hlook]⟩
      · rw [failure_written it v f coll existing look wr _ hl
          (by intro x hx; split at hx <;> simp_all)] at hne
        simp [hfail] at hne

/-- With a callback configured, the calls for one item hold either one callback
or one error. -/
theorem ItemCalls.callback_or_failure {coll : String} {fn : FindFilterFunction}
    {existing it : Ptr} {c : List Event} (hc : ItemCalls coll fn true existing it c) :
    (c.filter Event.isCallback).length + (c.filterMap Event.failure).length = 1 := by
  by_cases hno : c.filterMap Event.failure = []
  · obtain ⟨pre, wr, v, rfl, hw, _, _, hf, hpre⟩ := hc.callback.1 hno
    have hwrcb : wr.isCallback = false := by
      cases wr <;> simp_all
    rw [hno]
    simp [List.filter_append, hpre, List.filter_cons, hwrcb]
  · rw [hc.callback.2 hno]
    have h1 := hc.failures
    have h2 : (c.filterMap Event.failure).length ≠ 0 := by
      simpa [List.length_eq_zero] using hno
    simp; omega

/-- Callbacks and errors, counted over the groups of calls of all items. -/
theorem callbacks_and_failures {coll : String} {fn : FindFilterFunction} {existing : Ptr} :
    ∀ {items : List Ptr} {chunks : List (List Event)},
      List.Forall₂ (ItemCalls coll fn true existing) items chunks →
      (chunks.flatten.filter Event.isCallback).length +
        (chunks.flatten.filterMap Event.failure).length = items.length
  | _, _, .nil => by simp
  | _, _, .cons hc hrest => by
    have h1 := hc.callback_or_failure
    have h2 := callbacks_and_failures hrest
    simp only [List.flatten_cons, List.filter_append, List.filterMap_append, List.length_append,
      List.length_cons]
    omega

/-- The calls for one item are about that item, after its filter call. -/
theorem ItemCalls.callsFor {coll : String} {fn : FindFilterFunction} {cb : Bool}
    {existing it : Ptr} {c : List Event} (hc : ItemCalls coll fn cb existing it c) :
    CallsFor fn it c := by
  cases hc with
  | filterFailed v f e hfn => exact ⟨v, f, some e, [], hfn, rfl, by simp, by simp⟩
  | written v f look wr hfn hl hw =>
    refine ⟨v, f, none, _, hfn, rfl, ?_, ?_⟩
    · obtain ⟨x, err, rfl | rfl⟩ := hw <;>
        rcases hl with ⟨rfl, _⟩ | ⟨found, rfl⟩ <;>
        (split <;> simp)
    · obtain ⟨x, err, rfl | rfl⟩ := hw <;>
        rcases hl with ⟨rfl, _⟩ | ⟨found, rfl⟩ <;>
        (split <;> simp)

/-- The loop over a list of items is the loop over a first part followed by the
loop over the rest, from the aggregate and the state the first part left. -/
theorem seedLoop_append {S : Type} (h : MongoHelper S) (coll : String)
    (fn : FindFilterFunction) (cb : Bool) (existing : Ptr) :
    ∀ (pre post : List Ptr) (errs : Option (List String)) (w : World S),
      seedLoop h coll fn cb existing (pre ++ post) errs w =
        seedLoop h coll fn cb existing post (seedLoop h coll fn cb existing pre errs w).1
          (seedLoop h coll fn cb existing pre errs w).2
  | [], post, errs, w => by simp [seedLoop]
  | it :: pre, post, errs, w => by
    rw [List.cons_append, seedLoop, seedLoop]
    cases (reconcile h coll fn existing it w).1 <;> simp only <;> rw [seedLoop_append]

/-- The calls recorded so far stay: a longer list of items only adds calls. -/
theorem SeedData_trace_grows {S : Type} (h : MongoHelper S) (coll : String) (model : Ptr)
    (fn : FindFilterFunction) (cb : Bool) (pre post : List Ptr) (w : World S)
    (hcoll : coll ≠ "") :
    (SeedData h (some ⟨coll, some model, some fn, cb, pre⟩) w).2.trace <+:
      (SeedData h (some ⟨coll, some model, some fn, cb, pre ++ post⟩) w).2.trace := by
  rw [SeedData_valid h coll model fn cb _ w hcoll, SeedData_valid h coll model fn cb _ w hcoll,
    seedLoop_append]
  obtain ⟨chunks, _, htr, _⟩ := seedLoop_calls h coll fn cb model post
    (seedLoop h coll fn cb model pre none w).1 (seedLoop h coll fn cb model pre none w).2
  simp only [htr]
  exact List.prefix_append _ _

/-- The item as the update branch passes it on: with the identity of `existing`
when that is an ObjectID, as it is otherwise. -/
theorem updateItem_heap {S : Type} (h : MongoHelper S) (coll : String) (f : Filter)
    (existing it : Ptr) (w : World S) :
    (updateItem h coll f existing it w).2.heap it =
      if (w.heap existing).ID.isObjectID = true then (w.heap it).SetID (w.heap existing).ID
      else w.heap it := by
  unfold updateItem
  by_cases hk : (w.heap existing).ID.isObjectID = true <;> simp [hk, exampleModel.GetID]

/-- One iteration of the loop for an item whose filter finds a document that has
an identity: the filter function, the lookup, the update, and the callback if
the update succeeds and there is one. -/
theorem seedLoop_found {S : Type} (h : MongoHelper S) (coll : String)
    (fn : FindFilterFunction) (cb : Bool) (existing it : Ptr) (errs : Option (List String))
    (w : World S) (f : BsonM) (d : exampleModel)
    (hfn : fn (w.heap it) = (some f, none))
    (hfind : h.FindOne w.db coll (some f) = some d) (hex : d.Exists = true) :
    ∃ err, (seedLoop h coll fn cb existing [it] errs w).2.trace = w.trace ++
      [.FindFilterFn it (w.heap it) (some f) none, .FindOne coll (some f) existing (some d),
        .UpdateOne coll (some f) it
          (if d.ID.isObjectID = true then
            (if it = existing then d else w.heap it).SetID d.ID
           else (if it = existing then d else w.heap it)) err] ++
      (if cb = true ∧ err = none then
        [.Callback it
          (if d.ID.isObjectID = true then
            (if it = existing then d else w.heap it).SetID d.ID
           else (if it = existing then d else w.heap it))]
       else []) := by
  have hrec : reconcile h coll fn existing it w =
      updateItem h coll (some f) existing it
        (((w.log (.FindFilterFn it (w.heap it) (some f) none)).store existing d).log
          (.FindOne coll (some f) existing (some d))) := by
    simp [reconcile, hfn, lookup, hfind, hex]
  generalize hu : (((w.log (.FindFilterFn it (w.heap it) (some f) none)).store existing d).log
          (.FindOne coll (some f) existing (some d))) = u at hrec
  have hut : u.trace = w.trace ++ [.FindFilterFn it (w.heap it) (some f) none,
      .FindOne coll (some f) existing (some d)] := by subst hu; simp
  have hue : u.heap existing = d := by subst hu; simp
  have hui : u.heap it = if it = existing then d else w.heap it := by
    subst hu; simp [Function.update]
  have hval := updateItem_heap h coll (some f) existing it u
  rw [hue, hui] at hval
  have htr := updateItem_trace h coll (some f) existing it u
  rw [hval, hut] at htr
  refine ⟨(updateItem h coll (some f) existing it u).1, ?_⟩
  rw [seedLoop, hrec]
  cases herr : (updateItem h coll (some f) existing it u).1 with
  | some e =>
    simp only [seedLoop]
    rw [htr, herr]
    simp
  | none =>
    simp only [seedLoop]
    cases cb
    · simp only [Bool.false_eq_true, if_false, false_and]
      rw [htr, herr]
      simp
    · simp only [if_true, true_and, log_trace]
      rw [htr, herr, hval]
      simp

/-! ## The calls and the collaborators -/

/-- Calls made one after the other: a first part, then a second part from the
store the first left. -/
theorem Performed_append {S : Type} (h : MongoHelper S) (fn : FindFilterFunction) :
    ∀ (a b : List Event) (s s1 s2 : S),
      Performed h fn s a s1 → Performed h fn s1 b s2 → Performed h fn s (a ++ b) s2
  | [], b, s, s1, s2, ha, hb => by
    simp only [Performed] at ha
    subst ha
    exact hb
  | e :: a, b, s, s1, s2, ha, hb => ⟨ha.1, Performed_append h fn a b _ s1 s2 ha.2 hb⟩

/-- The errors recorded in calls that were made on the collaborators are errors
the collaborators returned. -/
theorem Performed_failures {S : Type} (h : MongoHelper S) (fn : FindFilterFunction)
    (P : GoError → Prop) (hfn : ∀ v f e, fn v = (f, some e) → P e)
    (hins : ∀ s c v e, (h.InsertOne s c v).1.2 = some e → P e)
    (hupd : ∀ s c f v e, (h.UpdateOne s c f v).1 = some e → P e) :
    ∀ (c : List Event) (s s1 : S), Performed h fn s c s1 →
      ∀ e ∈ c.filterMap Event.failure, P e
  | [], _, _, _ => by simp
  | x :: c, s, s1, hp => by
    have ih := Performed_failures h fn P hfn hins hupd c _ s1 hp.2
    have hx := hp.1
    intro e he
    rw [List.filterMap_cons] at he
    cases hf : x.failure with
    | none => rw [hf] at he; exact ih e he
    | some e1 =>
      rw [hf] at he
      rcases List.mem_cons.1 he with rfl | he
      · cases x with
        | FindFilterFn it v f err => cases hf; exact hfn _ _ _ hx
        | FindOne c1 f t d => cases hf
        | InsertOne c1 it v err => cases hf; exact hins _ _ _ _ hx
        | UpdateOne c1 f it v err => cases hf; exact hupd _ _ _ _ _ hx
        | Callback it v => cases hf
      · exact ih e he

/-- Ordinary errors are given by their messages. -/
theorem plain_messages :
    ∀ fs : List GoError, (∀ e ∈ fs, e.isPlain = true) →
      ∃ l : List String, fs = l.map GoError.plain
  | [], _ => ⟨[], rfl⟩
  | e :: fs, hp => by
    obtain ⟨l, hl⟩ := plain_messages fs (fun x hx => hp x (List.mem_cons_of_mem _ hx))
    cases e with
    | plain m => exact ⟨m :: l, by rw [hl]; rfl⟩
    | multi q => exact absurd (hp _ (List.mem_cons_self _ _)) (by simp [GoError.isPlain])

/-- The causes of ordinary errors: one each, its message. -/
theorem causes_plain :
    ∀ l : List String, ((l.map GoError.plain).map (fun e => causes (some e))).flatten = l
  | [] => rfl
  | m :: l => by
    simp only [List.map_cons, List.flatten_cons]
    rw [causes_plain l]
    rfl

/-- The lookup is made on the helper and leaves the store as it is. -/
theorem lookup_performed {S : Type} (h : MongoHelper S) (fn : FindFilterFunction)
    (coll : String) (f : Filter) (existing : Ptr) (w : World S) :
    ∃ look, (lookup h coll f existing w).trace = w.trace ++ look ∧
      (lookup h coll f existing w).db = w.db ∧ Performed h fn w.db look w.db := by
  unfold lookup
  cases f with
  | none => exact ⟨[], by simp, rfl, rfl⟩
  | some f =>
    cases hfind : h.FindOne w.db coll (some f) with
    | none =>
      refine ⟨[.FindOne coll (some f) existing none], ?_, ?_, hfind, rfl⟩ <;> simp [hfind]
    | some d =>
      refine ⟨[.FindOne coll (some f) existing (some d)], ?_, ?_, hfind, rfl⟩ <;>
        simp [hfind]

/-- The insert branch makes one `InsertOne` on the helper, with the item as
recorded, and leaves the store that call gives. -/
theorem insertItem_performed {S : Type} (h : MongoHelper S)
    (coll : String) (existing it : Ptr) (w : World S) :
    ∃ v, (insertItem h coll existing it w).2.trace =
        w.trace ++ [.InsertOne coll it v (h.InsertOne w.db coll v).1.2] ∧
      (insertItem h coll existing it w).1 = (h.InsertOne w.db coll v).1.2 ∧
      (insertItem h coll existing it w).2.db = (h.InsertOne w.db coll v).2 := by
  unfold insertItem
  split
  · exact ⟨_, rfl, rfl, rfl⟩
  · exact ⟨_, rfl, rfl, rfl⟩

/-- The update branch makes one `UpdateOne` on the helper, with the filter and
the item as recorded, and leaves the store that call gives. -/
theorem updateItem_performed {S : Type} (h : MongoHelper S)
    (coll : String) (f : Filter) (existing it : Ptr) (w : World S) :
    ∃ v, (updateItem h coll f existing it w).2.trace =
        w.trace ++ [.UpdateOne coll f it v (h.UpdateOne w.db coll f v).1] ∧
      (updateItem h coll f existing it w).1 = (h.UpdateOne w.db coll f v).1 ∧
      (updateItem h coll f existing it w).2.db = (h.UpdateOne w.db coll f v).2 := by
  unfold updateItem
  split
  · exact ⟨_, rfl, rfl, rfl⟩
  · exact ⟨_, rfl, rfl, rfl⟩

/-- One run of `reconcile` makes the calls it records on the collaborators, and
the store it leaves is the one these calls give. -/
theorem reconcile_performed {S : Type} (h : MongoHelper S) (coll : String)
    (fn : FindFilterFunction) (existing it : Ptr) (w : World S) :
    ∃ new, (reconcile h coll fn existing it w).2.trace = w.trace ++ new ∧
      Performed h fn w.db new (reconcile h coll fn existing it w).2.db := by
  unfold reconcile
  rcases hfn : fn (w.heap it) with ⟨f, e⟩
  cases e with
  | some e => exact ⟨[.FindFilterFn it (w.heap it) f (some e)], rfl, hfn, rfl⟩
  | none =>
    obtain ⟨look, hlook, hdb, hperf⟩ :=
      lookup_performed h fn coll f existing (w.log (.FindFilterFn it (w.heap it) f none))
    simp only
    generalize lookup h coll f existing (w.log (.FindFilterFn it (w.heap it) f none)) = u
      at hlook hdb
    rw [log_trace] at hlook
    rw [log_db] at hdb hperf
    split
    · obtain ⟨v, htr, _, hd⟩ := insertItem_performed h coll existing it u
      refine ⟨.FindFilterFn it (w.heap it) f none ::
        (look ++ [.InsertOne coll it v (h.InsertOne u.db coll v).1.2]), ?_, hfn, ?_⟩
      · rw [htr, hlook]; simp
      · refine Performed_append h fn look _ w.db w.db _ hperf ⟨?_, ?_⟩
        · rw [← hdb]; rfl
        · rw [hd, hdb]; rfl
    · obtain ⟨v, htr, _, hd⟩ := updateItem_performed h coll f existing it u
      refine ⟨.FindFilterFn it (w.heap it) f none ::
        (look ++ [.UpdateOne coll f it v (h.UpdateOne u.db coll f v).1]), ?_, hfn, ?_⟩
      · rw [htr, hlook]; simp
      · refine Performed_append h fn look _ w.db w.db _ hperf ⟨?_, ?_⟩
        · rw [← hdb]; rfl
        · rw [hd, hdb]; rfl

/-- The loop of `SeedData` makes the calls it records on the collaborators, and
the store it leaves is the one these calls give. -/
theorem seedLoop_performed {S : Type} (h : MongoHelper S) (coll : String)
    (fn : FindFilterFunction) (cb : Bool) (existing : Ptr) :
    ∀ (items : List Ptr) (errs : Option (List String)) (w : World S),
      ∃ new, (seedLoop h coll fn cb existing items errs w).2.trace = w.trace ++ new ∧
        Performed h fn w.db new (seedLoop h coll fn cb existing items errs w).2.db
  | [], errs, w => ⟨[], by simp [seedLoop], rfl⟩
  | it :: rest, errs, w => by
    obtain ⟨new1, htr1, hp1⟩ := reconcile_performed h coll fn existing it w
    rw [seedLoop]
    cases (reconcile h coll fn existing it w).1 with
    | some e =>
      simp only
      obtain ⟨new2, htr2, hp2⟩ := seedLoop_performed h coll fn cb existing rest
        (Append (some (.multi errs)) [some e]) (reconcile h coll fn existing it w).2
      exact ⟨new1 ++ new2, by rw [htr2, htr1, List.append_assoc],
        Performed_append h fn new1 new2 _ _ _ hp1 hp2⟩
    | none =>
      simp only
      cases cb with
      | false =>
        obtain ⟨new2, htr2, hp2⟩ := seedLoop_performed h coll fn false existing rest errs
          (reconcile h coll fn existing it w).2
        refine ⟨new1 ++ new2, ?_, ?_⟩
        · simp only [Bool.false_eq_true, if_false]
          rw [htr2, htr1, List.append_assoc]
        · simp only [Bool.false_eq_true, if_false]
          exact Performed_append h fn new1 new2 _ _ _ hp1 hp2
      | true =>
        obtain ⟨new2, htr2, hp2⟩ := seedLoop_performed h coll fn true existing rest errs
          ((reconcile h coll fn existing it w).2.log
            (.Callback it ((reconcile h coll fn existing it w).2.heap it)))
        refine ⟨new1 ++
          (.Callback it ((reconcile h coll fn existing it w).2.heap it) :: new2), ?_, ?_⟩
        · simp only [if_true]
          rw [htr2, log_trace, htr1]
          simp
        · simp only [if_true]
          exact Performed_append h fn new1 _ _ _ _ hp1 ⟨trivial, hp2⟩

/-- The calls of `SeedData` on a task that passes validation are made on the
collaborators, and the store it leaves is the one these calls give. -/
theorem SeedData_performed {S : Type} (h : MongoHelper S) (coll : String) (model : Ptr)
    (fn : FindFilterFunction) (cb : Bool) (items : List Ptr) (w : World S) (hcoll : coll ≠ "")
    (new : List Event)
    (htr : (SeedData h (some ⟨coll, some model, some fn, cb, items⟩) w).2.trace =
      w.trace ++ new) :
    Performed h fn w.db new (SeedData h (some ⟨coll, some model, some fn, cb, items⟩) w).2.db := by
  rw [SeedData_valid h coll model fn cb items w hcoll] at htr ⊢
  obtain ⟨new1, htr1, hp⟩ := seedLoop_performed h coll fn cb model items none w
  simp only at htr ⊢
  rw [htr1] at htr
  rw [← List.append_cancel_left htr]
  exact hp

/-! ## The seeding reconciler: the claims -/

/-- C2, amended: on a task that passes validation, the calls of `SeedData` fall
into one group per item, in input order, and are made on the collaborators: each
recorded error is what the filter function or the helper returned. In each group
at most one call (the filter function, the insert or the update) returned an
error. The result is the aggregate of the causes of these errors, in the order
of the calls, where an ordinary error is one cause and an aggregate brings its
own causes; it is nil when there is no cause, never an empty aggregate. When the
filter function and the helper return only ordinary errors, the causes are the
returned errors themselves, one for every failing item, and the result is nil
exactly when no call failed. -/
theorem SeedData_aggregates_item_errors {S : Type} (h : MongoHelper S) (coll : String)
    (model : Ptr) (fn : FindFilterFunction) (cb : Bool) (items : List Ptr) (w : World S)
    (hcoll : coll ≠ "") :
    ∃ chunks : List (List Event),
      (SeedData h (some ⟨coll, some model, some fn, cb, items⟩) w).2.trace =
        w.trace ++ chunks.flatten ∧
      Performed h fn w.db chunks.flatten
        (SeedData h (some ⟨coll, some model, some fn, cb, items⟩) w).2.db ∧
      List.Forall₂ (fun it c => CallsFor fn it c ∧ (c.filterMap Event.failure).length ≤ 1)
        items chunks ∧
      (SeedData h (some ⟨coll, some model, some fn, cb, items⟩) w).1 =
        (if traceCauses chunks.flatten = [] then none
         else some (.multi (some (traceCauses chunks.flatten)))) ∧
      ((∀ v f e, fn v = (f, some e) → e.isPlain = true) →
        (∀ s c v e, (h.InsertOne s c v).1.2 = some e → e.isPlain = true) →
        (∀ s c f v e, (h.UpdateOne s c f v).1 = some e → e.isPlain = true) →
        ∃ l, chunks.flatten.filterMap Event.failure = l.map GoError.plain ∧
          (SeedData h (some ⟨coll, some model, some fn, cb, items⟩) w).1 =
            (if l = [] then none else some (.multi (some l))) ∧
          ((SeedData h (some ⟨coll, some model, some fn, cb, items⟩) w).1 = none ↔
            chunks.flatten.filterMap Event.failure = [])) := by
  obtain ⟨chunks, hF, htr, her⟩ := SeedData_calls h coll model fn cb items w hcoll
  have hperf := SeedData_performed h coll model fn cb items w hcoll _ htr
  refine ⟨chunks, htr, hperf, hF.imp (fun _ _ hc => ⟨hc.callsFor, hc.failures⟩), her, ?_⟩
  intro hfn hins hupd
  obtain ⟨l, hl⟩ := plain_messages _
    (Performed_failures h fn (fun e => e.isPlain = true) hfn hins hupd _ _ _ hperf)
  have hc : traceCauses chunks.flatten = l := by
    rw [traceCauses, hl, causes_plain]
  rw [hc] at her
  refine ⟨l, hl, her, ?_⟩
  rw [her, hl]
  cases l <;> simp

/-- C5: on a task that passes validation, the calls of `SeedData` fall into one
group per item, in input order; each group starts with the one call of the
filter function on its item, and holds one store write, of that item, when that
call gave no error, and no store write when it gave one. The calls are made on
the collaborators: every recorded write is a call of `InsertOne` or `UpdateOne`
of the helper in the store the writes before it left, and the store after the
run is the one the last write gives. With no items nothing is called. -/
theorem SeedData_one_write_per_item {S : Type} (h : MongoHelper S) (coll : String)
    (model : Ptr) (fn : FindFilterFunction) (cb : Bool) (items : List Ptr) (w : World S)
    (hcoll : coll ≠ "") :
    (∃ chunks : List (List Event),
      (SeedData h (some ⟨coll, some model, some fn, cb, items⟩) w).2.trace =
        w.trace ++ chunks.flatten ∧
      Performed h fn w.db chunks.flatten
        (SeedData h (some ⟨coll, some model, some fn, cb, items⟩) w).2.db ∧
      List.Forall₂ (fun it c => ∃ v f e rest, fn v = (f, e) ∧
          c = .FindFilterFn it v f e :: rest ∧
          rest.filter Event.isFilterCall = [] ∧
          (rest.filter Event.isWrite).length = (if e = none then 1 else 0) ∧
          (∀ x ∈ rest, x.isWrite = true → x.item = some it))
        items chunks) ∧
    SeedData h (some ⟨coll, some model, some fn, cb, []⟩) w = (none, w) := by
  constructor
  · obtain ⟨chunks, hF, htr, _⟩ := SeedData_calls h coll model fn cb items w hcoll
    exact ⟨chunks, htr, SeedData_performed h coll model fn cb items w hcoll _ htr,
      hF.imp (fun _ _ hc => hc.filterCall)⟩
  · rw [SeedData_valid h coll model fn cb [] w hcoll]; rfl

/-- C8, amended: on a task that passes validation and has a callback, the calls
of `SeedData` fall into one group per item, in input order, and are made on the
collaborators: each recorded error is what the filter function or the helper
returned. A group in which no call returned an error ends with the one callback
of the group, on its item, right after the write and with the item as written;
a group in which a call returned an error holds no callback; the callbacks and
the calls that returned an error together are as many as the items. When the
filter function and the helper return only ordinary errors, the callbacks and
the causes of the result together are as many as the items. -/
theorem SeedData_callbacks {S : Type} (h : MongoHelper S) (coll : String)
    (model : Ptr) (fn : FindFilterFunction) (items : List Ptr) (w : World S)
    (hcoll : coll ≠ "") :
    ∃ chunks : List (List Event),
      (SeedData h (some ⟨coll, some model, some fn, true, items⟩) w).2.trace =
        w.trace ++ chunks.flatten ∧
      Performed h fn w.db chunks.flatten
        (SeedData h (some ⟨coll, some model, some fn, true, items⟩) w).2.db ∧
      List.Forall₂ (fun it c => CallsFor fn it c ∧
          (c.filterMap Event.failure = [] →
            ∃ pre wr v, c = pre ++ [wr, .Callback it v] ∧ wr.isWrite = true ∧
              wr.item = some it ∧ wr.val = some v ∧ wr.failure = none ∧
              pre.filter Event.isCallback = []) ∧
          (c.filterMap Event.failure ≠ [] → c.filter Event.isCallback = []))
        items chunks ∧
      (chunks.flatten.filter Event.isCallback).length +
        (chunks.flatten.filterMap Event.failure).length = items.length ∧
      ((∀ v f e, fn v = (f, some e) → e.isPlain = true) →
        (∀ s c v e, (h.InsertOne s c v).1.2 = some e → e.isPlain = true) →
        (∀ s c f v e, (h.UpdateOne s c f v).1 = some e → e.isPlain = true) →
        (chunks.flatten.filter Event.isCallback).length +
          (causes (SeedData h (some ⟨coll, some model, some fn, true, items⟩) w).1).length =
            items.length) := by
  obtain ⟨chunks, hF, htr, her⟩ := SeedData_calls h coll model fn true items w hcoll
  have hperf := SeedData_performed h coll model fn true items w hcoll _ htr
  have hcount := callbacks_and_failures hF
  refine ⟨chunks, htr, hperf, hF.imp (fun _ _ hc => ⟨hc.callsFor, hc.callback⟩), hcount, ?_⟩
  intro hfn hins hupd
  obtain ⟨l, hl⟩ := plain_messages _
    (Performed_failures h fn (fun e => e.isPlain = true) hfn hins hupd _ _ _ hperf)
  have hc : traceCauses chunks.flatten = l := by
    rw [traceCauses, hl, causes_plain]
  rw [hl, List.length_map] at hcount
  rw [her, hc]
  cases l with
  | nil => simpa [causes] using hcount
  | cons m l => simpa [causes] using hcount

/-- C6: `SeedData` returns nil for a nil task; `ErrNoCollection` for an empty
collection, whatever the filter function and the model; `ErrNoFindFilterFn` for
a collection without filter function, whatever the model; `ErrNoModel` for a
collection and a filter function without model. The state is left as it was,
and the three errors are ordinary errors, not aggregates. -/
theorem SeedData_validation {S : Type} (h : MongoHelper S) (w : World S) (coll : String)
    (model : Option Ptr) (fn : Option FindFilterFunction) (fn1 : FindFilterFunction)
    (cb : Bool) (items : List Ptr) (hcoll : coll ≠ "") :
    SeedData h none w = (none, w) ∧
    SeedData h (some ⟨"", model, fn, cb, items⟩) w = (some ErrNoCollection, w) ∧
    SeedData h (some ⟨coll, model, none, cb, items⟩) w = (some ErrNoFindFilterFn, w) ∧
    SeedData h (some ⟨coll, none, some fn1, cb, items⟩) w = (some ErrNoModel, w) ∧
    ErrNoCollection = .plain "you must specify the collection" ∧
    ErrNoFindFilterFn = .plain "you must specify a FindFilterFn" ∧
    ErrNoModel = .plain "you must specify a Model" := by
  refine ⟨rfl, ?_, ?_, ?_, rfl, rfl, rfl⟩ <;> simp [SeedData, hcoll]

/-- C7: when the task is nil, or has an empty collection, no filter function
or no model, `SeedData` leaves the state as it was, whatever the items: nothing
is added to the calls, the store and the models are untouched. -/
theorem SeedData_invalid_no_calls {S : Type} (h : MongoHelper S) (task : Option SeedTableTask)
    (w : World S)
    (hinv : ∀ t, task = some t → t.Collection = "" ∨ t.FindFilterFn = none ∨ t.Model = none) :
    (SeedData h task w).2 = w := by
  cases task with
  | none => rfl
  | some t =>
    unfold SeedData
    simp only
    split
    · rfl
    · split
      · rfl
      · split
        · rfl
        · rcases hinv t rfl with h1 | h1 | h1 <;> simp_all

/-! ## The migration runner -/

/-- A task of an unknown type: no call, and the error that names it. -/
theorem dispatch_other {S : Type} (m : migrator S) (tn ty : String) (w : World S) :
    dispatch m tn (.other ty) w =
      ((some (.plain ("could not run migration task '" ++ tn ++ "': unknown type '" ++ ty ++ "'")),
        w), []) := rfl

/-- The call `dispatch` makes is the call the task asks for. -/
theorem dispatch_calls {S : Type} (m : migrator S) (tn : String) (t : TaskContract)
    (w : World S) : (dispatch m tn t w).2 = t.call.toList := by
  cases t <;> rfl

/-- The calls of the loop of `Run`: the call of every task, in order. -/
theorem runLoop_calls {S : Type} (m : migrator S) :
    ∀ (tasks : List (String × TaskContract)) (errs : Option (List String)) (w : World S)
      (calls : List RunCall),
      (runLoop m tasks errs w calls).2 = calls ++ tasks.filterMap (fun e => e.2.call)
  | [], errs, w, calls => by simp [runLoop]
  | (tn, t) :: rest, errs, w, calls => by
    rw [runLoop]
    have hd := dispatch_calls m tn t w
    cases hcall : t.call <;> split <;>
      simp [runLoop_calls m rest, hd, hcall, List.filterMap_cons]

/-- The loop of `Run` on one entry: the state and the calls are those of the
`switch`. -/
theorem runLoop_one {S : Type} (m : migrator S) (tn : String) (t : TaskContract)
    (errs : Option (List String)) (w : World S) (calls : List RunCall) :
    (runLoop m [(tn, t)] errs w calls).1.2 = (dispatch m tn t w).1.2 ∧
    (runLoop m [(tn, t)] errs w calls).2 = calls ++ (dispatch m tn t w).2 := by
  rw [runLoop]
  cases (dispatch m tn t w).1.1 <;> simp [runLoop]

/-- The loop of `Run` over a first part of the entries and one more entry: the
entry is dispatched in the state the first part left, whatever the errors so
far. -/
theorem runLoop_snoc {S : Type} (m : migrator S) (tn : String) (t : TaskContract) :
    ∀ (pre : List (String × TaskContract)) (errs : Option (List String)) (w : World S)
      (calls : List RunCall),
      (runLoop m (pre ++ [(tn, t)]) errs w calls).1.2 =
        (dispatch m tn t (runLoop m pre errs w calls).1.2).1.2 ∧
      (runLoop m (pre ++ [(tn, t)]) errs w calls).2 =
        (runLoop m pre errs w calls).2 ++ (dispatch m tn t (runLoop m pre errs w calls).1.2).2
  | [], errs, w, calls => by
    simp only [List.nil_append]
    exact runLoop_one m tn t errs w calls
  | (tn1, t1) :: pre, errs, w, calls => by
    rw [List.cons_append, runLoop, runLoop]
    cases (dispatch m tn1 t1 w).1.1 <;> simp only <;> exact runLoop_snoc m tn t pre _ _ _

/-- C9: `Run` makes, for the entries of the map in the order of the iteration,
exactly the call each task asks for, whatever the other tasks return. When the
turn of an index task comes, after any tasks `pre`, `Run` calls
`AddIndexIfNotExists` of the helper of the migrator with the collection, index
name and keys of the task, in the store the tasks before left, and goes on with
the store this call gives; for a seed task it calls `SeedData` of the seeder of
the migrator with the task, in the state the tasks before left, and goes on with
the state this call gives; for a task of another type it calls nothing and the
state stays. The seeder of a migrator built by `NewMigrator` is `SeedData` on
the same helper. In particular, for a map of a task `a` of an unknown type and
an index task or a seed task `b` whose call gives no error, in either order:
the one call is that of `b`, the state is the one that call of the helper or of
the seeder leaves, and the result is an aggregate of exactly one error, the one
about `a`. -/
theorem Run_dispatches_each_task_once {S : Type} (m : migrator S)
    (tasks : Option (List (String × TaskContract))) (w : World S) :
    (Run m tasks w).2 = (tasks.getD []).filterMap (fun e => e.2.call) ∧
    (∀ (pre : List (String × TaskContract)) (tn : String) (task : CreateIndexTask),
      (Run m (some (pre ++ [(tn, .createIndex task)])) w).2 =
        (Run m (some pre) w).2 ++
          [.AddIndexIfNotExists task.Collection task.IndexName task.Keys] ∧
      (Run m (some (pre ++ [(tn, .createIndex task)])) w).1.2 =
        { (Run m (some pre) w).1.2 with
          db := (m.helper.AddIndexIfNotExists (Run m (some pre) w).1.2.db task.Collection
            task.IndexName task.Keys).2 }) ∧
    (∀ (pre : List (String × TaskContract)) (tn : String) (task : SeedTableTask),
      (Run m (some (pre ++ [(tn, .seedTable task)])) w).2 =
        (Run m (some pre) w).2 ++ [.SeedData task] ∧
      (Run m (some (pre ++ [(tn, .seedTable task)])) w).1.2 =
        (m.seeder (some task) (Run m (some pre) w).1.2).2) ∧
    (∀ (pre : List (String × TaskContract)) (tn ty : String),
      (Run m (some (pre ++ [(tn, .other ty)])) w).2 = (Run m (some pre) w).2 ∧
      (Run m (some (pre ++ [(tn, .other ty)])) w).1.2 = (Run m (some pre) w).1.2) ∧
    (∀ h : MongoHelper S, (NewMigrator h).helper = h ∧ (NewMigrator h).seeder = SeedData h) ∧
    (∀ (a ty b : String) (task : CreateIndexTask),
      (m.helper.AddIndexIfNotExists w.db task.Collection task.IndexName task.Keys).1 = none →
      ∀ entries, entries = [(a, .other ty), (b, .createIndex task)] ∨
          entries = [(b, .createIndex task), (a, .other ty)] →
        (Run m (some entries) w).2 =
          [.AddIndexIfNotExists task.Collection task.IndexName task.Keys] ∧
        (Run m (some entries) w).1.2 =
          { w with db := (m.helper.AddIndexIfNotExists w.db task.Collection task.IndexName
            task.Keys).2 } ∧
        (Run m (some entries) w).1.1 = some (.multi (some
          ["could not run migration task '" ++ a ++ "': unknown type '" ++ ty ++ "'"]))) ∧
    (∀ (a ty b : String) (task : SeedTableTask),
      (m.seeder (some task) w).1 = none →
      ∀ entries, entries = [(a, .other ty), (b, .seedTable task)] ∨
          entries = [(b, .seedTable task), (a, .other ty)] →
        (Run m (some entries) w).2 = [.SeedData task] ∧
        (Run m (some entries) w).1.2 = (m.seeder (some task) w).2 ∧
        (Run m (some entries) w).1.1 = some (.multi (some
          ["could not run migration task '" ++ a ++ "': unknown type '" ++ ty ++ "'"]))) := by
  refine ⟨by simp [Run, runLoop_calls], ?_, ?_, ?_, fun h => ⟨rfl, rfl⟩, ?_, ?_⟩
  · intro pre tn task
    have hs := runLoop_snoc m tn (.createIndex task) pre none w []
    exact ⟨hs.2, hs.1⟩
  · intro pre tn task
    have hs := runLoop_snoc m tn (.seedTable task) pre none w []
    exact ⟨hs.2, hs.1⟩
  · intro pre tn ty
    have hs := runLoop_snoc m tn (.other ty) pre none w []
    refine ⟨?_, hs.1⟩
    have h2 := hs.2
    rw [dispatch_other, List.append_nil] at h2
    exact h2
  · intro a ty b task hok
    rintro entries (rfl | rfl)
    · simp [Run, runLoop, dispatch, hok, Append, appendErrors, ErrorOrNil]
    · simp [Run, runLoop, dispatch, hok, Append, appendErrors, ErrorOrNil]
  · intro a ty b task hok
    rintro entries (rfl | rfl)
    · simp [Run, runLoop, dispatch, hok, Append, appendErrors, ErrorOrNil]
    · simp [Run, runLoop, dispatch, hok, Append, appendErrors, ErrorOrNil]

/-- C1: with two failing tasks, here two tasks of an unknown type, the result of
`Run` holds the error of the task that came last in the iteration only, in
either order: `multierror.Append(err)` starts a new aggregate at every
failure. -/
theorem Run_keeps_last_failure_only :
    (Run (NewMigrator memHelper)
        (some [("a", .other "*schema.Task"), ("b", .other "*schema.Task")])
        (memWorld heapObj [])).1.1 =
      some (.multi (some ["could not run migration task 'b': unknown type '*schema.Task'"])) ∧
    (Run (NewMigrator memHelper)
        (some [("b", .other "*schema.Task"), ("a", .other "*schema.Task")])
        (memWorld heapObj [])).1.1 =
      some (.multi (some ["could not run migration task 'a': unknown type '*schema.Task'"])) := by
  constructor <;> decide

/-- C3: a batch of two items, the first with a match in the store (identity 77),
the second without. The lookup for the second item finds nothing, and yet
`SeedData` issues an update with the identity of the document found for the
first one: the prototype both lookups decode into is the same struct, and it
keeps the first result. The helper answers `ErrNoMatches`. -/
theorem SeedData_second_item_not_inserted :
    SeedData memHelper (some (seedTask byNum false [1, 2]))
        (memWorld heapObj [("test", ⟨.objectID ⟨77⟩, "old", 999⟩)]) =
      (some (.multi (some ["no matches found for query"])),
        (SeedData memHelper (some (seedTask byNum false [1, 2]))
          (memWorld heapObj [("test", ⟨.objectID ⟨77⟩, "old", 999⟩)])).2) ∧
    (SeedData memHelper (some (seedTask byNum false [1, 2]))
        (memWorld heapObj [("test", ⟨.objectID ⟨77⟩, "old", 999⟩)])).2.trace =
      [.FindFilterFn 1 ⟨.objectID ⟨0⟩, "test1", 999⟩ (some [("num", .int 999)]) none,
        .FindOne "test" (some [("num", .int 999)]) 0 (some ⟨.objectID ⟨77⟩, "old", 999⟩),
        .UpdateOne "test" (some [("num", .int 999)]) 1 ⟨.objectID ⟨77⟩, "test1", 999⟩ none,
        .FindFilterFn 2 ⟨.objectID ⟨0⟩, "test2", 1000⟩ (some [("num", .int 1000)]) none,
        .FindOne "test" (some [("num", .int 1000)]) 0 none,
        .UpdateOne "test" (some [("num", .int 1000)]) 2 ⟨.objectID ⟨77⟩, "test2", 1000⟩
          (some (.plain "no matches found for query"))] ∧
    (SeedData memHelper (some (seedTask byNum false [1, 2]))
        (memWorld heapObj [("test", ⟨.objectID ⟨77⟩, "old", 999⟩)])).2.db =
      [("test", ⟨.objectID ⟨77⟩, "test1", 999⟩)] := by
  refine ⟨?_, by decide, by decide⟩
  exact Prod.ext (by decide) rfl

/-- C4, as stated, fails for a string identity: the lookup finds the document
with identity "a", and the update is issued with the item still carrying its
own identity "b". -/
theorem SeedData_string_identity_not_copied :
    (SeedData memHelper (some (seedTask byNum false [1]))
        (memWorld heapStr [("test", ⟨.string "a", "", 1⟩)])).2.trace =
      [.FindFilterFn 1 ⟨.string "b", "", 1⟩ (some [("num", .int 1)]) none,
        .FindOne "test" (some [("num", .int 1)]) 0 (some ⟨.string "a", "", 1⟩),
        .UpdateOne "test" (some [("num", .int 1)]) 1 ⟨.string "b", "", 1⟩
          (some (.plain "the (immutable) field '_id' was found to have been altered"))] := by
  decide

/-- C4, amended: take an item `it` after any items `pre` of a task that passes
validation, and let its filter be `f` and the lookup with `f` find a document
`d` that has an identity. Then the calls for `it` are the filter function, the
lookup, and an update with filter `f` (no insert), followed by the callback if
the update succeeds and there is one; the item passed to the update carries the
identity of `d` when that is an ObjectID, whatever identity it had, and is
passed as it is when the identity of `d` is of another kind. The items after
`it` only add calls after these. -/
theorem SeedData_update_on_found {S : Type} (h : MongoHelper S) (coll : String) (model : Ptr)
    (fn : FindFilterFunction) (cb : Bool) (pre : List Ptr) (it : Ptr) (post : List Ptr)
    (w : World S) (f : BsonM) (d : exampleModel) (hcoll : coll ≠ "")
    (hfn : fn ((SeedData h (some ⟨coll, some model, some fn, cb, pre⟩) w).2.heap it) =
      (some f, none))
    (hfind : h.FindOne (SeedData h (some ⟨coll, some model, some fn, cb, pre⟩) w).2.db coll
      (some f) = some d)
    (hex : d.Exists = true) :
    ∃ v err,
      (SeedData h (some ⟨coll, some model, some fn, cb, pre ++ [it]⟩) w).2.trace =
        (SeedData h (some ⟨coll, some model, some fn, cb, pre⟩) w).2.trace ++
          [.FindFilterFn it
              ((SeedData h (some ⟨coll, some model, some fn, cb, pre⟩) w).2.heap it) (some f) none,
            .FindOne coll (some f) model (some d),
            .UpdateOne coll (some f) it v err] ++
          (if cb = true ∧ err = none then [.Callback it v] else []) ∧
      (d.ID.isObjectID = true → v.ID = d.ID) ∧
      (d.ID.isObjectID = false →
        v = if it = model then d
          else (SeedData h (some ⟨coll, some model, some fn, cb, pre⟩) w).2.heap it) ∧
      (SeedData h (some ⟨coll, some model, some fn, cb, pre ++ [it]⟩) w).2.trace <+:
        (SeedData h (some ⟨coll, some model, some fn, cb, pre ++ it :: post⟩) w).2.trace := by
  have hgrow := SeedData_trace_grows h coll model fn cb (pre ++ [it]) post w hcoll
  rw [List.append_assoc, List.singleton_append] at hgrow
  rw [SeedData_valid h coll model fn cb pre w hcoll] at hfn hfind
  rw [SeedData_valid h coll model fn cb (pre ++ [it]) w hcoll,
    SeedData_valid h coll model fn cb pre w hcoll] at *
  simp only at hfn hfind ⊢
  rw [seedLoop_append]
  obtain ⟨err, htr⟩ := seedLoop_found h coll fn cb model it
    (seedLoop h coll fn cb model pre none w).1 (seedLoop h coll fn cb model pre none w).2
    f d hfn hfind hex
  refine ⟨_, err, htr, ?_, ?_, ?_⟩
  · intro hk; simp [hk, exampleModel.SetID]
  · intro hk; simp [hk]
  · simp only [seedLoop_append] at hgrow
    exact hgrow

/-- C2, as stated, fails when a collaborator returns an aggregate. With a filter
function that fails with an aggregate of two causes, one failing item gives a
result with two causes, neither of them the error of the item; with one that
fails with a nil aggregate, the item fails (it is not written) and the result
is nil. -/
theorem SeedData_aggregate_error_flattened :
    ((SeedData memHelper (some (seedTask twoCauses false [1])) (memWorld heapObj [])).1 =
        some (.multi (some ["first cause", "second cause"])) ∧
      (SeedData memHelper (some (seedTask twoCauses false [1])) (memWorld heapObj [])).2.trace =
        [.FindFilterFn 1 ⟨.objectID ⟨0⟩, "test1", 999⟩ none
          (some (.multi (some ["first cause", "second cause"])))]) ∧
    ((SeedData memHelper (some (seedTask nilAggregate false [1])) (memWorld heapObj [])).1 =
        none ∧
      (SeedData memHelper (some (seedTask nilAggregate false [1])) (memWorld heapObj [])).2.trace =
        [.FindFilterFn 1 ⟨.objectID ⟨0⟩, "test1", 999⟩ none (some (.multi none))] ∧
      (SeedData memHelper (some (seedTask nilAggregate false [1])) (memWorld heapObj [])).2.db =
        []) := by
  decide

/-- C8, as stated, fails when a collaborator returns an aggregate. With a
callback and one item whose filter function fails, there is no callback; the
result has two causes when the error is an aggregate of two, and none when it
is a nil aggregate: callbacks and causes together are two, or none, for one
item. -/
theorem SeedData_callbacks_and_causes_differ :
    (((SeedData memHelper (some (seedTask twoCauses true [1]))
          (memWorld heapObj [])).2.trace.filter Event.isCallback).length +
        (causes (SeedData memHelper (some (seedTask twoCauses true [1]))
          (memWorld heapObj [])).1).length = 2 ∧
      [1].length = 1) ∧
    (((SeedData memHelper (some (seedTask nilAggregate true [1]))
          (memWorld heapObj [])).2.trace.filter Event.isCallback).length +
        (causes (SeedData memHelper (some (seedTask nilAggregate true [1]))
          (memWorld heapObj [])).1).length = 0 ∧
      (SeedData memHelper (some (seedTask nilAggregate true [1])) (memWorld heapObj [])).2.trace =
        [.FindFilterFn 1 ⟨.objectID ⟨0⟩, "test1", 999⟩ none (some (.multi none))]) := by
  decide

/-! ## The theorems at concrete runs -/

/-- The filter function `alwaysErr` returns an ordinary error. -/
theorem alwaysErr_plain (v : exampleModel) (f : Filter) (e : GoError)
    (he : alwaysErr v = (f, some e)) : e.isPlain = true := by
  simp only [alwaysErr, Prod.mk.injEq, Option.some.injEq] at he
  rw [← he.2]
  rfl

/-- The filter function `failsOn999` returns an ordinary error. -/
theorem failsOn999_plain (v : exampleModel) (f : Filter) (e : GoError)
    (he : failsOn999 v = (f, some e)) : e.isPlain = true := by
  simp only [failsOn999] at he
  split at he
  · simp only [Prod.mk.injEq, Option.some.injEq] at he
    rw [← he.2]
    rfl
  · simp at he

/-- The error of an insert on the in-memory store is an ordinary error. -/
theorem memHelper_InsertOne_plain (s : MemStore) (c : String) (v : exampleModel) (e : GoError)
    (he : (memHelper.InsertOne s c v).1.2 = some e) : e.isPlain = true := by
  simp only [memHelper] at he
  split at he
  · cases he; rfl
  · cases he

/-- The error of an update on the in-memory store is an ordinary error. -/
theorem memHelper_UpdateOne_plain (s : MemStore) (c : String) (f : Filter) (v : exampleModel)
    (e : GoError) (he : (memHelper.UpdateOne s c f v).1 = some e) : e.isPlain = true := by
  simp only [memHelper] at he
  split at he
  · cases he; rfl
  · split at he
    · cases he
    · cases he; rfl

/-- C2, amended, at a run where the filter function fails for both items with
an ordinary error. -/
theorem SeedData_aggregates_item_errors_witness :
    "test" ≠ "" ∧
    (∀ v f e, alwaysErr v = (f, some e) → e.isPlain = true) ∧
    (∀ s c v e, (memHelper.InsertOne s c v).1.2 = some e → e.isPlain = true) ∧
    (∀ s c f v e, (memHelper.UpdateOne s c f v).1 = some e → e.isPlain = true) ∧
    (SeedData memHelper (some ⟨"test", some 0, some alwaysErr, false, [1, 2]⟩)
      (memWorld heapObj [])).1 = some (.multi (some ["error", "error"])) ∧
    ∃ chunks : List (List Event),
      (SeedData memHelper (some ⟨"test", some 0, some alwaysErr, false, [1, 2]⟩)
        (memWorld heapObj [])).2.trace = (memWorld heapObj []).trace ++ chunks.flatten ∧
      Performed memHelper alwaysErr (memWorld heapObj []).db chunks.flatten
        (SeedData memHelper (some ⟨"test", some 0, some alwaysErr, false, [1, 2]⟩)
          (memWorld heapObj [])).2.db ∧
      List.Forall₂
        (fun it c => CallsFor alwaysErr it c ∧ (c.filterMap Event.failure).length ≤ 1)
        [1, 2] chunks ∧
      (SeedData memHelper (some ⟨"test", some 0, some alwaysErr, false, [1, 2]⟩)
        (memWorld heapObj [])).1 =
        (if traceCauses chunks.flatten = [] then none
         else some (.multi (some (traceCauses chunks.flatten)))) ∧
      ∃ l, chunks.flatten.filterMap Event.failure = l.map GoError.plain ∧
        (SeedData memHelper (some ⟨"test", some 0, some alwaysErr, false, [1, 2]⟩)
          (memWorld heapObj [])).1 = (if l = [] then none else some (.multi (some l))) ∧
        ((SeedData memHelper (some ⟨"test", some 0, some alwaysErr, false, [1, 2]⟩)
          (memWorld heapObj [])).1 = none ↔ chunks.flatten.filterMap Event.failure = []) :=
  ⟨by decide, alwaysErr_plain, memHelper_InsertOne_plain, memHelper_UpdateOne_plain, by decide,
    (SeedData_aggregates_item_errors memHelper "test" 0 alwaysErr false [1, 2]
      (memWorld heapObj []) (by decide)).imp
      (fun _ hc => ⟨hc.1, hc.2.1, hc.2.2.1, hc.2.2.2.1,
        hc.2.2.2.2 alwaysErr_plain memHelper_InsertOne_plain memHelper_UpdateOne_plain⟩)⟩

/-- C4, amended, at a run where the first of two items has a match in the
store. -/
theorem SeedData_update_on_found_witness :
    "test" ≠ "" ∧
    byNum ((SeedData memHelper (some ⟨"test", some 0, some byNum, true, []⟩)
      (memWorld heapObj [("test", ⟨.objectID ⟨77⟩, "old", 999⟩)])).2.heap 1) =
        (some [("num", .int 999)], none) ∧
    memHelper.FindOne (SeedData memHelper (some ⟨"test", some 0, some byNum, true, []⟩)
      (memWorld heapObj [("test", ⟨.objectID ⟨77⟩, "old", 999⟩)])).2.db "test"
        (some [("num", .int 999)]) = some ⟨.objectID ⟨77⟩, "old", 999⟩ ∧
    exampleModel.Exists ⟨.objectID ⟨77⟩, "old", 999⟩ = true ∧
    ∃ v err,
      (SeedData memHelper (some ⟨"test", some 0, some byNum, true, [] ++ [1]⟩)
        (memWorld heapObj [("test", ⟨.objectID ⟨77⟩, "old", 999⟩)])).2.trace =
        (SeedData memHelper (some ⟨"test", some 0, some byNum, true, []⟩)
          (memWorld heapObj [("test", ⟨.objectID ⟨77⟩, "old", 999⟩)])).2.trace ++
          [.FindFilterFn 1
              ((SeedData memHelper (some ⟨"test", some 0, some byNum, true, []⟩)
                (memWorld heapObj [("test", ⟨.objectID ⟨77⟩, "old", 999⟩)])).2.heap 1)
              (some [("num", .int 999)]) none,
            .FindOne "test" (some [("num", .int 999)]) 0 (some ⟨.objectID ⟨77⟩, "old", 999⟩),
            .UpdateOne "test" (some [("num", .int 999)]) 1 v err] ++
          (if true = true ∧ err = none then [.Callback 1 v] else []) ∧
      ((exampleModel.mk (.objectID ⟨77⟩) "old" 999).ID.isObjectID = true →
        v.ID = (exampleModel.mk (.objectID ⟨77⟩) "old" 999).ID) ∧
      ((exampleModel.mk (.objectID ⟨77⟩) "old" 999).ID.isObjectID = false →
        v = if 1 = 0 then ⟨.objectID ⟨77⟩, "old", 999⟩
          else (SeedData memHelper (some ⟨"test", some 0, some byNum, true, []⟩)
            (memWorld heapObj [("test", ⟨.objectID ⟨77⟩, "old", 999⟩)])).2.heap 1) ∧
      (SeedData memHelper (some ⟨"test", some 0, some byNum, true, [] ++ [1]⟩)
        (memWorld heapObj [("test", ⟨.objectID ⟨77⟩, "old", 999⟩)])).2.trace <+:
        (SeedData memHelper (some ⟨"test", some 0, some byNum, true, [] ++ 1 :: [2]⟩)
          (memWorld heapObj [("test", ⟨.objectID ⟨77⟩, "old", 999⟩)])).2.trace :=
  ⟨by decide, by decide, by decide, by decide,
    SeedData_update_on_found memHelper "test" 0 byNum true [] 1 [2]
      (memWorld heapObj [("test", ⟨.objectID ⟨77⟩, "old", 999⟩)])
      [("num", .int 999)] ⟨.objectID ⟨77⟩, "old", 999⟩ (by decide) (by decide) (by decide)
      (by decide)⟩

/-- C5 at a run of two items on an empty store where the filter function fails
for the first: the second is inserted all the same, and the store holds it
afterwards. -/
theorem SeedData_one_write_per_item_witness :
    "test" ≠ "" ∧
    (SeedData memHelper (some ⟨"test", some 0, some failsOn999, false, [1, 2]⟩)
      (memWorld heapObj [])).2.trace =
        [.FindFilterFn 1 ⟨.objectID ⟨0⟩, "test1", 999⟩ none (some (.plain "error")),
          .FindFilterFn 2 ⟨.objectID ⟨0⟩, "test2", 1000⟩ (some [("num", .int 1000)]) none,
          .FindOne "test" (some [("num", .int 1000)]) 0 none,
          .InsertOne "test" 2 ⟨.objectID ⟨1⟩, "test2", 1000⟩ none] ∧
    (SeedData memHelper (some ⟨"test", some 0, some failsOn999, false, [1, 2]⟩)
      (memWorld heapObj [])).2.db = [("test", ⟨.objectID ⟨1⟩, "test2", 1000⟩)] ∧
    ((∃ chunks : List (List Event),
      (SeedData memHelper (some ⟨"test", some 0, some failsOn999, false, [1, 2]⟩)
        (memWorld heapObj [])).2.trace = (memWorld heapObj []).trace ++ chunks.flatten ∧
      Performed memHelper failsOn999 (memWorld heapObj []).db chunks.flatten
        (SeedData memHelper (some ⟨"test", some 0, some failsOn999, false, [1, 2]⟩)
          (memWorld heapObj [])).2.db ∧
      List.Forall₂ (fun it c => ∃ v f e rest, failsOn999 v = (f, e) ∧
          c = .FindFilterFn it v f e :: rest ∧
          rest.filter Event.isFilterCall = [] ∧
          (rest.filter Event.isWrite).length = (if e = none then 1 else 0) ∧
          (∀ x ∈ rest, x.isWrite = true → x.item = some it))
        [1, 2] chunks) ∧
    SeedData memHelper (some ⟨"test", some 0, some failsOn999, false, []⟩)
      (memWorld heapObj []) = (none, memWorld heapObj [])) :=
  ⟨by decide, by decide, by decide,
    SeedData_one_write_per_item memHelper "test" 0 failsOn999 false [1, 2] (memWorld heapObj [])
      (by decide)⟩

/-- C6 at the tasks of the tests "empty task", "no filter" and "no model". -/
theorem SeedData_validation_witness :
    "test" ≠ "" ∧
    (SeedData memHelper none (memWorld heapObj []) = (none, memWorld heapObj []) ∧
    SeedData memHelper (some ⟨"", none, none, false, [1]⟩) (memWorld heapObj []) =
      (some ErrNoCollection, memWorld heapObj []) ∧
    SeedData memHelper (some ⟨"test", none, none, false, [1]⟩) (memWorld heapObj []) =
      (some ErrNoFindFilterFn, memWorld heapObj []) ∧
    SeedData memHelper (some ⟨"test", none, some byNum, false, [1]⟩) (memWorld heapObj []) =
      (some ErrNoModel, memWorld heapObj []) ∧
    ErrNoCollection = .plain "you must specify the collection" ∧
    ErrNoFindFilterFn = .plain "you must specify a FindFilterFn" ∧
    ErrNoModel = .plain "you must specify a Model") :=
  ⟨by decide,
    SeedData_validation memHelper (memWorld heapObj []) "test" none none byNum false [1]
      (by decide)⟩

/-- C7 at a task with items and a filter function but no collection. -/
theorem SeedData_invalid_no_calls_witness :
    (∀ t : SeedTableTask, some (⟨"", some 0, some byNum, true, [1, 2]⟩ : SeedTableTask) = some t →
      t.Collection = "" ∨ t.FindFilterFn = none ∨ t.Model = none) ∧
    (SeedData memHelper (some ⟨"", some 0, some byNum, true, [1, 2]⟩)
      (memWorld heapObj [])).2 = memWorld heapObj [] :=
  ⟨fun _ ht => Or.inl (by cases ht; rfl),
    SeedData_invalid_no_calls memHelper (some ⟨"", some 0, some byNum, true, [1, 2]⟩)
      (memWorld heapObj []) (fun _ ht => Or.inl (by cases ht; rfl))⟩

/-- C8, amended, at a run of two items with a callback where the filter
function fails for the first: one cause, and one callback, for the second
item, after its insert. -/
theorem SeedData_callbacks_witness :
    "test" ≠ "" ∧
    (∀ v f e, failsOn999 v = (f, some e) → e.isPlain = true) ∧
    (∀ s c v e, (memHelper.InsertOne s c v).1.2 = some e → e.isPlain = true) ∧
    (∀ s c f v e, (memHelper.UpdateOne s c f v).1 = some e → e.isPlain = true) ∧
    (SeedData memHelper (some ⟨"test", some 0, some failsOn999, true, [1, 2]⟩)
      (memWorld heapObj [])).1 = some (.multi (some ["error"])) ∧
    (SeedData memHelper (some ⟨"test", some 0, some failsOn999, true, [1, 2]⟩)
      (memWorld heapObj [])).2.trace =
        [.FindFilterFn 1 ⟨.objectID ⟨0⟩, "test1", 999⟩ none (some (.plain "error")),
          .FindFilterFn 2 ⟨.objectID ⟨0⟩, "test2", 1000⟩ (some [("num", .int 1000)]) none,
          .FindOne "test" (some [("num", .int 1000)]) 0 none,
          .InsertOne "test" 2 ⟨.objectID ⟨1⟩, "test2", 1000⟩ none,
          .Callback 2 ⟨.objectID ⟨1⟩, "test2", 1000⟩] ∧
    ∃ chunks : List (List Event),
      (SeedData memHelper (some ⟨"test", some 0, some failsOn999, true, [1, 2]⟩)
        (memWorld heapObj [])).2.trace = (memWorld heapObj []).trace ++ chunks.flatten ∧
      Performed memHelper failsOn999 (memWorld heapObj []).db chunks.flatten
        (SeedData memHelper (some ⟨"test", some 0, some failsOn999, true, [1, 2]⟩)
          (memWorld heapObj [])).2.db ∧
      List.Forall₂ (fun it c => CallsFor failsOn999 it c ∧
          (c.filterMap Event.failure = [] →
            ∃ pre wr v, c = pre ++ [wr, .Callback it v] ∧ wr.isWrite = true ∧
              wr.item = some it ∧ wr.val = some v ∧ wr.failure = none ∧
              pre.filter Event.isCallback = []) ∧
          (c.filterMap Event.failure ≠ [] → c.filter Event.isCallback = []))
        [1, 2] chunks ∧
      (chunks.flatten.filter Event.isCallback).length +
        (chunks.flatten.filterMap Event.failure).length = [1, 2].length ∧
      (chunks.flatten.filter Event.isCallback).length +
        (causes (SeedData memHelper (some ⟨"test", some 0, some failsOn999, true, [1, 2]⟩)
          (memWorld heapObj [])).1).length = [1, 2].length :=
  ⟨by decide, failsOn999_plain, memHelper_InsertOne_plain, memHelper_UpdateOne_plain,
    by decide, by decide,
    (SeedData_callbacks memHelper "test" 0 failsOn999 [1, 2] (memWorld heapObj [])
      (by decide)).imp
      (fun _ hc => ⟨hc.1, hc.2.1, hc.2.2.1, hc.2.2.2.1,
        hc.2.2.2.2 failsOn999_plain memHelper_InsertOne_plain memHelper_UpdateOne_plain⟩)⟩

/-- C9 at the map of one task of an unknown type, "blank", and an index task,
run on the helper of the repository over the database of the tests: in either
order the index is asked for and the database holds it afterwards. -/
theorem Run_dispatches_each_task_once_witness :
    ((NewMigrator (NewHelper memDriver)).helper.AddIndexIfNotExists (dbWorld heapObj testDB).db
      "test" "new_index" (some [("bar", .int (-1))])).1 = none ∧
    ((NewMigrator (NewHelper memDriver)).helper.AddIndexIfNotExists (dbWorld heapObj testDB).db
      "test" "new_index" (some [("bar", .int (-1))])).2 =
      { docs := [],
        indexes := [("test", { Keys := some [("foo", .int (-1))], Name := "test_index" }),
          ("test", { Keys := some [("bar", .int (-1))], Name := "new_index" })] } ∧
    ∀ entries,
      entries = [("blank", .other "*schema.Task"),
          ("index", .createIndex ⟨"test", "new_index", some [("bar", .int (-1))]⟩)] ∨
        entries = [("index", .createIndex ⟨"test", "new_index", some [("bar", .int (-1))]⟩),
          ("blank", .other "*schema.Task")] →
      (Run (NewMigrator (NewHelper memDriver)) (some entries) (dbWorld heapObj testDB)).2 =
        [.AddIndexIfNotExists "test" "new_index" (some [("bar", .int (-1))])] ∧
      (Run (NewMigrator (NewHelper memDriver)) (some entries) (dbWorld heapObj testDB)).1.2 =
        { dbWorld heapObj testDB with
          db := ((NewMigrator (NewHelper memDriver)).helper.AddIndexIfNotExists
            (dbWorld heapObj testDB).db "test" "new_index" (some [("bar", .int (-1))])).2 } ∧
      (Run (NewMigrator (NewHelper memDriver)) (some entries) (dbWorld heapObj testDB)).1.1 =
        some (.multi (some
          ["could not run migration task '" ++ "blank" ++ "': unknown type '" ++
            "*schema.Task" ++ "'"])) :=
  ⟨by decide, by decide,
    (Run_dispatches_each_task_once (NewMigrator (NewHelper memDriver)) none
      (dbWorld heapObj testDB)).2.2.2.2.2.1
      "blank" "*schema.Task" "index" ⟨"test", "new_index", some [("bar", .int (-1))]⟩
      (by decide)⟩

end MongoGoHelper

namespace MongoGoHelper

/-! ## The runner and a task of an unknown type -/

/-- The loop of `Run` over a list of entries is the loop over a first part
followed by the loop over the rest. -/
theorem runLoop_append {S : Type} (m : migrator S) :
    ∀ (pre post : List (String × TaskContract)) (errs : Option (List String)) (w : World S)
      (calls : List RunCall),
      runLoop m (pre ++ post) errs w calls =
        runLoop m post (runLoop m pre errs w calls).1.1 (runLoop m pre errs w calls).1.2
          (runLoop m pre errs w calls).2
  | [], post, errs, w, calls => by simp [runLoop]
  | (tn, t) :: pre, post, errs, w, calls => by
    rw [List.cons_append, runLoop, runLoop]
    cases (dispatch m tn t w).1.1 <;> simp only <;> rw [runLoop_append]

/-- C11: for a task of another type than the two `Run` knows, `Run` makes no
call and leaves the state as it is, and the error of the task is the one with
the message "could not run migration task '<name>': unknown type '<GetType()>'";
in a map with such a task the calls are those of the other tasks; when the task
comes last the result holds that error; a map of that task alone gives the
aggregate of exactly that error, and so for the task "blank" of type
`*schema.Task`. -/
theorem Run_unknown_type {S : Type} (m : migrator S) (tn ty : String) (w : World S)
    (pre post : List (String × TaskContract)) :
    dispatch m tn (.other ty) w =
      ((some (.plain ("could not run migration task '" ++ tn ++ "': unknown type '" ++ ty ++ "'")),
        w), []) ∧
    (Run m (some (pre ++ (tn, .other ty) :: post)) w).2 =
      (pre ++ post).filterMap (fun e => e.2.call) ∧
    ("could not run migration task '" ++ tn ++ "': unknown type '" ++ ty ++ "'") ∈
      causes (Run m (some (pre ++ [(tn, .other ty)])) w).1.1 ∧
    Run m (some [(tn, .other ty)]) w =
      ((some (.multi (some
        ["could not run migration task '" ++ tn ++ "': unknown type '" ++ ty ++ "'"])), w), []) ∧
    Run m (some [("blank", .other Task.GetType)]) w =
      ((some (.multi (some
        ["could not run migration task 'blank': unknown type '*schema.Task'"])), w), []) := by
  refine ⟨rfl, ?_, ?_, ?_, ?_⟩
  · simp [Run, runLoop_calls, TaskContract.call, List.filterMap_append, List.filterMap_cons]
  · simp only [Run, Option.getD_some]
    rw [runLoop_append]
    simp [runLoop, dispatch_other, Append, appendErrors, ErrorOrNil, causes]
  · simp [Run, runLoop, dispatch_other, Append, appendErrors, ErrorOrNil]
  · simp [Run, runLoop, dispatch_other, Append, appendErrors, ErrorOrNil, Task.GetType]

/-! ## The index reconciler -/

/-- The scan of the index list finds a document exactly when one is that of an
index of the name, and leaves no error. -/
theorem getIndexLoop_spec (index : String) :
    ∀ l : List BsonM, (helper.getIndexLoop index l).2 = none ∧
      ((helper.getIndexLoop index l).1 = none ↔ ∀ e ∈ l, ¬ IndexNamed index e)
  | [] => by simp [helper.getIndexLoop]
  | elem :: rest => by
    have ih := getIndexLoop_spec index rest
    rw [helper.getIndexLoop]
    cases hname : elem.lookup "name" with
    | none => simpa [IndexNamed, hname] using ih
    | some v =>
      cases v with
      | str name =>
        by_cases hn : name = index
        · simp [IndexNamed, hname, hn]
        · simpa [IndexNamed, hname, hn] using ih
      | int n => simpa [IndexNamed, hname] using ih
      | oid id => simpa [IndexNamed, hname] using ih

/-- What `AddIndexIfNotExists` does when listing the indexes fails. -/
theorem AddIndexIfNotExists_list_error {DB : Type} (D : Driver DB) (db : DB)
    (coll name : String) (keys : Filter) (e : String)
    (hfail : D.ListIndexes db coll = .error e) :
    helper.HasIndex D db coll name = ((false, some e), [.ListIndexes coll]) ∧
    helper.AddIndexIfNotExists D db coll name keys = ((some e, db), [.ListIndexes coll]) := by
  simp [helper.AddIndexIfNotExists, helper.HasIndex, helper.GetIndex, hfail]

/-- What `AddIndexIfNotExists` does when the index list holds the name. -/
theorem AddIndexIfNotExists_present {DB : Type} (D : Driver DB) (db : DB)
    (coll name : String) (keys : Filter) (l : List BsonM)
    (hlist : D.ListIndexes db coll = .ok l) (hin : ∃ e ∈ l, IndexNamed name e) :
    helper.AddIndexIfNotExists D db coll name keys = ((none, db), [.ListIndexes coll]) := by
  have hs := getIndexLoop_spec name l
  have hne : (helper.getIndexLoop name l).1 ≠ none := by
    intro h0
    obtain ⟨e, he, hn⟩ := hin
    exact (hs.2.1 h0) e he hn
  obtain ⟨elem, helem⟩ := Option.ne_none_iff_exists'.1 hne
  simp [helper.AddIndexIfNotExists, helper.HasIndex, helper.GetIndex, hlist, hs.1, helem]

/-- What `AddIndexIfNotExists` does when the index list does not hold the name. -/
theorem AddIndexIfNotExists_absent {DB : Type} (D : Driver DB) (db : DB)
    (coll name : String) (keys : Filter) (l : List BsonM)
    (hlist : D.ListIndexes db coll = .ok l) (hout : ∀ e ∈ l, ¬ IndexNamed name e) :
    helper.AddIndexIfNotExists D db coll name keys =
      ((none, (D.CreateOne db coll { Keys := keys, Name := name }).2),
        [.ListIndexes coll, .CreateOne coll { Keys := keys, Name := name }]) := by
  have hs := getIndexLoop_spec name l
  have hnone := hs.2.2 hout
  simp [helper.AddIndexIfNotExists, helper.HasIndex, helper.GetIndex, hlist, hs.1, hnone]

/-- C12: `AddIndexIfNotExists` issues an index-creation request exactly when the
listing of the indexes of the collection succeeds and none of the listed
indexes has the given name; it issues at most one, for the given collection,
with the given keys and name. When the listing holds no index of the name, the
calls are the listing and then `CreateOne` of the driver with the collection,
the keys and the name, and the database is left as `CreateOne` leaves it; when
the listing holds an index of the name the one call is the listing, the
database is left as it is and nil is returned. -/
theorem AddIndexIfNotExists_creates_iff_absent {DB : Type} (D : Driver DB) (db : DB)
    (coll name : String) (keys : Filter) :
    ((∃ c m, DriverCall.CreateOne c m ∈ (helper.AddIndexIfNotExists D db coll name keys).2) ↔
      ∃ l, D.ListIndexes db coll = .ok l ∧ ∀ e ∈ l, ¬ IndexNamed name e) ∧
    ((helper.AddIndexIfNotExists D db coll name keys).2.filter DriverCall.isCreateOne = [] ∨
      (helper.AddIndexIfNotExists D db coll name keys).2.filter DriverCall.isCreateOne =
        [.CreateOne coll { Keys := keys, Name := name }]) ∧
    (∀ l, D.ListIndexes db coll = .ok l → (∀ e ∈ l, ¬ IndexNamed name e) →
      helper.AddIndexIfNotExists D db coll name keys =
        ((none, (D.CreateOne db coll { Keys := keys, Name := name }).2),
          [.ListIndexes coll, .CreateOne coll { Keys := keys, Name := name }])) ∧
    ∀ l, D.ListIndexes db coll = .ok l → (∃ e ∈ l, IndexNamed name e) →
      helper.AddIndexIfNotExists D db coll name keys = ((none, db), [.ListIndexes coll]) := by
  refine ⟨?_, ?_,
    fun l hlist hout => AddIndexIfNotExists_absent D db coll name keys l hlist hout,
    fun l hlist hin => AddIndexIfNotExists_present D db coll name keys l hlist hin⟩
  · cases hlist : D.ListIndexes db coll with
    | error e =>
      rw [(AddIndexIfNotExists_list_error D db coll name keys e hlist).2]
      simp
    | ok l =>
      by_cases hin : ∃ e ∈ l, IndexNamed name e
      · rw [AddIndexIfNotExists_present D db coll name keys l hlist hin]
        obtain ⟨e, he, hn⟩ := hin
        simp only [List.mem_singleton, reduceCtorEq, exists_false, false_iff, not_exists,
          not_and, not_forall]
        intro l1 hl1
        cases hl1
        exact ⟨e, he, fun h0 => h0 hn⟩
      · have hout : ∀ e ∈ l, ¬ IndexNamed name e := fun e he hn => hin ⟨e, he, hn⟩
        rw [AddIndexIfNotExists_absent D db coll name keys l hlist hout]
        exact ⟨fun _ => ⟨l, rfl, hout⟩, fun _ => ⟨coll, ⟨keys, name⟩, by simp⟩⟩
  · cases hlist : D.ListIndexes db coll with
    | error e =>
      rw [(AddIndexIfNotExists_list_error D db coll name keys e hlist).2]
      exact Or.inl rfl
    | ok l =>
      by_cases hin : ∃ e ∈ l, IndexNamed name e
      · rw [AddIndexIfNotExists_present D db coll name keys l hlist hin]
        exact Or.inl rfl
      · have hout : ∀ e ∈ l, ¬ IndexNamed name e := fun e he hn => hin ⟨e, he, hn⟩
        rw [AddIndexIfNotExists_absent D db coll name keys l hlist hout]
        exact Or.inr rfl

/-- C13, as stated, fails when the index is there before the first call: the
two calls issue no index-creation request at all. -/
theorem AddIndexIfNotExists_twice_on_existing :
    ((helper.AddIndexIfNotExists memDriver testDB "test" "test_index"
        (some [("bar", .int (-1))])).2 ++
      (helper.AddIndexIfNotExists memDriver
        (helper.AddIndexIfNotExists memDriver testDB "test" "test_index"
          (some [("bar", .int (-1))])).1.2
        "test" "test_index" (some [("bar", .int (-1))])).2).filter DriverCall.isCreateOne =
      [] := by
  decide

/-- C13, amended: take a store whose index list reflects successful creations
and on which the listing succeeds, and let the creation succeed if it is asked
for. Then of two calls in a row with the same collection, name and keys, both
return nil, the second issues no index-creation request and leaves the database
as the first left it; together they issue no request when an index of the name
was listed before the first call, and exactly one, with the keys and the name,
when none was. -/
theorem AddIndexIfNotExists_twice {DB : Type} (D : Driver DB) (db : DB)
    (coll name : String) (keys : Filter) (l : List BsonM)
    (hrefl : ∀ db0 model db1, D.CreateOne db0 coll model = (none, db1) →
      ∃ l1, D.ListIndexes db1 coll = .ok l1 ∧ ∃ e ∈ l1, IndexNamed model.Name e)
    (hlist : D.ListIndexes db coll = .ok l)
    (hcreate : (∀ e ∈ l, ¬ IndexNamed name e) →
      (D.CreateOne db coll { Keys := keys, Name := name }).1 = none) :
    (helper.AddIndexIfNotExists D db coll name keys).1.1 = none ∧
    (helper.AddIndexIfNotExists D
      (helper.AddIndexIfNotExists D db coll name keys).1.2 coll name keys).1.1 = none ∧
    (helper.AddIndexIfNotExists D
      (helper.AddIndexIfNotExists D db coll name keys).1.2 coll name keys).1.2 =
        (helper.AddIndexIfNotExists D db coll name keys).1.2 ∧
    (helper.AddIndexIfNotExists D
      (helper.AddIndexIfNotExists D db coll name keys).1.2 coll name
        keys).2.filter DriverCall.isCreateOne = [] ∧
    ((∃ e ∈ l, IndexNamed name e) →
      ((helper.AddIndexIfNotExists D db coll name keys).2 ++
        (helper.AddIndexIfNotExists D
          (helper.AddIndexIfNotExists D db coll name keys).1.2 coll name
            keys).2).filter DriverCall.isCreateOne = []) ∧
    ((∀ e ∈ l, ¬ IndexNamed name e) →
      ((helper.AddIndexIfNotExists D db coll name keys).2 ++
        (helper.AddIndexIfNotExists D
          (helper.AddIndexIfNotExists D db coll name keys).1.2 coll name
            keys).2).filter DriverCall.isCreateOne =
        [.CreateOne coll { Keys := keys, Name := name }]) := by
  by_cases hin : ∃ e ∈ l, IndexNamed name e
  · have h1 := AddIndexIfNotExists_present D db coll name keys l hlist hin
    have h2 : helper.AddIndexIfNotExists D
        (helper.AddIndexIfNotExists D db coll name keys).1.2 coll name keys =
          ((none, db), [.ListIndexes coll]) := by
      rw [h1]; exact h1
    rw [h2, h1]
    refine ⟨rfl, rfl, rfl, rfl, fun _ => rfl, fun hout => ?_⟩
    obtain ⟨e, he, hn⟩ := hin
    exact absurd hn (hout e he)
  · have hout : ∀ e ∈ l, ¬ IndexNamed name e := fun e he hn => hin ⟨e, he, hn⟩
    have h1 := AddIndexIfNotExists_absent D db coll name keys l hlist hout
    have hc : D.CreateOne db coll { Keys := keys, Name := name } =
        (none, (D.CreateOne db coll { Keys := keys, Name := name }).2) :=
      Prod.ext (hcreate hout) rfl
    obtain ⟨l1, hl1, hin1⟩ := hrefl db _ _ hc
    have h2 : helper.AddIndexIfNotExists D
        (helper.AddIndexIfNotExists D db coll name keys).1.2 coll name keys =
          ((none, (D.CreateOne db coll { Keys := keys, Name := name }).2),
            [.ListIndexes coll]) := by
      rw [h1]
      exact AddIndexIfNotExists_present D
        (D.CreateOne db coll { Keys := keys, Name := name }).2 coll name keys l1 hl1 hin1
    rw [h2, h1]
    exact ⟨rfl, rfl, rfl, rfl, fun hin0 => absurd hin0 hin, fun _ => rfl⟩

/-- C14: on a database that refuses to create indexes, `AddIndexIfNotExists`
asks for the index, the request fails, and the result is nil all the same. -/
theorem AddIndexIfNotExists_drops_creation_error :
    (readOnlyDriver.CreateOne testDB "test"
        { Keys := some [("bar", .int (-1))], Name := "new_index" }).1 =
      some "not authorized to create index" ∧
    helper.AddIndexIfNotExists readOnlyDriver testDB "test" "new_index"
        (some [("bar", .int (-1))]) =
      ((none, testDB),
        [.ListIndexes "test",
          .CreateOne "test" { Keys := some [("bar", .int (-1))], Name := "new_index" }]) := by
  decide

/-- C15: when listing the indexes of the collection fails, `HasIndex` returns
false with the error of the listing, and `AddIndexIfNotExists` returns that
error as it is, issues no index-creation request (its one call is the listing)
and leaves the database as it is. -/
theorem AddIndexIfNotExists_surfaces_list_error {DB : Type} (D : Driver DB) (db : DB)
    (coll name : String) (keys : Filter) (e : String)
    (hfail : D.ListIndexes db coll = .error e) :
    helper.AddIndexIfNotExists D db coll name keys = ((some e, db), [.ListIndexes coll]) ∧
    (helper.AddIndexIfNotExists D db coll name keys).2.filter DriverCall.isCreateOne = [] ∧
    helper.HasIndex D db coll name = ((false, some e), [.ListIndexes coll]) := by
  have h := AddIndexIfNotExists_list_error D db coll name keys e hfail
  rw [h.2]
  exact ⟨rfl, rfl, h.1⟩

/-! ## Find and its pagination -/

/-- A number within the range of int32 is converted to itself. -/
theorem toInt32_of_range (x : Int) (hlo : -2147483648 ≤ x) (hhi : x < 2147483648) :
    toInt32 x = x := by
  unfold toInt32; omega

/-- A number within the range of int64 is converted to itself. -/
theorem toInt64_of_range (x : Int) (hlo : -9223372036854775808 ≤ x)
    (hhi : x < 9223372036854775808) : toInt64 x = x := by
  unfold toInt64; omega

/-- The number `ceilQuotient` gives is the ceiling of the quotient. -/
theorem ceilQuotient_eq_ceil (count pageSize : Int) (hps : 0 < pageSize) :
    ceilQuotient count pageSize = ⌈(count : ℚ) / (pageSize : ℚ)⌉ := by
  obtain ⟨d, rfl⟩ := Int.eq_ofNat_of_zero_le hps.le
  have h := Rat.floor_intCast_div_natCast (-count) d
  have hneg : ((-count : ℤ) : ℚ) / (d : ℚ) = -((count : ℚ) / (d : ℚ)) := by
    push_cast; ring
  rw [hneg, Int.floor_neg] at h
  unfold ceilQuotient
  have hcast : ((d : ℤ) : ℚ) = (d : ℚ) := by norm_cast
  rw [hcast]
  omega

/-- For a count that is not negative the ceiling of the quotient lies between
zero and the count. -/
theorem ceilQuotient_bounds (count pageSize : Int) (h0 : 0 ≤ count) (hps : 0 < pageSize) :
    0 ≤ ceilQuotient count pageSize ∧ ceilQuotient count pageSize ≤ count := by
  unfold ceilQuotient
  have h1 := Int.emod_nonneg (-count) (ne_of_gt hps)
  have h2 := Int.emod_lt_of_pos (-count) hps
  have h3 := Int.ediv_add_emod (-count) pageSize
  constructor <;> nlinarith

/-- The numbers in the result of `Find` and the calls it makes, when the count
succeeds. -/
theorem Find_fields {DB : Type} (D : Driver DB) (db : DB) (coll : String) (filter : Filter)
    (opts : FindOptions) (total : Int) (hcount : D.CountDocuments db coll filter = .ok total) :
    (helper.Find D db coll filter opts).1.1.Total = toInt32 total ∧
    (helper.Find D db coll filter opts).1.1.PageSize =
      (if opts.PageSize > 0 then toInt32 opts.PageSize else 0) ∧
    (helper.Find D db coll filter opts).1.1.NumberOfPages =
      (if opts.PageSize > 0 then toInt32 (ceilQuotient total opts.PageSize) else 0) ∧
    (helper.Find D db coll filter opts).1.1.CurrentPage =
      (if opts.PageSize > 0 then (if opts.Page > 1 then toInt32 opts.Page else 1) else 0) ∧
    (helper.Find D db coll filter opts).2 =
      [.CountDocuments coll filter, .Find coll filter (helper.convertFindOpts opts)] := by
  unfold helper.Find
  rw [hcount]
  by_cases hps : opts.PageSize > 0 <;>
    rcases hf : D.Find db coll filter (helper.convertFindOpts opts) with e | cur <;>
    simp [hf, hps, pagination.Result.zero]

/-- The limit and the skip `convertFindOpts` sets. -/
theorem convertFindOpts_fields (opts : FindOptions) :
    (helper.convertFindOpts opts).Limit =
      (if opts.PageSize > 0 then some opts.PageSize else none) ∧
    (helper.convertFindOpts opts).Skip =
      (if opts.PageSize > 0 ∧ opts.Page > 1 then
        some (toInt64 (toInt64 (opts.Page - 1) * opts.PageSize)) else none) := by
  unfold helper.convertFindOpts
  by_cases hps : opts.PageSize > 0 <;> by_cases hp : opts.Page > 1 <;>
    by_cases hs : opts.Sorting.length > 0 <;> simp [hps, hp, hs]

/-- C16, as stated, fails for a count of `2^31`: the ceiling is right, the
reported total is `-2^31`. -/
theorem Find_total_wraps :
    (countDriver 2147483648).CountDocuments testDB "test" (some []) = .ok 2147483648 ∧
    (helper.Find (countDriver 2147483648) testDB "test" (some [])
      { PageSize := 2, Page := 0, Sorting := [] }).1.1.Total = -2147483648 ∧
    (helper.Find (countDriver 2147483648) testDB "test" (some [])
      { PageSize := 2, Page := 0, Sorting := [] }).1.1.NumberOfPages = 1073741824 :=
  ⟨rfl, by decide, by decide⟩

/-- C16, amended: for every count `total` the store reports with
`0 ≤ total < 2^31` and every page size above zero, the `NumberOfPages` in the
result of `Find` is the ceiling of `total / pageSize`, the `Total` is `total`,
and a `total` of zero gives zero pages. -/
theorem Find_number_of_pages {DB : Type} (D : Driver DB) (db : DB) (coll : String)
    (filter : Filter) (opts : FindOptions) (total : Int)
    (hcount : D.CountDocuments db coll filter = .ok total)
    (h0 : 0 ≤ total) (hmax : total < 2147483648) (hps : 0 < opts.PageSize) :
    (helper.Find D db coll filter opts).1.1.NumberOfPages =
      ⌈(total : ℚ) / (opts.PageSize : ℚ)⌉ ∧
    (helper.Find D db coll filter opts).1.1.Total = total ∧
    (total = 0 → (helper.Find D db coll filter opts).1.1.NumberOfPages = 0) := by
  obtain ⟨hT, _, hN, _, _⟩ := Find_fields D db coll filter opts total hcount
  have hb := ceilQuotient_bounds total opts.PageSize h0 hps
  have hN1 : (helper.Find D db coll filter opts).1.1.NumberOfPages =
      ceilQuotient total opts.PageSize := by
    rw [hN, if_pos hps, toInt32_of_range _ (by omega) (by omega)]
  refine ⟨?_, ?_, ?_⟩
  · rw [hN1, ceilQuotient_eq_ceil total opts.PageSize hps]
  · rw [hT, toInt32_of_range _ (by omega) (by omega)]
  · intro hz
    rw [hN1]
    omega

/-- C17, as stated, fails for a page size of `2^31`: the query is limited to
`2^31` items and the reported page size is `-2^31`. -/
theorem Find_page_size_wraps :
    (helper.Find (countDriver 5) testDB "test" (some [])
      { PageSize := 2147483648, Page := 0, Sorting := [] }).1.1.PageSize = -2147483648 ∧
    (helper.Find (countDriver 5) testDB "test" (some [])
      { PageSize := 2147483648, Page := 0, Sorting := [] }).2 =
      [.CountDocuments "test" (some []),
        .Find "test" (some []) { Limit := some 2147483648, Skip := none, SortSpec := none }] := by
  decide

/-- C17, amended: when the count succeeds, for every page size with
`0 < pageSize < 2^31` and every page with `0 ≤ page < 2^31`, `Find` reports
`CurrentPage = page` if `page > 1` and 1 otherwise, and `PageSize = pageSize`;
the query it issues right after the count is limited to `pageSize` items and
skips `(CurrentPage - 1) * pageSize` items when `page > 1`, and has no skip
otherwise. -/
theorem Find_current_page_and_query {DB : Type} (D : Driver DB) (db : DB) (coll : String)
    (filter : Filter) (opts : FindOptions) (total : Int)
    (hcount : D.CountDocuments db coll filter = .ok total)
    (hps : 0 < opts.PageSize) (hpsmax : opts.PageSize < 2147483648)
    (hp : 0 ≤ opts.Page) (hpmax : opts.Page < 2147483648) :
    (helper.Find D db coll filter opts).1.1.CurrentPage =
      (if opts.Page > 1 then opts.Page else 1) ∧
    (helper.Find D db coll filter opts).1.1.PageSize = opts.PageSize ∧
    (helper.Find D db coll filter opts).2 =
      [.CountDocuments coll filter, .Find coll filter (helper.convertFindOpts opts)] ∧
    (helper.convertFindOpts opts).Limit = some opts.PageSize ∧
    (helper.convertFindOpts opts).Skip =
      (if opts.Page > 1 then
        some (((helper.Find D db coll filter opts).1.1.CurrentPage - 1) * opts.PageSize)
       else none) := by
  obtain ⟨_, hS, _, hC, hcalls⟩ := Find_fields D db coll filter opts total hcount
  obtain ⟨hL, hK⟩ := convertFindOpts_fields opts
  have hC1 : (helper.Find D db coll filter opts).1.1.CurrentPage =
      (if opts.Page > 1 then opts.Page else 1) := by
    rw [hC, if_pos hps, toInt32_of_range _ (by omega) (by omega)]
  refine ⟨hC1, ?_, hcalls, ?_, ?_⟩
  · rw [hS, if_pos hps, toInt32_of_range _ (by omega) (by omega)]
  · rw [hL, if_pos hps]
  · rw [hK, hC1]
    by_cases hp1 : opts.Page > 1
    · have hprod0 : 0 ≤ (opts.Page - 1) * opts.PageSize :=
        mul_nonneg (by omega) (by omega)
      have hprod1 : (opts.Page - 1) * opts.PageSize < 2147483648 * 2147483648 := by
        nlinarith
      simp only [hps, hp1, and_self, if_true]
      rw [toInt64_of_range (opts.Page - 1) (by omega) (by omega),
        toInt64_of_range _ (by omega) (by omega)]
    · simp [hp1]

/-- C18, as stated, fails for a count of `2^31`: with a page size of zero the
reported total is `-2^31`. -/
theorem Find_unpaginated_total_wraps :
    (countDriver 2147483648).CountDocuments testDB "test" (some []) = .ok 2147483648 ∧
    (helper.Find (countDriver 2147483648) testDB "test" (some [])
      { PageSize := 0, Page := 3, Sorting := [] }).1.1 =
      { Items := [], Total := -2147483648, PageSize := 0, CurrentPage := 0,
        NumberOfPages := 0 } :=
  ⟨rfl, by decide⟩

/-- C18, amended: when the page size is zero and the count succeeds, for every
page, `CurrentPage`, `PageSize` and `NumberOfPages` in the result of `Find` are
zero, `Total` is the count as an int32, which is the count itself when it is
below `2^31`, and the query issued right after the count has no limit and no
skip. -/
theorem Find_unpaginated {DB : Type} (D : Driver DB) (db : DB) (coll : String)
    (filter : Filter) (opts : FindOptions) (total : Int)
    (hcount : D.CountDocuments db coll filter = .ok total) (hps : opts.PageSize = 0) :
    (helper.Find D db coll filter opts).1.1.CurrentPage = 0 ∧
    (helper.Find D db coll filter opts).1.1.PageSize = 0 ∧
    (helper.Find D db coll filter opts).1.1.NumberOfPages = 0 ∧
    (helper.Find D db coll filter opts).1.1.Total = toInt32 total ∧
    (0 ≤ total → total < 2147483648 → (helper.Find D db coll filter opts).1.1.Total = total) ∧
    (helper.Find D db coll filter opts).2 =
      [.CountDocuments coll filter, .Find coll filter (helper.convertFindOpts opts)] ∧
    (helper.convertFindOpts opts).Limit = none ∧
    (helper.convertFindOpts opts).Skip = none := by
  obtain ⟨hT, hS, hN, hC, hcalls⟩ := Find_fields D db coll filter opts total hcount
  obtain ⟨hL, hK⟩ := convertFindOpts_fields opts
  have hnot : ¬ opts.PageSize > 0 := by omega
  refine ⟨?_, ?_, ?_, hT, ?_, hcalls, ?_, ?_⟩
  · rw [hC, if_neg hnot]
  · rw [hS, if_neg hnot]
  · rw [hN, if_neg hnot]
  · intro h0 hmax
    rw [hT, toInt32_of_range _ (by omega) (by omega)]
  · rw [hL, if_neg hnot]
  · rw [hK, if_neg (fun h => hnot h.1)]

/-! ## The result of an insert -/

/-- C19: `GetIDFromInsertOneResult` returns the ObjectID and no error when
`InsertedID` is an ObjectID; in every other case it returns the zero ObjectID;
it returns no error when `InsertedID` is not nil, and `ErrUnexpectedInsertResult`
when it is nil, so the error is returned exactly when `InsertedID` is nil. -/
theorem GetIDFromInsertOneResult_three_ways :
    (∀ oid, helper.GetIDFromInsertOneResult { InsertedID := some (.oid oid) } = (oid, none)) ∧
    (∀ n, helper.GetIDFromInsertOneResult { InsertedID := some (.int n) } =
      (NilObjectID, none)) ∧
    (∀ s, helper.GetIDFromInsertOneResult { InsertedID := some (.str s) } =
      (NilObjectID, none)) ∧
    helper.GetIDFromInsertOneResult { InsertedID := none } =
      (NilObjectID, some ErrUnexpectedInsertResult) ∧
    (∀ res, (helper.GetIDFromInsertOneResult res).2 = some ErrUnexpectedInsertResult ↔
      res.InsertedID = none) ∧
    (∀ res, (helper.GetIDFromInsertOneResult res).2 = none ↔ res.InsertedID ≠ none) ∧
    (∀ res, (helper.GetIDFromInsertOneResult res).1 = NilObjectID ∨
      res.InsertedID = some (.oid (helper.GetIDFromInsertOneResult res).1)) := by
  refine ⟨fun _ => rfl, fun _ => rfl, fun _ => rfl, rfl, ?_, ?_, ?_⟩ <;>
    rintro ⟨_ | v⟩ <;> try cases v
  all_goals simp [helper.GetIDFromInsertOneResult]

/-- C20, as stated, fails for a string identity: `GetIDFromInsertOneResult`
returns the zero ObjectID and no error, and so does `InsertOne` of a model with
the string identity "test1". -/
theorem InsertOne_string_identity_accepted :
    helper.GetIDFromInsertOneResult { InsertedID := some (.str "string id") } =
      (NilObjectID, none) ∧
    (helper.InsertOne memDriver testDB "test2" ⟨.string "test1", "", 999⟩).1.1 =
      (NilObjectID, none) := by
  decide

/-- C20, amended: of the insert results that carry no ObjectID, the one whose
identity is nil is the unexpected one: `GetIDFromInsertOneResult`, and with it
`InsertOne`, returns `ErrUnexpectedInsertResult` for it; an identity that is not
nil and not an ObjectID is accepted with the zero ObjectID and no error. -/
theorem InsertOne_unexpected_result {DB : Type} (D : Driver DB) (db db1 : DB)
    (coll : String) (item : exampleModel) (res : mongo.InsertOneResult)
    (hins : D.InsertOne db coll item = (.ok res, db1))
    (hno : ∀ oid, res.InsertedID ≠ some (.oid oid)) :
    (res.InsertedID = none →
      helper.GetIDFromInsertOneResult res = (NilObjectID, some ErrUnexpectedInsertResult) ∧
      (helper.InsertOne D db coll item).1 =
        ((NilObjectID, some ErrUnexpectedInsertResult), db1)) ∧
    (res.InsertedID ≠ none →
      helper.GetIDFromInsertOneResult res = (NilObjectID, none) ∧
      (helper.InsertOne D db coll item).1 = ((NilObjectID, none), db1)) := by
  obtain ⟨id⟩ := res
  cases id with
  | none => simp [helper.InsertOne, hins, helper.GetIDFromInsertOneResult]
  | some v =>
    cases v with
    | oid oid => exact absurd rfl (hno oid)
    | int n => simp [helper.InsertOne, hins, helper.GetIDFromInsertOneResult]
    | str s => simp [helper.InsertOne, hins, helper.GetIDFromInsertOneResult]

/-! ## The helper at concrete stores -/

/-- The in-memory driver lists an index once it has created it. -/
theorem memDriver_reflects (coll : String) (db0 : MemDB) (model : mongo.IndexModel)
    (db1 : MemDB) (hc : memDriver.CreateOne db0 coll model = (none, db1)) :
    ∃ l1, memDriver.ListIndexes db1 coll = .ok l1 ∧ ∃ e ∈ l1, IndexNamed model.Name e := by
  simp only [memDriver, Prod.mk.injEq, true_and] at hc
  subst hc
  refine ⟨_, rfl, [("v", .int 2), ("name", .str model.Name)], ?_, ?_⟩
  · simp
  · simp [IndexNamed, List.lookup]

/-- C12 at the database of the tests: asked for the index "other_index" it does
not have, the helper lists the indexes and has the driver create the index,
which the database then holds; asked for the index "test_index" it has, the
helper only lists the indexes. -/
theorem AddIndexIfNotExists_creates_iff_absent_witness :
    memDriver.ListIndexes testDB "test" =
      .ok [[("v", .int 2), ("name", .str "test_index")]] ∧
    (∀ e ∈ [[("v", BsonValue.int 2), ("name", BsonValue.str "test_index")]],
      ¬ IndexNamed "other_index" e) ∧
    (∃ e ∈ [[("v", BsonValue.int 2), ("name", BsonValue.str "test_index")]],
      IndexNamed "test_index" e) ∧
    (memDriver.CreateOne testDB "test" { Keys := some [("foo", .int 1)], Name := "other_index" }).2 =
      { docs := [],
        indexes := [("test", { Keys := some [("foo", .int (-1))], Name := "test_index" }),
          ("test", { Keys := some [("foo", .int 1)], Name := "other_index" })] } ∧
    helper.AddIndexIfNotExists memDriver testDB "test" "other_index" (some [("foo", .int 1)]) =
      ((none, (memDriver.CreateOne testDB "test"
          { Keys := some [("foo", .int 1)], Name := "other_index" }).2),
        [.ListIndexes "test",
          .CreateOne "test" { Keys := some [("foo", .int 1)], Name := "other_index" }]) ∧
    helper.AddIndexIfNotExists memDriver testDB "test" "test_index"
      (some [("bar", .int (-1))]) = ((none, testDB), [.ListIndexes "test"]) :=
  ⟨rfl, fun e he => by rw [List.mem_singleton.1 he]; simp [IndexNamed, List.lookup],
    ⟨_, List.mem_singleton.2 rfl, rfl⟩, rfl,
    (AddIndexIfNotExists_creates_iff_absent memDriver testDB "test" "other_index"
      (some [("foo", .int 1)])).2.2.1 _ rfl
      (fun e he => by rw [List.mem_singleton.1 he]; simp [IndexNamed, List.lookup]),
    (AddIndexIfNotExists_creates_iff_absent memDriver testDB "test" "test_index"
      (some [("bar", .int (-1))])).2.2.2 _ rfl ⟨_, List.mem_singleton.2 rfl, rfl⟩⟩

/-- C13, amended, at the database of the tests, asked twice for the index
"new_index" it does not have. -/
theorem AddIndexIfNotExists_twice_witness :
    (∀ db0 model db1, memDriver.CreateOne db0 "test" model = (none, db1) →
      ∃ l1, memDriver.ListIndexes db1 "test" = .ok l1 ∧ ∃ e ∈ l1, IndexNamed model.Name e) ∧
    memDriver.ListIndexes testDB "test" =
      .ok [[("v", .int 2), ("name", .str "test_index")]] ∧
    ((∀ e ∈ [[("v", BsonValue.int 2), ("name", BsonValue.str "test_index")]],
        ¬ IndexNamed "new_index" e) →
      (memDriver.CreateOne testDB "test"
        { Keys := some [("bar", .int (-1))], Name := "new_index" }).1 = none) ∧
    ((helper.AddIndexIfNotExists memDriver testDB "test" "new_index"
        (some [("bar", .int (-1))])).1.1 = none ∧
    (helper.AddIndexIfNotExists memDriver
      (helper.AddIndexIfNotExists memDriver testDB "test" "new_index"
        (some [("bar", .int (-1))])).1.2 "test" "new_index"
        (some [("bar", .int (-1))])).1.1 = none ∧
    (helper.AddIndexIfNotExists memDriver
      (helper.AddIndexIfNotExists memDriver testDB "test" "new_index"
        (some [("bar", .int (-1))])).1.2 "test" "new_index"
        (some [("bar", .int (-1))])).1.2 =
        (helper.AddIndexIfNotExists memDriver testDB "test" "new_index"
          (some [("bar", .int (-1))])).1.2 ∧
    (helper.AddIndexIfNotExists memDriver
      (helper.AddIndexIfNotExists memDriver testDB "test" "new_index"
        (some [("bar", .int (-1))])).1.2 "test" "new_index"
        (some [("bar", .int (-1))])).2.filter DriverCall.isCreateOne = [] ∧
    ((∃ e ∈ [[("v", BsonValue.int 2), ("name", BsonValue.str "test_index")]],
        IndexNamed "new_index" e) →
      ((helper.AddIndexIfNotExists memDriver testDB "test" "new_index"
          (some [("bar", .int (-1))])).2 ++
        (helper.AddIndexIfNotExists memDriver
          (helper.AddIndexIfNotExists memDriver testDB "test" "new_index"
            (some [("bar", .int (-1))])).1.2 "test" "new_index"
            (some [("bar", .int (-1))])).2).filter DriverCall.isCreateOne = []) ∧
    ((∀ e ∈ [[("v", BsonValue.int 2), ("name", BsonValue.str "test_index")]],
        ¬ IndexNamed "new_index" e) →
      ((helper.AddIndexIfNotExists memDriver testDB "test" "new_index"
          (some [("bar", .int (-1))])).2 ++
        (helper.AddIndexIfNotExists memDriver
          (helper.AddIndexIfNotExists memDriver testDB "test" "new_index"
            (some [("bar", .int (-1))])).1.2 "test" "new_index"
            (some [("bar", .int (-1))])).2).filter DriverCall.isCreateOne =
        [.CreateOne "test" { Keys := some [("bar", .int (-1))], Name := "new_index" }])) :=
  ⟨memDriver_reflects "test", rfl, fun _ => rfl,
    AddIndexIfNotExists_twice memDriver testDB "test" "new_index" (some [("bar", .int (-1))])
      [[("v", .int 2), ("name", .str "test_index")]] (memDriver_reflects "test") rfl
      (fun _ => rfl)⟩

/-- C15 at a disconnected client, as in the test "error". -/
theorem AddIndexIfNotExists_surfaces_list_error_witness :
    downDriver.ListIndexes testDB "test" = .error "client is disconnected" ∧
    (helper.AddIndexIfNotExists downDriver testDB "test" "test_index"
        (some [("bar", .int (-1))]) =
      ((some "client is disconnected", testDB), [.ListIndexes "test"]) ∧
    (helper.AddIndexIfNotExists downDriver testDB "test" "test_index"
        (some [("bar", .int (-1))])).2.filter DriverCall.isCreateOne = [] ∧
    helper.HasIndex downDriver testDB "test" "test_index" =
      ((false, some "client is disconnected"), [.ListIndexes "test"])) :=
  ⟨rfl,
    AddIndexIfNotExists_surfaces_list_error downDriver testDB "test" "test_index"
      (some [("bar", .int (-1))]) "client is disconnected" rfl⟩

/-- C16, amended, at the test "paginate - first": two documents, page size 1. -/
theorem Find_number_of_pages_witness :
    memDriver.CountDocuments findDB "test" (some []) = .ok 2 ∧
    (0 : Int) ≤ 2 ∧ (2 : Int) < 2147483648 ∧
    0 < (FindOptions.mk 1 0 []).PageSize ∧
    ((helper.Find memDriver findDB "test" (some []) (FindOptions.mk 1 0 [])).1.1.NumberOfPages =
      ⌈((2 : Int) : ℚ) / ((FindOptions.mk 1 0 []).PageSize : ℚ)⌉ ∧
    (helper.Find memDriver findDB "test" (some []) (FindOptions.mk 1 0 [])).1.1.Total = 2 ∧
    ((2 : Int) = 0 →
      (helper.Find memDriver findDB "test" (some []) (FindOptions.mk 1 0 [])).1.1.NumberOfPages =
        0)) :=
  ⟨rfl, by decide, by decide, by decide,
    Find_number_of_pages memDriver findDB "test" (some []) (FindOptions.mk 1 0 []) 2 rfl
      (by decide) (by decide) (by decide)⟩

/-- C17, amended, at the test "paginate - second": page 2, page size 1. -/
theorem Find_current_page_and_query_witness :
    memDriver.CountDocuments findDB "test" (some []) = .ok 2 ∧
    0 < (FindOptions.mk 1 2 []).PageSize ∧ (FindOptions.mk 1 2 []).PageSize < 2147483648 ∧
    0 ≤ (FindOptions.mk 1 2 []).Page ∧ (FindOptions.mk 1 2 []).Page < 2147483648 ∧
    ((helper.Find memDriver findDB "test" (some []) (FindOptions.mk 1 2 [])).1.1.CurrentPage =
      (if (FindOptions.mk 1 2 []).Page > 1 then (FindOptions.mk 1 2 []).Page else 1) ∧
    (helper.Find memDriver findDB "test" (some []) (FindOptions.mk 1 2 [])).1.1.PageSize =
      (FindOptions.mk 1 2 []).PageSize ∧
    (helper.Find memDriver findDB "test" (some []) (FindOptions.mk 1 2 [])).2 =
      [.CountDocuments "test" (some []),
        .Find "test" (some []) (helper.convertFindOpts (FindOptions.mk 1 2 []))] ∧
    (helper.convertFindOpts (FindOptions.mk 1 2 [])).Limit =
      some (FindOptions.mk 1 2 []).PageSize ∧
    (helper.convertFindOpts (FindOptions.mk 1 2 [])).Skip =
      (if (FindOptions.mk 1 2 []).Page > 1 then
        some (((helper.Find memDriver findDB "test" (some [])
          (FindOptions.mk 1 2 [])).1.1.CurrentPage - 1) * (FindOptions.mk 1 2 []).PageSize)
       else none)) :=
  ⟨rfl, by decide, by decide, by decide, by decide,
    Find_current_page_and_query memDriver findDB "test" (some []) (FindOptions.mk 1 2 []) 2 rfl
      (by decide) (by decide) (by decide) (by decide)⟩

/-- C18, amended, at a run without page size on page 3. -/
theorem Find_unpaginated_witness :
    memDriver.CountDocuments findDB "test" (some []) = .ok 2 ∧
    (FindOptions.mk 0 3 []).PageSize = 0 ∧
    ((helper.Find memDriver findDB "test" (some []) (FindOptions.mk 0 3 [])).1.1.CurrentPage = 0 ∧
    (helper.Find memDriver findDB "test" (some []) (FindOptions.mk 0 3 [])).1.1.PageSize = 0 ∧
    (helper.Find memDriver findDB "test" (some []) (FindOptions.mk 0 3 [])).1.1.NumberOfPages =
      0 ∧
    (helper.Find memDriver findDB "test" (some []) (FindOptions.mk 0 3 [])).1.1.Total =
      toInt32 2 ∧
    ((0 : Int) ≤ 2 → (2 : Int) < 2147483648 →
      (helper.Find memDriver findDB "test" (some []) (FindOptions.mk 0 3 [])).1.1.Total = 2) ∧
    (helper.Find memDriver findDB "test" (some []) (FindOptions.mk 0 3 [])).2 =
      [.CountDocuments "test" (some []),
        .Find "test" (some []) (helper.convertFindOpts (FindOptions.mk 0 3 []))] ∧
    (helper.convertFindOpts (FindOptions.mk 0 3 [])).Limit = none ∧
    (helper.convertFindOpts (FindOptions.mk 0 3 [])).Skip = none) :=
  ⟨rfl, rfl,
    Find_unpaginated memDriver findDB "test" (some []) (FindOptions.mk 0 3 []) 2 rfl rfl⟩

/-- C20, amended, at the insert of a model with the string identity "test1". -/
theorem InsertOne_unexpected_result_witness :
    memDriver.InsertOne testDB "test2" ⟨.string "test1", "", 999⟩ =
      (.ok { InsertedID := some (.str "test1") },
        { testDB with docs := [("test2", ⟨.string "test1", "", 999⟩)] }) ∧
    (∀ oid, (mongo.InsertOneResult.mk (some (.str "test1"))).InsertedID ≠ some (.oid oid)) ∧
    (((mongo.InsertOneResult.mk (some (.str "test1"))).InsertedID = none →
      helper.GetIDFromInsertOneResult { InsertedID := some (.str "test1") } =
        (NilObjectID, some ErrUnexpectedInsertResult) ∧
      (helper.InsertOne memDriver testDB "test2" ⟨.string "test1", "", 999⟩).1 =
        ((NilObjectID, some ErrUnexpectedInsertResult),
          { testDB with docs := [("test2", ⟨.string "test1", "", 999⟩)] })) ∧
    ((mongo.InsertOneResult.mk (some (.str "test1"))).InsertedID ≠ none →
      helper.GetIDFromInsertOneResult { InsertedID := some (.str "test1") } =
        (NilObjectID, none) ∧
      (helper.InsertOne memDriver testDB "test2" ⟨.string "test1", "", 999⟩).1 =
        ((NilObjectID, none),
          { testDB with docs := [("test2", ⟨.string "test1", "", 999⟩)] }))) :=
  ⟨rfl, (fun _ h => by cases h),
    InsertOne_unexpected_result memDriver testDB
      { testDB with docs := [("test2", ⟨.string "test1", "", 999⟩)] } "test2"
      ⟨.string "test1", "", 999⟩ { InsertedID := some (.str "test1") } rfl
      (fun _ h => by cases h)⟩

/-! ## UpdateOne and the cursor of Find -/

/-- C21: `UpdateOne` makes one call, the replace, and keeps the state it gives.
When the replace fails its error is returned as it is; when it succeeds with a
matched count other than zero nil is returned; when it succeeds with a matched
count of zero `ErrNoMatches` is returned, and in no other case, the error of the
store not being that sentinel. -/
theorem UpdateOne_no_matches {DB : Type} (D : Driver DB) (db : DB) (coll : String)
    (filter : Filter) (item : exampleModel) :
    (helper.UpdateOne D db coll filter item).2 = [.ReplaceOne coll filter item] ∧
    (helper.UpdateOne D db coll filter item).1.2 = (D.ReplaceOne db coll filter item).2 ∧
    (∀ e, (D.ReplaceOne db coll filter item).1 = .error e →
      (helper.UpdateOne D db coll filter item).1.1 = some e) ∧
    (∀ n, (D.ReplaceOne db coll filter item).1 = .ok n → n ≠ 0 →
      (helper.UpdateOne D db coll filter item).1.1 = none) ∧
    ((D.ReplaceOne db coll filter item).1 = .ok 0 →
      (helper.UpdateOne D db coll filter item).1.1 = some ErrNoMatches) ∧
    ((D.ReplaceOne db coll filter item).1 ≠ .error ErrNoMatches →
      ((helper.UpdateOne D db coll filter item).1.1 = some ErrNoMatches ↔
        (D.ReplaceOne db coll filter item).1 = .ok 0)) := by
  have herr : ∀ e, (D.ReplaceOne db coll filter item).1 = .error e →
      helper.UpdateOne D db coll filter item =
        ((some e, (D.ReplaceOne db coll filter item).2), [.ReplaceOne coll filter item]) := by
    intro e h; simp [helper.UpdateOne, h]
  have hok : ∀ n, (D.ReplaceOne db coll filter item).1 = .ok n →
      helper.UpdateOne D db coll filter item =
        ((if n = 0 then some ErrNoMatches else none, (D.ReplaceOne db coll filter item).2),
          [.ReplaceOne coll filter item]) := by
    intro n h
    by_cases hn : n = 0 <;> simp [helper.UpdateOne, h, hn]
  rcases hres : (D.ReplaceOne db coll filter item).1 with e | n
  · rw [herr e hres]
    refine ⟨rfl, rfl, ?_, ?_, ?_, ?_⟩
    · intro e1 h1
      cases h1
      rfl
    · intro n h1
      cases h1
    · intro h1
      cases h1
    · intro hne
      constructor
      · intro h
        exact absurd (by rw [Option.some.inj h]) hne
      · intro h
        cases h
  · rw [hok n hres]
    refine ⟨rfl, rfl, ?_, ?_, ?_, ?_⟩
    · intro e1 h1
      cases h1
    · intro n1 h1 hn
      cases h1
      simp [hn]
    · intro h1
      cases h1
      simp
    · intro _
      constructor
      · intro h
        by_cases hn : n = 0
        · rw [hn]
        · simp [hn] at h
      · intro h
        cases h
        simp

/-- What the loop of `Find` gives: the items, one more for every document, and
the error of the last `Decode`, or the error it started with when the cursor
yields nothing. -/
theorem findLoop_spec :
    ∀ (cur : List (exampleModel × Option String)) (items : List exampleModel)
      (err : Option String),
      helper.findLoop cur items err =
        (items ++ cur.map Prod.fst, (cur.getLast?.map Prod.snd).getD err)
  | [], items, err => by simp [helper.findLoop]
  | [d], items, err => by simp [helper.findLoop]
  | d :: d1 :: rest, items, err => by
    rw [helper.findLoop, findLoop_spec (d1 :: rest), List.getLast?_cons_cons]
    cases hl : (d1 :: rest).getLast? with
    | none => simp at hl
    | some x => simp

/-- C25: when the count and the query succeed, `Items` holds one entry for every
document the cursor yields, in order, decoded or not, and the error `Find`
returns is what `Decode` returned for the last document, nil when there is
none: a cursor that ends with a document that decodes gives nil whatever
happened before, and one that ends with a document that does not decode gives
that error. -/
theorem Find_items_and_last_decode_error {DB : Type} (D : Driver DB) (db : DB)
    (coll : String) (filter : Filter) (opts : FindOptions) (total : Int)
    (cur : List (exampleModel × Option String))
    (hcount : D.CountDocuments db coll filter = .ok total)
    (hfind : D.Find db coll filter (helper.convertFindOpts opts) = .ok cur) :
    (helper.Find D db coll filter opts).1.1.Items = cur.map Prod.fst ∧
    (helper.Find D db coll filter opts).1.1.Items.length = cur.length ∧
    (helper.Find D db coll filter opts).1.2 = (cur.getLast?.map Prod.snd).getD none ∧
    (∀ pre x, cur = pre ++ [(x, none)] → (helper.Find D db coll filter opts).1.2 = none) ∧
    (∀ pre x e, cur = pre ++ [(x, some e)] →
      (helper.Find D db coll filter opts).1.2 = some e) := by
  have hI : (helper.Find D db coll filter opts).1.1.Items = cur.map Prod.fst := by
    unfold helper.Find
    simp [hcount, hfind, findLoop_spec]
  have hE : (helper.Find D db coll filter opts).1.2 = (cur.getLast?.map Prod.snd).getD none := by
    unfold helper.Find
    simp [hcount, hfind, findLoop_spec]
  refine ⟨hI, by rw [hI, List.length_map], hE, ?_, ?_⟩
  · rintro pre x rfl
    rw [hE]; simp
  · rintro pre x e rfl
    rw [hE]; simp

/-! ## The prototype and the identity of inserted items -/

/-- C23: a task with one item whose filter finds the document with identity 77.
Before the call the struct `task.Model` points to is the zero model; after it,
that struct holds the document the lookup found. With a second item that has no
match the struct still holds the document of the first, and the write for the
second item is an update under that identity. -/
theorem SeedData_overwrites_prototype :
    (memWorld heapObj [("test", ⟨.objectID ⟨77⟩, "old", 999⟩)]).heap 0 =
      ⟨.objectID NilObjectID, "", 0⟩ ∧
    (SeedData memHelper (some (seedTask byNum false [1]))
        (memWorld heapObj [("test", ⟨.objectID ⟨77⟩, "old", 999⟩)])).1 = none ∧
    (SeedData memHelper (some (seedTask byNum false [1]))
        (memWorld heapObj [("test", ⟨.objectID ⟨77⟩, "old", 999⟩)])).2.heap 0 =
      ⟨.objectID ⟨77⟩, "old", 999⟩ ∧
    (SeedData memHelper (some (seedTask byNum false [1, 2]))
        (memWorld heapObj [("test", ⟨.objectID ⟨77⟩, "old", 999⟩)])).2.heap 0 =
      ⟨.objectID ⟨77⟩, "old", 999⟩ ∧
    (SeedData memHelper (some (seedTask byNum false [1, 2]))
        (memWorld heapObj [("test", ⟨.objectID ⟨77⟩, "old", 999⟩)])).2.trace.getLast? =
      some (.UpdateOne "test" (some [("num", .int 1000)]) 2 ⟨.objectID ⟨77⟩, "test2", 1000⟩
        (some (.plain "no matches found for query"))) := by
  refine ⟨by decide, by decide, by decide, by decide, by decide⟩

/-- Recording a call generates no identity. -/
@[simp] theorem log_issued {S : Type} (w : World S) (e : Event) :
    (w.log e).issued = w.issued := rfl

/-- Writing a struct generates no identity. -/
@[simp] theorem store_issued {S : Type} (w : World S) (p : Ptr) (m : exampleModel) :
    (w.store p m).issued = w.issued := rfl

/-- The trace of the insert branch, with the item as it is inserted. -/
theorem insertItem_spec {S : Type} (h : MongoHelper S) (coll : String) (existing it : Ptr)
    (w : World S) (hkind : (w.heap existing).GetID.isObjectID = true) :
    ∃ err, (insertItem h coll existing it w).1 = err ∧
      (insertItem h coll existing it w).2.trace = w.trace ++
        [.InsertOne coll it ((w.heap it).SetID (.objectID ⟨w.issued + 1⟩)) err] ∧
      (insertItem h coll existing it w).2.heap it =
        (w.heap it).SetID (.objectID ⟨w.issued + 1⟩) ∧
      (insertItem h coll existing it w).2.issued = w.issued + 1 := by
  refine ⟨_, rfl, ?_, ?_, ?_⟩ <;>
    simp [insertItem, hkind, NewObjectID, World.store, World.log]

/-- One iteration of the loop for an item whose filter finds nothing, while the
prototype has an ObjectID identity and does not exist: the filter function, the
lookup, the insert under a newly generated identity, and the callback if the
insert succeeds and there is one. -/
theorem seedLoop_not_found {S : Type} (h : MongoHelper S) (coll : String)
    (fn : FindFilterFunction) (cb : Bool) (existing it : Ptr) (errs : Option (List String))
    (w : World S) (f : BsonM)
    (hfn : fn (w.heap it) = (some f, none))
    (hfind : h.FindOne w.db coll (some f) = none)
    (hkind : (w.heap existing).GetID.isObjectID = true)
    (hex : (w.heap existing).Exists = false) :
    ∃ err, (seedLoop h coll fn cb existing [it] errs w).2.trace = w.trace ++
        [.FindFilterFn it (w.heap it) (some f) none, .FindOne coll (some f) existing none,
          .InsertOne coll it ((w.heap it).SetID (.objectID ⟨w.issued + 1⟩)) err] ++
        (if cb = true ∧ err = none then
          [.Callback it ((w.heap it).SetID (.objectID ⟨w.issued + 1⟩))]
         else []) ∧
      (seedLoop h coll fn cb existing [it] errs w).2.heap it =
        (w.heap it).SetID (.objectID ⟨w.issued + 1⟩) ∧
      (seedLoop h coll fn cb existing [it] errs w).2.issued = w.issued + 1 := by
  have hrec : reconcile h coll fn existing it w =
      insertItem h coll existing it
        ((w.log (.FindFilterFn it (w.heap it) (some f) none)).log
          (.FindOne coll (some f) existing none)) := by
    simp [reconcile, hfn, lookup, hfind, hex]
  generalize hu : ((w.log (.FindFilterFn it (w.heap it) (some f) none)).log
          (.FindOne coll (some f) existing none)) = u at hrec
  have hut : u.trace = w.trace ++ [.FindFilterFn it (w.heap it) (some f) none,
      .FindOne coll (some f) existing none] := by subst hu; simp
  have huh : u.heap = w.heap := by subst hu; simp
  have hui : u.issued = w.issued := by subst hu; rfl
  obtain ⟨err, he, htr, hheap, hiss⟩ := insertItem_spec h coll existing it u (by rw [huh]; exact hkind)
  rw [hut, huh, hui] at htr
  rw [huh, hui] at hheap
  rw [hui] at hiss
  refine ⟨err, ?_⟩
  rw [seedLoop, hrec, he]
  cases err with
  | some e => simp [seedLoop, htr, hheap, hiss]
  | none =>
    cases cb <;> simp [seedLoop, htr, hheap, hiss]

/-- C24: take an item `it` after any items `pre` of a task that passes
validation, and let its filter be `f` and the lookup with `f` find nothing,
while the prototype has an ObjectID identity and does not exist. Then the calls
for `it` are the filter function, the lookup, and an insert (no update),
followed by the callback if the insert succeeds and there is one; the item is
inserted with the identity `NewObjectID` generates at that point, whatever
identity it had, zero or not: that identity is not the zero one, it is counted
as issued, and the item keeps it. The items after `it` only add calls after
these. -/
theorem SeedData_insert_new_identity {S : Type} (h : MongoHelper S) (coll : String)
    (model : Ptr) (fn : FindFilterFunction) (cb : Bool) (pre : List Ptr) (it : Ptr)
    (post : List Ptr) (w : World S) (f : BsonM) (hcoll : coll ≠ "")
    (hfn : fn ((SeedData h (some ⟨coll, some model, some fn, cb, pre⟩) w).2.heap it) =
      (some f, none))
    (hfind : h.FindOne (SeedData h (some ⟨coll, some model, some fn, cb, pre⟩) w).2.db coll
      (some f) = none)
    (hkind : ((SeedData h (some ⟨coll, some model, some fn, cb, pre⟩) w).2.heap
      model).GetID.isObjectID = true)
    (hex : ((SeedData h (some ⟨coll, some model, some fn, cb, pre⟩) w).2.heap
      model).Exists = false) :
    ∃ v err,
      (SeedData h (some ⟨coll, some model, some fn, cb, pre ++ [it]⟩) w).2.trace =
        (SeedData h (some ⟨coll, some model, some fn, cb, pre⟩) w).2.trace ++
          [.FindFilterFn it
              ((SeedData h (some ⟨coll, some model, some fn, cb, pre⟩) w).2.heap it) (some f) none,
            .FindOne coll (some f) model none,
            .InsertOne coll it v err] ++
          (if cb = true ∧ err = none then [.Callback it v] else []) ∧
      v = ((SeedData h (some ⟨coll, some model, some fn, cb, pre⟩) w).2.heap it).SetID
        (.objectID (NewObjectID (SeedData h (some ⟨coll, some model, some fn, cb, pre⟩) w).2).1) ∧
      v.GetID = .objectID
        ⟨(SeedData h (some ⟨coll, some model, some fn, cb, pre⟩) w).2.issued + 1⟩ ∧
      v.GetID ≠ .objectID NilObjectID ∧
      (SeedData h (some ⟨coll, some model, some fn, cb, pre ++ [it]⟩) w).2.issued =
        (SeedData h (some ⟨coll, some model, some fn, cb, pre⟩) w).2.issued + 1 ∧
      (SeedData h (some ⟨coll, some model, some fn, cb, pre ++ [it]⟩) w).2.heap it = v ∧
      (SeedData h (some ⟨coll, some model, some fn, cb, pre ++ [it]⟩) w).2.trace <+:
        (SeedData h (some ⟨coll, some model, some fn, cb, pre ++ it :: post⟩) w).2.trace := by
  have hgrow := SeedData_trace_grows h coll model fn cb (pre ++ [it]) post w hcoll
  rw [List.append_assoc, List.singleton_append] at hgrow
  rw [SeedData_valid h coll model fn cb pre w hcoll] at hfn hfind hkind hex
  rw [SeedData_valid h coll model fn cb (pre ++ [it]) w hcoll,
    SeedData_valid h coll model fn cb pre w hcoll] at *
  simp only at hfn hfind hkind hex ⊢
  rw [seedLoop_append]
  obtain ⟨err, htr, hheap, hiss⟩ := seedLoop_not_found h coll fn cb model it
    (seedLoop h coll fn cb model pre none w).1 (seedLoop h coll fn cb model pre none w).2
    f hfn hfind hkind hex
  refine ⟨_, err, htr, rfl, rfl, ?_, hiss, hheap, ?_⟩
  · simp [exampleModel.GetID, exampleModel.SetID, NilObjectID]
  · simp only [seedLoop_append] at hgrow
    exact hgrow

/-- C24 at a run on an empty store with an item the caller gave the identity 5:
it is inserted under the identity 1, the first one generated. -/
theorem SeedData_insert_new_identity_witness :
    "test" ≠ "" ∧
    byNum ((SeedData memHelper (some ⟨"test", some 0, some byNum, true, []⟩)
      (memWorld heapOwn [])).2.heap 1) = (some [("num", .int 999)], none) ∧
    memHelper.FindOne (SeedData memHelper (some ⟨"test", some 0, some byNum, true, []⟩)
      (memWorld heapOwn [])).2.db "test" (some [("num", .int 999)]) = none ∧
    ((SeedData memHelper (some ⟨"test", some 0, some byNum, true, []⟩)
      (memWorld heapOwn [])).2.heap 0).GetID.isObjectID = true ∧
    ((SeedData memHelper (some ⟨"test", some 0, some byNum, true, []⟩)
      (memWorld heapOwn [])).2.heap 0).Exists = false ∧
    (memWorld heapOwn []).heap 1 = ⟨.objectID ⟨5⟩, "test1", 999⟩ ∧
    ∃ v err,
      (SeedData memHelper (some ⟨"test", some 0, some byNum, true, [] ++ [1]⟩)
        (memWorld heapOwn [])).2.trace =
        (SeedData memHelper (some ⟨"test", some 0, some byNum, true, []⟩)
          (memWorld heapOwn [])).2.trace ++
          [.FindFilterFn 1
              ((SeedData memHelper (some ⟨"test", some 0, some byNum, true, []⟩)
                (memWorld heapOwn [])).2.heap 1) (some [("num", .int 999)]) none,
            .FindOne "test" (some [("num", .int 999)]) 0 none,
            .InsertOne "test" 1 v err] ++
          (if true = true ∧ err = none then [.Callback 1 v] else []) ∧
      v = ((SeedData memHelper (some ⟨"test", some 0, some byNum, true, []⟩)
          (memWorld heapOwn [])).2.heap 1).SetID
        (.objectID (NewObjectID (SeedData memHelper
          (some ⟨"test", some 0, some byNum, true, []⟩) (memWorld heapOwn [])).2).1) ∧
      v.GetID = .objectID
        ⟨(SeedData memHelper (some ⟨"test", some 0, some byNum, true, []⟩)
          (memWorld heapOwn [])).2.issued + 1⟩ ∧
      v.GetID ≠ .objectID NilObjectID ∧
      (SeedData memHelper (some ⟨"test", some 0, some byNum, true, [] ++ [1]⟩)
        (memWorld heapOwn [])).2.issued =
        (SeedData memHelper (some ⟨"test", some 0, some byNum, true, []⟩)
          (memWorld heapOwn [])).2.issued + 1 ∧
      (SeedData memHelper (some ⟨"test", some 0, some byNum, true, [] ++ [1]⟩)
        (memWorld heapOwn [])).2.heap 1 = v ∧
      (SeedData memHelper (some ⟨"test", some 0, some byNum, true, [] ++ [1]⟩)
        (memWorld heapOwn [])).2.trace <+:
        (SeedData memHelper (some ⟨"test", some 0, some byNum, true, [] ++ 1 :: []⟩)
          (memWorld heapOwn [])).2.trace :=
  ⟨by decide, by decide, by decide, by decide, by decide, by decide,
    SeedData_insert_new_identity memHelper "test" 0 byNum true [] 1 []
      (memWorld heapOwn []) [("num", .int 999)] (by decide) (by decide) (by decide)
      (by decide) (by decide)⟩

/-- One run of `reconcile` while the prototype has an identity that is not an
ObjectID, with a helper whose lookups give such models: no identity is
generated, no struct other than the prototype is written, and the prototype
keeps an identity of that kind. -/
theorem reconcile_frame {S : Type} (h : MongoHelper S) (coll : String)
    (fn : FindFilterFunction) (existing it : Ptr) (w : World S)
    (hkind : ∀ db c f d, h.FindOne db c f = some d → d.GetID.isObjectID = false)
    (hproto : (w.heap existing).GetID.isObjectID = false) :
    (reconcile h coll fn existing it w).2.issued = w.issued ∧
    (∀ p, p ≠ existing → (reconcile h coll fn existing it w).2.heap p = w.heap p) ∧
    ((reconcile h coll fn existing it w).2.heap existing).GetID.isObjectID = false := by
  unfold reconcile
  rcases hfn : fn (w.heap it) with ⟨f, e⟩
  cases e with
  | some e => exact ⟨rfl, fun _ _ => rfl, hproto⟩
  | none =>
    simp only
    generalize hu : w.log (.FindFilterFn it (w.heap it) f none) = u
    have hl : (lookup h coll f existing u).issued = w.issued ∧
        (∀ p, p ≠ existing → (lookup h coll f existing u).heap p = w.heap p) ∧
        ((lookup h coll f existing u).heap existing).GetID.isObjectID = false := by
      subst hu
      unfold lookup
      cases f with
      | none => exact ⟨rfl, fun _ _ => rfl, hproto⟩
      | some f =>
        simp only
        cases hfind : h.FindOne (w.log (.FindFilterFn it (w.heap it) (some f) none)).db coll
          (some f) with
        | none => exact ⟨rfl, fun _ _ => rfl, hproto⟩
        | some d =>
          refine ⟨rfl, fun p hp => ?_, ?_⟩
          · simp [hp]
          · simpa using hkind _ _ _ _ hfind
    generalize lookup h coll f existing u = v at hl
    obtain ⟨hi, hh, hk⟩ := hl
    split
    · refine ⟨?_, fun p hp => ?_, ?_⟩
      · simp [insertItem, hk, hi]
      · simp [insertItem, hk, hh p hp]
      · simp [insertItem, hk]
    · refine ⟨?_, fun p hp => ?_, ?_⟩
      · simp [updateItem, hk, hi]
      · simp [updateItem, hk, hh p hp]
      · simp [updateItem, hk]

/-- The loop while the prototype has an identity that is not an ObjectID, with a
helper whose lookups give such models: no identity is generated, no struct
other than the prototype is written, and every write passes the item as it was
before the loop. -/
theorem seedLoop_no_identity {S : Type} (h : MongoHelper S) (coll : String)
    (fn : FindFilterFunction) (cb : Bool) (existing : Ptr)
    (hkind : ∀ db c f d, h.FindOne db c f = some d → d.GetID.isObjectID = false) :
    ∀ (items : List Ptr) (errs : Option (List String)) (w : World S),
      (w.heap existing).GetID.isObjectID = false →
      (seedLoop h coll fn cb existing items errs w).2.issued = w.issued ∧
      (∀ p, p ≠ existing → (seedLoop h coll fn cb existing items errs w).2.heap p = w.heap p) ∧
      ∃ new, (seedLoop h coll fn cb existing items errs w).2.trace = w.trace ++ new ∧
        ∀ e ∈ new, e.isWrite = true → ∀ p, e.item = some p → p ≠ existing →
          e.val = some (w.heap p)
  | [], errs, w, _ => ⟨rfl, fun _ _ => rfl, [], by simp [seedLoop], by simp⟩
  | it :: rest, errs, w, hproto => by
    obtain ⟨hi, hh, hk⟩ := reconcile_frame h coll fn existing it w hkind hproto
    have hcalls := reconcile_calls h coll fn existing it w
    rw [seedLoop]
    cases hr : (reconcile h coll fn existing it w).1 with
    | some e =>
      simp only
      obtain ⟨hi2, hh2, new, htr, hnew⟩ := seedLoop_no_identity h coll fn cb existing hkind rest
        (Append (some (.multi errs)) [some e]) (reconcile h coll fn existing it w).2 hk
      rcases hcalls with ⟨v, f, e1, _, _, ht⟩ | ⟨v, f, look, wr, _, hlook, ⟨err, hwr⟩, _, ht⟩
      · refine ⟨by rw [hi2, hi], fun p hp => by rw [hh2 p hp, hh p hp], _, by rw [htr, ht,
          List.append_assoc], ?_⟩
        intro x hx hw p hp hne
        rcases List.mem_append.1 hx with hx | hx
        · simp at hx; subst hx; simp at hw
        · rw [hnew x hx hw p hp hne, hh p hne]
      · refine ⟨by rw [hi2, hi], fun p hp => by rw [hh2 p hp, hh p hp], _, by rw [htr, ht,
          List.append_assoc], ?_⟩
        intro x hx hw p hp hne
        rcases List.mem_append.1 hx with hx | hx
        · rcases List.mem_cons.1 hx with hx | hx
          · subst hx; simp at hw
          · rcases List.mem_append.1 hx with hx | hx
            · rcases hlook with ⟨rfl, _⟩ | ⟨found, rfl⟩
              · simp at hx
              · simp at hx; subst hx; simp at hw
            · simp at hx; subst hx
              rcases hwr with rfl | rfl <;> simp at hp <;> subst hp <;> simp [hh _ hne]
        · rw [hnew x hx hw p hp hne, hh p hne]
    | none =>
      simp only
      generalize hu : (if cb = true then
        (reconcile h coll fn existing it w).2.log
          (.Callback it ((reconcile h coll fn existing it w).2.heap it))
        else (reconcile h coll fn existing it w).2) = u
      have hui : u.issued = (reconcile h coll fn existing it w).2.issued := by
        subst hu; split <;> rfl
      have huh : u.heap = (reconcile h coll fn existing it w).2.heap := by
        subst hu; split <;> rfl
      have hut : ∃ tail, u.trace = (reconcile h coll fn existing it w).2.trace ++ tail ∧
          ∀ x ∈ tail, x.isWrite = false := by
        subst hu
        split
        · exact ⟨_, rfl, by simp⟩
        · exact ⟨[], by simp, by simp⟩
      obtain ⟨tail, hut, htail⟩ := hut
      obtain ⟨hi2, hh2, new, htr, hnew⟩ := seedLoop_no_identity h coll fn cb existing hkind rest
        errs u (by rw [huh]; exact hk)
      rw [huh] at hh2 hnew
      rcases hcalls with ⟨v, f, e1, _, _, ht⟩ | ⟨v, f, look, wr, _, hlook, ⟨err, hwr⟩, _, ht⟩
      · refine ⟨by rw [hi2, hui, hi], fun p hp => by rw [hh2 p hp, hh p hp], _, by rw [htr, hut,
          ht, List.append_assoc, List.append_assoc], ?_⟩
        intro x hx hw p hp hne
        rcases List.mem_append.1 hx with hx | hx
        · simp at hx; subst hx; simp at hw
        · rcases List.mem_append.1 hx with hx | hx
          · rw [htail x hx] at hw; cases hw
          · rw [hnew x hx hw p hp hne, hh p hne]
      · refine ⟨by rw [hi2, hui, hi], fun p hp => by rw [hh2 p hp, hh p hp], _, by rw [htr, hut,
          ht, List.append_assoc, List.append_assoc], ?_⟩
        intro x hx hw p hp hne
        rcases List.mem_append.1 hx with hx | hx
        · rcases List.mem_cons.1 hx with hx | hx
          · subst hx; simp at hw
          · rcases List.mem_append.1 hx with hx | hx
            · rcases hlook with ⟨rfl, _⟩ | ⟨found, rfl⟩
              · simp at hx
              · simp at hx; subst hx; simp at hw
            · simp at hx; subst hx
              rcases hwr with rfl | rfl <;> simp at hp <;> subst hp <;> simp [hh _ hne]
        · rcases List.mem_append.1 hx with hx | hx
          · rw [htail x hx] at hw; cases hw
          · rw [hnew x hx hw p hp hne, hh p hne]

/-- C22: a task that passes validation, with a prototype whose identity is not
an ObjectID and a helper whose lookups give models of that kind. Whatever the
items and the outcomes of the lookups, `SeedData` generates no identity, writes
to no struct other than the prototype, and passes every item other than the
prototype to the helper as the caller supplied it: every insert, and every
update, carries the item with its content and identity from before the call. -/
theorem SeedData_no_identity_synthesized {S : Type} (h : MongoHelper S) (coll : String)
    (model : Ptr) (fn : FindFilterFunction) (cb : Bool) (items : List Ptr) (w : World S)
    (hcoll : coll ≠ "")
    (hkind : ∀ db c f d, h.FindOne db c f = some d → d.GetID.isObjectID = false)
    (hproto : (w.heap model).GetID.isObjectID = false) :
    (SeedData h (some ⟨coll, some model, some fn, cb, items⟩) w).2.issued = w.issued ∧
    (∀ p, p ≠ model →
      (SeedData h (some ⟨coll, some model, some fn, cb, items⟩) w).2.heap p = w.heap p) ∧
    ∃ new, (SeedData h (some ⟨coll, some model, some fn, cb, items⟩) w).2.trace =
        w.trace ++ new ∧
      (∀ c p v err, Event.InsertOne c p v err ∈ new → p ≠ model →
        v = w.heap p ∧ v.GetID = (w.heap p).GetID) ∧
      ∀ e ∈ new, e.isWrite = true → ∀ p, e.item = some p → p ≠ model →
        e.val = some (w.heap p) := by
  rw [SeedData_valid h coll model fn cb items w hcoll]
  obtain ⟨hi, hh, new, htr, hnew⟩ :=
    seedLoop_no_identity h coll fn cb model hkind items none w hproto
  refine ⟨hi, hh, new, htr, ?_, hnew⟩
  intro c p v err hmem hne
  have hv := hnew _ hmem rfl p rfl hne
  have hv2 : v = w.heap p := Option.some.inj hv
  exact ⟨hv2, by rw [hv2]⟩

/-- The lookups of `strHelper` give models with a string identity. -/
theorem strHelper_kind (db : MemStore) (c : String) (f : Filter) (d : exampleModel)
    (hd : strHelper.FindOne db c f = some d) : d.GetID.isObjectID = false := by
  have hd1 : (db.find? (fun e => memMatches c f e && !e.2.ID.isObjectID)).map (·.2) =
      some d := hd
  cases ha : db.find? (fun e => memMatches c f e && !e.2.ID.isObjectID) with
  | none => rw [ha] at hd1; cases hd1
  | some a =>
    rw [ha] at hd1
    have hp := List.find?_some ha
    simp only [Bool.and_eq_true, Bool.not_eq_true'] at hp
    cases hd1
    exact hp.2

/-- C22 at a run on an empty store with the item of string identity "b": it is
inserted with that identity. -/
theorem SeedData_no_identity_synthesized_witness :
    "test" ≠ "" ∧
    (∀ db c f d, strHelper.FindOne db c f = some d → d.GetID.isObjectID = false) ∧
    ((memWorld heapStr []).heap 0).GetID.isObjectID = false ∧
    (SeedData strHelper (some ⟨"test", some 0, some byNum, true, [1]⟩)
      (memWorld heapStr [])).2.trace =
      [.FindFilterFn 1 ⟨.string "b", "", 1⟩ (some [("num", .int 1)]) none,
        .FindOne "test" (some [("num", .int 1)]) 0 none,
        .InsertOne "test" 1 ⟨.string "b", "", 1⟩ none,
        .Callback 1 ⟨.string "b", "", 1⟩] ∧
    ((SeedData strHelper (some ⟨"test", some 0, some byNum, true, [1]⟩)
      (memWorld heapStr [])).2.issued = (memWorld heapStr []).issued ∧
    (∀ p, p ≠ 0 →
      (SeedData strHelper (some ⟨"test", some 0, some byNum, true, [1]⟩)
        (memWorld heapStr [])).2.heap p = (memWorld heapStr []).heap p) ∧
    ∃ new, (SeedData strHelper (some ⟨"test", some 0, some byNum, true, [1]⟩)
        (memWorld heapStr [])).2.trace = (memWorld heapStr []).trace ++ new ∧
      (∀ c p v err, Event.InsertOne c p v err ∈ new → p ≠ 0 →
        v = (memWorld heapStr []).heap p ∧ v.GetID = ((memWorld heapStr []).heap p).GetID) ∧
      ∀ e ∈ new, e.isWrite = true → ∀ p, e.item = some p → p ≠ 0 →
        e.val = some ((memWorld heapStr []).heap p)) :=
  ⟨by decide, strHelper_kind, by decide, by decide,
    SeedData_no_identity_synthesized strHelper "test" 0 byNum true [1] (memWorld heapStr [])
      (by decide) strHelper_kind (by decide)⟩

/-- C21 at three replacements on the collection of `Test_Find`: a filter that
matches nothing gives `ErrNoMatches`, a filter that matches gives nil, and a
replacement the store refuses gives the error of the store. -/
theorem UpdateOne_no_matches_witness :
    ((memDriver.ReplaceOne findDB "test" (some [("num", .int 5)])
        ⟨.objectID ⟨1⟩, "new", 5⟩).1 = .ok 0 ∧
      (helper.UpdateOne memDriver findDB "test" (some [("num", .int 5)])
        ⟨.objectID ⟨1⟩, "new", 5⟩).1.1 = some ErrNoMatches) ∧
    ((memDriver.ReplaceOne findDB "test" (some [("num", .int 999)])
        ⟨.objectID ⟨1⟩, "new", 999⟩).1 = .ok 1 ∧ (1 : Int) ≠ 0 ∧
      (helper.UpdateOne memDriver findDB "test" (some [("num", .int 999)])
        ⟨.objectID ⟨1⟩, "new", 999⟩).1.1 = none) ∧
    ((memDriver.ReplaceOne findDB "test" (some [("num", .int 999)])
        ⟨.objectID ⟨7⟩, "new", 999⟩).1 =
        .error "the (immutable) field '_id' was found to have been altered" ∧
      (helper.UpdateOne memDriver findDB "test" (some [("num", .int 999)])
        ⟨.objectID ⟨7⟩, "new", 999⟩).1.1 =
        some "the (immutable) field '_id' was found to have been altered") :=
  ⟨⟨rfl, (UpdateOne_no_matches memDriver findDB "test" (some [("num", .int 5)])
      ⟨.objectID ⟨1⟩, "new", 5⟩).2.2.2.2.1 rfl⟩,
    ⟨rfl, by decide, (UpdateOne_no_matches memDriver findDB "test" (some [("num", .int 999)])
      ⟨.objectID ⟨1⟩, "new", 999⟩).2.2.2.1 1 rfl (by decide)⟩,
    ⟨rfl, (UpdateOne_no_matches memDriver findDB "test" (some [("num", .int 999)])
      ⟨.objectID ⟨7⟩, "new", 999⟩).2.2.1 _ rfl⟩⟩

/-- C25 at a cursor of two documents of which the first does not decode: `Items`
has two entries and the error is nil. -/
theorem Find_items_and_last_decode_error_witness :
    badDocDriver.CountDocuments findDB "test" (some []) = .ok 2 ∧
    badDocDriver.Find findDB "test" (some []) (helper.convertFindOpts (FindOptions.mk 0 0 [])) =
      .ok [(⟨.objectID ⟨1⟩, "test string", 0⟩, some "cannot decode string into an integer type"),
        (⟨.objectID ⟨2⟩, "test", 999⟩, none)] ∧
    (helper.Find badDocDriver findDB "test" (some []) (FindOptions.mk 0 0 [])).1.1.Items =
      [⟨.objectID ⟨1⟩, "test string", 0⟩, ⟨.objectID ⟨2⟩, "test", 999⟩] ∧
    (helper.Find badDocDriver findDB "test" (some []) (FindOptions.mk 0 0 [])).1.1.Items.length =
      2 ∧
    (helper.Find badDocDriver findDB "test" (some []) (FindOptions.mk 0 0 [])).1.2 = none :=
  ⟨rfl, rfl,
    (Find_items_and_last_decode_error badDocDriver findDB "test" (some [])
      (FindOptions.mk 0 0 []) 2 _ rfl rfl).1,
    (Find_items_and_last_decode_error badDocDriver findDB "test" (some [])
      (FindOptions.mk 0 0 []) 2 _ rfl rfl).2.1,
    (Find_items_and_last_decode_error badDocDriver findDB "test" (some [])
      (FindOptions.mk 0 0 []) 2 _ rfl rfl).2.2.1⟩

end MongoGoHelper
